import Mathlib

/-! Shallow embedding of src/src/cube.cpp (scl94/cube-solver): a cubie-level
Rubik's cube with move application and the coordinate functions used by the
two-phase algorithm.  C++ `int` values in this file are always small and
non-negative (piece indices, orientations, ranks), so they are modelled as
`Nat`; the move identifier, an arbitrary C++ `int`, is modelled as `Int`.
-/

/-! Piece, twist/flip and move constants

Modelled from the spec: the constants live in the header `cube.h`, which is
not part of the sources given; only `cube.cpp` is.  The spec (sections 3 and
4.2) fixes: 8 corner positions and 12 edge positions named by home location,
used both as array indices and as cubie identities when solved; twist
contributions 0, +1, -1 as {none, CW, CCW} taken modulo 3 (so CCW is 2);
flip contributions 0 or 1; and 18 distinct move identifiers.  The edge
numbering below puts the RL-slice edges at 0..3, the FB-slice edges at 4..7
and the UD-slice edges at 8..11; this is the unique slice arrangement
consistent with the spec's statement that the edge permutation coordinate of
the solved state is 0. -/

def CORNER_URF : Nat := 0
def CORNER_UFL : Nat := 1
def CORNER_ULB : Nat := 2
def CORNER_UBR : Nat := 3
def CORNER_DFR : Nat := 4
def CORNER_DLF : Nat := 5
def CORNER_DBL : Nat := 6
def CORNER_DRB : Nat := 7

def EDGE_UF : Nat := 0
def EDGE_UB : Nat := 1
def EDGE_DB : Nat := 2
def EDGE_DF : Nat := 3
def EDGE_UR : Nat := 4
def EDGE_UL : Nat := 5
def EDGE_DL : Nat := 6
def EDGE_DR : Nat := 7
def EDGE_FR : Nat := 8
def EDGE_FL : Nat := 9
def EDGE_BL : Nat := 10
def EDGE_BR : Nat := 11

def TWIST_NONE : Nat := 0
def TWIST_CW : Nat := 1
def TWIST_CCW : Nat := 2
def FLIP_NONE : Nat := 0
def FLIP_FLIP : Nat := 1

def MOVE_U : Int := 0
def MOVE_U2 : Int := 1
def MOVE_UP : Int := 2
def MOVE_L : Int := 3
def MOVE_L2 : Int := 4
def MOVE_LP : Int := 5
def MOVE_F : Int := 6
def MOVE_F2 : Int := 7
def MOVE_FP : Int := 8
def MOVE_R : Int := 9
def MOVE_R2 : Int := 10
def MOVE_RP : Int := 11
def MOVE_B : Int := 12
def MOVE_B2 : Int := 13
def MOVE_BP : Int := 14
def MOVE_D : Int := 15
def MOVE_D2 : Int := 16
def MOVE_DP : Int := 17

/-- The list of the 18 legal move identifiers. -/
def legal_moves : List Int :=
  [MOVE_U, MOVE_U2, MOVE_UP, MOVE_L, MOVE_L2, MOVE_LP,
   MOVE_F, MOVE_F2, MOVE_FP, MOVE_R, MOVE_R2, MOVE_RP,
   MOVE_B, MOVE_B2, MOVE_BP, MOVE_D, MOVE_D2, MOVE_DP]

/-! Cube state (cube.cpp lines 76-105) -/

/-- The cubie-level cube state: the four member vectors of class `Cube`. -/
structure Cube where
  corner_permutation : List Nat
  corner_orientation : List Nat
  edge_permutation : List Nat
  edge_orientation : List Nat
deriving DecidableEq, Repr

/-- The default constructor `Cube::Cube()`: the solved state. -/
def Cube.solved : Cube :=
  { corner_permutation := [0, 1, 2, 3, 4, 5, 6, 7]
    corner_orientation := [0, 0, 0, 0, 0, 0, 0, 0]
    edge_permutation := [0, 1, 2, 3, 4, 5, 6, 7, 8, 9, 10, 11]
    edge_orientation := [0, 0, 0, 0, 0, 0, 0, 0, 0, 0, 0, 0] }

/-! Move application (cube.cpp lines 123-266) -/

/-- First switch of `Cube::perform_move`: the cyclic sequence of 4 corner
positions turned by the move's face.  An unmatched move leaves the local
vector empty (default-constructed). -/
def corners_moved (move : Int) : List Nat :=
  if move = MOVE_U ∨ move = MOVE_U2 ∨ move = MOVE_UP then
    [CORNER_URF, CORNER_UFL, CORNER_ULB, CORNER_UBR]
  else if move = MOVE_L ∨ move = MOVE_L2 ∨ move = MOVE_LP then
    [CORNER_UFL, CORNER_DLF, CORNER_DBL, CORNER_ULB]
  else if move = MOVE_F ∨ move = MOVE_F2 ∨ move = MOVE_FP then
    [CORNER_URF, CORNER_DFR, CORNER_DLF, CORNER_UFL]
  else if move = MOVE_R ∨ move = MOVE_R2 ∨ move = MOVE_RP then
    [CORNER_URF, CORNER_UBR, CORNER_DRB, CORNER_DFR]
  else if move = MOVE_B ∨ move = MOVE_B2 ∨ move = MOVE_BP then
    [CORNER_UBR, CORNER_ULB, CORNER_DBL, CORNER_DRB]
  else if move = MOVE_D ∨ move = MOVE_D2 ∨ move = MOVE_DP then
    [CORNER_DFR, CORNER_DRB, CORNER_DBL, CORNER_DLF]
  else []

/-- First switch of `Cube::perform_move`: the cyclic sequence of 4 edge
positions turned by the move's face. -/
def edges_moved (move : Int) : List Nat :=
  if move = MOVE_U ∨ move = MOVE_U2 ∨ move = MOVE_UP then
    [EDGE_UF, EDGE_UL, EDGE_UB, EDGE_UR]
  else if move = MOVE_L ∨ move = MOVE_L2 ∨ move = MOVE_LP then
    [EDGE_UL, EDGE_FL, EDGE_DL, EDGE_BL]
  else if move = MOVE_F ∨ move = MOVE_F2 ∨ move = MOVE_FP then
    [EDGE_UF, EDGE_FR, EDGE_DF, EDGE_FL]
  else if move = MOVE_R ∨ move = MOVE_R2 ∨ move = MOVE_RP then
    [EDGE_UR, EDGE_BR, EDGE_DR, EDGE_FR]
  else if move = MOVE_B ∨ move = MOVE_B2 ∨ move = MOVE_BP then
    [EDGE_UB, EDGE_BL, EDGE_DB, EDGE_BR]
  else if move = MOVE_D ∨ move = MOVE_D2 ∨ move = MOVE_DP then
    [EDGE_DF, EDGE_DR, EDGE_DB, EDGE_DL]
  else []

/-- First switch of `Cube::perform_move`: per-step corner twists. -/
def corner_twist (move : Int) : List Nat :=
  if move = MOVE_U ∨ move = MOVE_U2 ∨ move = MOVE_UP then
    [TWIST_NONE, TWIST_NONE, TWIST_NONE, TWIST_NONE]
  else if move = MOVE_L ∨ move = MOVE_L2 ∨ move = MOVE_LP then
    [TWIST_CCW, TWIST_CW, TWIST_CCW, TWIST_CW]
  else if move = MOVE_F ∨ move = MOVE_F2 ∨ move = MOVE_FP then
    [TWIST_CCW, TWIST_CW, TWIST_CCW, TWIST_CW]
  else if move = MOVE_R ∨ move = MOVE_R2 ∨ move = MOVE_RP then
    [TWIST_CW, TWIST_CCW, TWIST_CW, TWIST_CCW]
  else if move = MOVE_B ∨ move = MOVE_B2 ∨ move = MOVE_BP then
    [TWIST_CW, TWIST_CCW, TWIST_CW, TWIST_CCW]
  else if move = MOVE_D ∨ move = MOVE_D2 ∨ move = MOVE_DP then
    [TWIST_NONE, TWIST_NONE, TWIST_NONE, TWIST_NONE]
  else []

/-- First switch of `Cube::perform_move`: per-step edge flips. -/
def edge_flip (move : Int) : List Nat :=
  if move = MOVE_U ∨ move = MOVE_U2 ∨ move = MOVE_UP then
    [FLIP_NONE, FLIP_NONE, FLIP_NONE, FLIP_NONE]
  else if move = MOVE_L ∨ move = MOVE_L2 ∨ move = MOVE_LP then
    [FLIP_NONE, FLIP_NONE, FLIP_NONE, FLIP_NONE]
  else if move = MOVE_F ∨ move = MOVE_F2 ∨ move = MOVE_FP then
    [FLIP_FLIP, FLIP_FLIP, FLIP_FLIP, FLIP_FLIP]
  else if move = MOVE_R ∨ move = MOVE_R2 ∨ move = MOVE_RP then
    [FLIP_NONE, FLIP_NONE, FLIP_NONE, FLIP_NONE]
  else if move = MOVE_B ∨ move = MOVE_B2 ∨ move = MOVE_BP then
    [FLIP_FLIP, FLIP_FLIP, FLIP_FLIP, FLIP_FLIP]
  else if move = MOVE_D ∨ move = MOVE_D2 ∨ move = MOVE_DP then
    [FLIP_NONE, FLIP_NONE, FLIP_NONE, FLIP_NONE]
  else []

/-- Second switch of `Cube::perform_move`: how far the face is turned
clockwise.  For an unmatched move the C++ local `turn_amt` is left
uninitialised; it is also never read in that case, because both update loops
run over empty vectors, so the value 0 returned here is never observable. -/
def turn_amt (move : Int) : Nat :=
  if move = MOVE_U ∨ move = MOVE_L ∨ move = MOVE_F ∨
     move = MOVE_R ∨ move = MOVE_B ∨ move = MOVE_D then 1
  else if move = MOVE_U2 ∨ move = MOVE_L2 ∨ move = MOVE_F2 ∨
     move = MOVE_R2 ∨ move = MOVE_B2 ∨ move = MOVE_D2 then 2
  else if move = MOVE_UP ∨ move = MOVE_LP ∨ move = MOVE_FP ∨
     move = MOVE_RP ∨ move = MOVE_BP ∨ move = MOVE_DP then 3
  else 0

/-- One update loop of `Cube::perform_move` (lines 228-260): starting from
copies of the old permutation and orientation vectors, for each index `ii`
into the 4-position cycle, write the piece at `cyc[ii]` to `cyc[(ii+t) % 4]`
and add the accumulated twist/flip, modulo `m` (3 for corners, 2 for edges).
Reads go to the old vectors, writes to the new ones, exactly as in the
source. -/
def cycleUpdate (oldp oldo cyc tw : List Nat) (t m : Nat) :
    List Nat × List Nat :=
  (List.range cyc.length).foldl
    (fun acc ii =>
      let f := cyc.getD ii 0
      let tpos := cyc.getD ((ii + t) % cyc.length) 0
      let tsum := (List.range t).foldl
        (fun s jj => s + tw.getD ((ii + jj) % cyc.length) 0) 0
      (acc.1.set tpos (oldp.getD f 0),
       acc.2.set tpos ((oldo.getD f 0 + tsum) % m)))
    (oldp, oldo)

/-- `Cube::perform_move` (cube.cpp lines 123-266). -/
def Cube.perform_move (c : Cube) (move : Int) : Cube :=
  let cm := corners_moved move
  let em := edges_moved move
  let ct := corner_twist move
  let ef := edge_flip move
  let t := turn_amt move
  let nc := cycleUpdate c.corner_permutation c.corner_orientation cm ct t 3
  let ne := cycleUpdate c.edge_permutation c.edge_orientation em ef t 2
  { corner_permutation := nc.1
    corner_orientation := nc.2
    edge_permutation := ne.1
    edge_orientation := ne.2 }

/-! Helper `binom` (cube.cpp lines 37-55) -/

/-- `binom(n, k)`: numerator `n * (n-1) * ... * (n-k+1)` divided by `k!`,
computed with the two loops of the source.  All uses have `n ≥ 0`, and
whenever `k > n` the numerator contains the factor 0, so truncated `Nat`
subtraction agrees with the C++ `int` computation. -/
def binom (n k : Nat) : Nat :=
  let num := (List.range k).foldl (fun acc ii => acc * (n - ii)) 1
  let denom := (List.range (k - 1)).foldl (fun acc ii => acc * (ii + 2)) 1
  num / denom

/-! Normal coordinates (cube.cpp lines 289-498) -/

/-- `Cube::coord_corner_orientation` (lines 289-300): the first
`size - 1` entries of `corner_orientation` read as a base-3 number,
most significant first. -/
def Cube.coord_corner_orientation (c : Cube) : Nat :=
  (c.corner_orientation.take (c.corner_orientation.length - 1)).foldl
    (fun ret d => 3 * ret + d) 0

/-- `Cube::coord_edge_orientation` (lines 318-329): the first `size - 1`
entries of `edge_orientation` read as a base-2 number. -/
def Cube.coord_edge_orientation (c : Cube) : Nat :=
  (c.edge_orientation.take (c.edge_orientation.length - 1)).foldl
    (fun ret d => 2 * ret + d) 0

/-- The loop body of `Cube::coord_corner_permutation` (lines 347-371):
for each position from last to first, count the strictly smaller later
entries and weight by the running factorial.  The loop accumulates
`low_count(ii) * (size - 1 - ii)!` for `ii` descending; this recursion
adds the same terms starting from the front. -/
def permRankLess : List Nat → Nat
  | [] => 0
  | x :: xs => (xs.countP (fun y => y < x)) * Nat.factorial xs.length +
      permRankLess xs

/-- `Cube::coord_corner_permutation` (lines 347-371). -/
def Cube.coord_corner_permutation (c : Cube) : Nat :=
  permRankLess c.corner_permutation

/-- The second loop of `Cube::coord_slice_sorted` (lines 418-431): the
rank of `order`, counting strictly larger later entries, weighted by the
running factorial (same shape as `permRankLess`). -/
def permRankGreater : List Nat → Nat
  | [] => 0
  | x :: xs => (xs.countP (fun y => x < y)) * Nat.factorial xs.length +
      permRankGreater xs

/-- The `while (n-- > 0)` scan of `Cube::coord_slice_sorted` (lines
402-414): walk the edge positions from high to low; at each position
holding a slice edge add `binom(n, k)` to the position rank, decrement
`k`, and append the edge to `order`.  In the source `k` is a C++ `int`;
it can only drop below 0 if more than 4 positions hold slice edges
(impossible for a permutation), and in that case both the C++ `binom`
(with negative `k`) and this one (with `k` stuck at 0) return 1, so the
truncated `Nat` decrement agrees with the source on all inputs. -/
def sliceLoop (ep edges : List Nat) :
    Nat → Nat → Nat → List Nat → Nat × List Nat
  | 0, _, pos_rank, order => (pos_rank, order)
  | n + 1, k, pos_rank, order =>
    let curr := ep.getD n 0
    if curr ∈ edges then
      sliceLoop ep edges n (k - 1) (pos_rank + binom n k) (order ++ [curr])
    else
      sliceLoop ep edges n k pos_rank order

/-- `Cube::coord_slice_sorted` (lines 390-435). -/
def Cube.coord_slice_sorted (c : Cube) (edges : List Nat) : Nat :=
  let r := sliceLoop c.edge_permutation edges
    c.edge_permutation.length edges.length 0 []
  24 * r.1 + permRankGreater r.2

/-- `Cube::coord_ud_sorted` (lines 452-456). -/
def Cube.coord_ud_sorted (c : Cube) : Nat :=
  c.coord_slice_sorted [EDGE_FR, EDGE_FL, EDGE_BL, EDGE_BR]

/-- `Cube::coord_rl_sorted` (lines 473-477). -/
def Cube.coord_rl_sorted (c : Cube) : Nat :=
  c.coord_slice_sorted [EDGE_UF, EDGE_UB, EDGE_DB, EDGE_DF]

/-- `Cube::coord_fb_sorted` (lines 494-498). -/
def Cube.coord_fb_sorted (c : Cube) : Nat :=
  c.coord_slice_sorted [EDGE_UR, EDGE_UL, EDGE_DL, EDGE_DR]

/-! Meta coordinates (cube.cpp lines 523-637) -/

/-- `Cube::edge_permutation_calc` (lines 523-526). -/
def edge_permutation_calc (rl_sorted fb_sorted : Nat) : Nat :=
  24 * rl_sorted + fb_sorted % 24

/-- `Cube::ud_unsorted_calc` (lines 544-547). -/
def ud_unsorted_calc (ud_sorted : Nat) : Nat :=
  ud_sorted / 24

/-- `Cube::ud_permutation_calc` (lines 565-568). -/
def ud_permutation_calc (ud_sorted : Nat) : Nat :=
  ud_sorted % 24

/-- `Cube::coord_edge_permutation` (lines 592-595). -/
def Cube.coord_edge_permutation (c : Cube) : Nat :=
  edge_permutation_calc c.coord_rl_sorted c.coord_fb_sorted

/-- `Cube::coord_ud_unsorted` (lines 613-616). -/
def Cube.coord_ud_unsorted (c : Cube) : Nat :=
  ud_unsorted_calc c.coord_ud_sorted

/-- `Cube::coord_ud_permutation` (lines 634-637). -/
def Cube.coord_ud_permutation (c : Cube) : Nat :=
  ud_permutation_calc c.coord_ud_sorted
/-! Specification-level definitions used to state the claims -/

/-- Well-formedness of a state as fixed by the spec's data model (section 3):
the four sequences have lengths 8, 8, 12 and 12, and the orientation entries
lie in {0,1,2} and {0,1} respectively. -/
def WellFormed (c : Cube) : Prop :=
  c.corner_permutation.length = 8 ∧ c.corner_orientation.length = 8 ∧
  c.edge_permutation.length = 12 ∧ c.edge_orientation.length = 12 ∧
  (∀ x ∈ c.corner_orientation, x < 3) ∧ (∀ x ∈ c.edge_orientation, x < 2)

/-- Number of inversions of a sequence (pairs appearing in decreasing
order); the parity of a permutation in the spec's sense is the parity of
its inversion count. -/
def inversions : List Nat → Nat
  | [] => 0
  | x :: xs => xs.countP (fun y => y < x) + inversions xs

/-- States reachable from the solved state by legal moves. -/
inductive Reachable : Cube → Prop
  | solved : Reachable Cube.solved
  | step (c : Cube) (m : Int) (hm : m ∈ legal_moves) (h : Reachable c) :
      Reachable (c.perform_move m)

/-- Modelled from the spec: claim C5's "direct lexicographic-rank
computation over the 8 non-UD-slice edges" — the Lehmer rank (the same
factorial-number-system scheme used by coord_corner_permutation) of the
arrangement of the 8 non-UD-slice edges over the 8 non-UD-slice positions
0..7. -/
def direct_nonud_rank_spec (c : Cube) : Nat :=
  permRankLess (c.edge_permutation.take 8)

/-- A state differing from the solved one by a single transposition of the
edges in positions 0 and 1; its edge permutation is a bijection and all four
UD-slice edges are in the UD slice. -/
def swapCube : Cube :=
  { corner_permutation := [0, 1, 2, 3, 4, 5, 6, 7]
    corner_orientation := [0, 0, 0, 0, 0, 0, 0, 0]
    edge_permutation := [1, 0, 2, 3, 4, 5, 6, 7, 8, 9, 10, 11]
    edge_orientation := [0, 0, 0, 0, 0, 0, 0, 0, 0, 0, 0, 0] }

/-- The invariant carried through the reachability induction:
well-formedness, the corner (resp. edge) permutation being a rearrangement
of 0..7 (resp. 0..11), orientation sums divisible by 3 (resp. 2), and corner
and edge permutations of equal parity. -/
def Valid (c : Cube) : Prop :=
  WellFormed c ∧
  List.Perm c.corner_permutation (List.range 8) ∧
  List.Perm c.edge_permutation (List.range 12) ∧
  c.corner_orientation.sum % 3 = 0 ∧
  c.edge_orientation.sum % 2 = 0 ∧
  (inversions c.corner_permutation + inversions c.edge_permutation) % 2 = 0

/-- How many of the positions already scanned by the loop of
coord_slice_sorted hold a slice edge: the number of indices below n whose
edge belongs to the target set (the scan decrements its k once for each). -/
def hitsBelow (ep edges : List Nat) : Nat → Nat
  | 0 => 0
  | n + 1 => hitsBelow ep edges n + (if ep.getD n 0 ∈ edges then 1 else 0)
theorem len8_explicit (l : List Nat) (h : l.length = 8) :
    ∃ x0 x1 x2 x3 x4 x5 x6 x7, l = [x0, x1, x2, x3, x4, x5, x6, x7] := by
  rcases l with _|⟨x0,_|⟨x1,_|⟨x2,_|⟨x3,_|⟨x4,_|⟨x5,_|⟨x6,_|⟨x7,t⟩⟩⟩⟩⟩⟩⟩⟩ <;>
    simp at h
  subst h
  exact ⟨x0, x1, x2, x3, x4, x5, x6, x7, rfl⟩

/-- A list of length 12 is an explicit 12-element list. -/
theorem len12_explicit (l : List Nat) (h : l.length = 12) :
    ∃ x0 x1 x2 x3 x4 x5 x6 x7 x8 x9 x10 x11,
      l = [x0, x1, x2, x3, x4, x5, x6, x7, x8, x9, x10, x11] := by
  rcases l with
    _|⟨x0,_|⟨x1,_|⟨x2,_|⟨x3,_|⟨x4,_|⟨x5,_|⟨x6,_|⟨x7,_|⟨x8,_|⟨x9,_|⟨x10,_|⟨x11,t⟩⟩⟩⟩⟩⟩⟩⟩⟩⟩⟩⟩ <;>
    simp at h
  subst h
  exact ⟨x0, x1, x2, x3, x4, x5, x6, x7, x8, x9, x10, x11, rfl⟩

/-- Of two distinct naturals, exactly one is smaller. -/
theorem ite_lt_pair (a b : Nat) (h : a ≠ b) :
    ((if a < b then 1 else 0) : Nat) + ((if b < a then 1 else 0) : Nat) = 1 := by
  rcases Nat.lt_trichotomy a b with h1 | h1 | h1
  · simp [h1, Nat.lt_asymm h1]
  · exact absurd h1 h
  · simp [h1, Nat.lt_asymm h1]

/-- Swapping two adjacent distinct entries flips the parity of the
inversion count. -/
theorem inversions_adj_swap (x y : Nat) (h : x ≠ y) :
    ∀ (pre tail : List Nat),
      (inversions (pre ++ x :: y :: tail) +
       inversions (pre ++ y :: x :: tail)) % 2 = 1 := by
  intro pre
  induction pre with
  | nil =>
    intro tail
    have hp := ite_lt_pair x y h
    simp only [List.nil_append, inversions, List.countP_cons,
      decide_eq_true_eq]
    omega
  | cons a pre ih =>
    intro tail
    have hc : List.countP (fun z => decide (z < a)) (pre ++ x :: y :: tail) =
        List.countP (fun z => decide (z < a)) (pre ++ y :: x :: tail) := by
      simp only [List.countP_append, List.countP_cons]
      omega
    have hi := ih tail
    simp only [List.cons_append, inversions, List.append_eq]
    omega
/-- Action of move U on an explicitly listed state: verified
definitionally against `Cube.perform_move`. -/
theorem step_U (a0 a1 a2 a3 a4 a5 a6 a7 b0 b1 b2 b3 b4 b5 b6 b7
    e0 e1 e2 e3 e4 e5 e6 e7 e8 e9 e10 e11
    f0 f1 f2 f3 f4 f5 f6 f7 f8 f9 f10 f11 : Nat) :
    Cube.perform_move ⟨[a0,a1,a2,a3,a4,a5,a6,a7], [b0,b1,b2,b3,b4,b5,b6,b7],
      [e0,e1,e2,e3,e4,e5,e6,e7,e8,e9,e10,e11],
      [f0,f1,f2,f3,f4,f5,f6,f7,f8,f9,f10,f11]⟩ MOVE_U
    = ⟨[a3,a0,a1,a2,a4,a5,a6,a7],
       [(b3 + 0) % 3,(b0 + 0) % 3,(b1 + 0) % 3,(b2 + 0) % 3,b4,b5,b6,b7],
       [e4,e5,e2,e3,e1,e0,e6,e7,e8,e9,e10,e11],
       [(f4 + 0) % 2,(f5 + 0) % 2,f2,f3,(f1 + 0) % 2,(f0 + 0) % 2,f6,f7,f8,f9,f10,f11]⟩ := by rfl

/-- Action of move U2 on an explicitly listed state: verified
definitionally against `Cube.perform_move`. -/
theorem step_U2 (a0 a1 a2 a3 a4 a5 a6 a7 b0 b1 b2 b3 b4 b5 b6 b7
    e0 e1 e2 e3 e4 e5 e6 e7 e8 e9 e10 e11
    f0 f1 f2 f3 f4 f5 f6 f7 f8 f9 f10 f11 : Nat) :
    Cube.perform_move ⟨[a0,a1,a2,a3,a4,a5,a6,a7], [b0,b1,b2,b3,b4,b5,b6,b7],
      [e0,e1,e2,e3,e4,e5,e6,e7,e8,e9,e10,e11],
      [f0,f1,f2,f3,f4,f5,f6,f7,f8,f9,f10,f11]⟩ MOVE_U2
    = ⟨[a2,a3,a0,a1,a4,a5,a6,a7],
       [(b2 + 0) % 3,(b3 + 0) % 3,(b0 + 0) % 3,(b1 + 0) % 3,b4,b5,b6,b7],
       [e1,e0,e2,e3,e5,e4,e6,e7,e8,e9,e10,e11],
       [(f1 + 0) % 2,(f0 + 0) % 2,f2,f3,(f5 + 0) % 2,(f4 + 0) % 2,f6,f7,f8,f9,f10,f11]⟩ := by rfl

/-- Action of move UP on an explicitly listed state: verified
definitionally against `Cube.perform_move`. -/
theorem step_UP (a0 a1 a2 a3 a4 a5 a6 a7 b0 b1 b2 b3 b4 b5 b6 b7
    e0 e1 e2 e3 e4 e5 e6 e7 e8 e9 e10 e11
    f0 f1 f2 f3 f4 f5 f6 f7 f8 f9 f10 f11 : Nat) :
    Cube.perform_move ⟨[a0,a1,a2,a3,a4,a5,a6,a7], [b0,b1,b2,b3,b4,b5,b6,b7],
      [e0,e1,e2,e3,e4,e5,e6,e7,e8,e9,e10,e11],
      [f0,f1,f2,f3,f4,f5,f6,f7,f8,f9,f10,f11]⟩ MOVE_UP
    = ⟨[a1,a2,a3,a0,a4,a5,a6,a7],
       [(b1 + 0) % 3,(b2 + 0) % 3,(b3 + 0) % 3,(b0 + 0) % 3,b4,b5,b6,b7],
       [e5,e4,e2,e3,e0,e1,e6,e7,e8,e9,e10,e11],
       [(f5 + 0) % 2,(f4 + 0) % 2,f2,f3,(f0 + 0) % 2,(f1 + 0) % 2,f6,f7,f8,f9,f10,f11]⟩ := by rfl

/-- Action of move L on an explicitly listed state: verified
definitionally against `Cube.perform_move`. -/
theorem step_L (a0 a1 a2 a3 a4 a5 a6 a7 b0 b1 b2 b3 b4 b5 b6 b7
    e0 e1 e2 e3 e4 e5 e6 e7 e8 e9 e10 e11
    f0 f1 f2 f3 f4 f5 f6 f7 f8 f9 f10 f11 : Nat) :
    Cube.perform_move ⟨[a0,a1,a2,a3,a4,a5,a6,a7], [b0,b1,b2,b3,b4,b5,b6,b7],
      [e0,e1,e2,e3,e4,e5,e6,e7,e8,e9,e10,e11],
      [f0,f1,f2,f3,f4,f5,f6,f7,f8,f9,f10,f11]⟩ MOVE_L
    = ⟨[a0,a2,a6,a3,a4,a1,a5,a7],
       [b0,(b2 + 1) % 3,(b6 + 2) % 3,b3,b4,(b1 + 2) % 3,(b5 + 1) % 3,b7],
       [e0,e1,e2,e3,e4,e10,e9,e7,e8,e5,e6,e11],
       [f0,f1,f2,f3,f4,(f10 + 0) % 2,(f9 + 0) % 2,f7,f8,(f5 + 0) % 2,(f6 + 0) % 2,f11]⟩ := by rfl

/-- Action of move L2 on an explicitly listed state: verified
definitionally against `Cube.perform_move`. -/
theorem step_L2 (a0 a1 a2 a3 a4 a5 a6 a7 b0 b1 b2 b3 b4 b5 b6 b7
    e0 e1 e2 e3 e4 e5 e6 e7 e8 e9 e10 e11
    f0 f1 f2 f3 f4 f5 f6 f7 f8 f9 f10 f11 : Nat) :
    Cube.perform_move ⟨[a0,a1,a2,a3,a4,a5,a6,a7], [b0,b1,b2,b3,b4,b5,b6,b7],
      [e0,e1,e2,e3,e4,e5,e6,e7,e8,e9,e10,e11],
      [f0,f1,f2,f3,f4,f5,f6,f7,f8,f9,f10,f11]⟩ MOVE_L2
    = ⟨[a0,a6,a5,a3,a4,a2,a1,a7],
       [b0,(b6 + 3) % 3,(b5 + 3) % 3,b3,b4,(b2 + 3) % 3,(b1 + 3) % 3,b7],
       [e0,e1,e2,e3,e4,e6,e5,e7,e8,e10,e9,e11],
       [f0,f1,f2,f3,f4,(f6 + 0) % 2,(f5 + 0) % 2,f7,f8,(f10 + 0) % 2,(f9 + 0) % 2,f11]⟩ := by rfl

/-- Action of move LP on an explicitly listed state: verified
definitionally against `Cube.perform_move`. -/
theorem step_LP (a0 a1 a2 a3 a4 a5 a6 a7 b0 b1 b2 b3 b4 b5 b6 b7
    e0 e1 e2 e3 e4 e5 e6 e7 e8 e9 e10 e11
    f0 f1 f2 f3 f4 f5 f6 f7 f8 f9 f10 f11 : Nat) :
    Cube.perform_move ⟨[a0,a1,a2,a3,a4,a5,a6,a7], [b0,b1,b2,b3,b4,b5,b6,b7],
      [e0,e1,e2,e3,e4,e5,e6,e7,e8,e9,e10,e11],
      [f0,f1,f2,f3,f4,f5,f6,f7,f8,f9,f10,f11]⟩ MOVE_LP
    = ⟨[a0,a5,a1,a3,a4,a6,a2,a7],
       [b0,(b5 + 4) % 3,(b1 + 5) % 3,b3,b4,(b6 + 5) % 3,(b2 + 4) % 3,b7],
       [e0,e1,e2,e3,e4,e9,e10,e7,e8,e6,e5,e11],
       [f0,f1,f2,f3,f4,(f9 + 0) % 2,(f10 + 0) % 2,f7,f8,(f6 + 0) % 2,(f5 + 0) % 2,f11]⟩ := by rfl

/-- Action of move F on an explicitly listed state: verified
definitionally against `Cube.perform_move`. -/
theorem step_F (a0 a1 a2 a3 a4 a5 a6 a7 b0 b1 b2 b3 b4 b5 b6 b7
    e0 e1 e2 e3 e4 e5 e6 e7 e8 e9 e10 e11
    f0 f1 f2 f3 f4 f5 f6 f7 f8 f9 f10 f11 : Nat) :
    Cube.perform_move ⟨[a0,a1,a2,a3,a4,a5,a6,a7], [b0,b1,b2,b3,b4,b5,b6,b7],
      [e0,e1,e2,e3,e4,e5,e6,e7,e8,e9,e10,e11],
      [f0,f1,f2,f3,f4,f5,f6,f7,f8,f9,f10,f11]⟩ MOVE_F
    = ⟨[a1,a5,a2,a3,a0,a4,a6,a7],
       [(b1 + 1) % 3,(b5 + 2) % 3,b2,b3,(b0 + 2) % 3,(b4 + 1) % 3,b6,b7],
       [e9,e1,e2,e8,e4,e5,e6,e7,e0,e3,e10,e11],
       [(f9 + 1) % 2,f1,f2,(f8 + 1) % 2,f4,f5,f6,f7,(f0 + 1) % 2,(f3 + 1) % 2,f10,f11]⟩ := by rfl

/-- Action of move F2 on an explicitly listed state: verified
definitionally against `Cube.perform_move`. -/
theorem step_F2 (a0 a1 a2 a3 a4 a5 a6 a7 b0 b1 b2 b3 b4 b5 b6 b7
    e0 e1 e2 e3 e4 e5 e6 e7 e8 e9 e10 e11
    f0 f1 f2 f3 f4 f5 f6 f7 f8 f9 f10 f11 : Nat) :
    Cube.perform_move ⟨[a0,a1,a2,a3,a4,a5,a6,a7], [b0,b1,b2,b3,b4,b5,b6,b7],
      [e0,e1,e2,e3,e4,e5,e6,e7,e8,e9,e10,e11],
      [f0,f1,f2,f3,f4,f5,f6,f7,f8,f9,f10,f11]⟩ MOVE_F2
    = ⟨[a5,a4,a2,a3,a1,a0,a6,a7],
       [(b5 + 3) % 3,(b4 + 3) % 3,b2,b3,(b1 + 3) % 3,(b0 + 3) % 3,b6,b7],
       [e3,e1,e2,e0,e4,e5,e6,e7,e9,e8,e10,e11],
       [(f3 + 2) % 2,f1,f2,(f0 + 2) % 2,f4,f5,f6,f7,(f9 + 2) % 2,(f8 + 2) % 2,f10,f11]⟩ := by rfl

/-- Action of move FP on an explicitly listed state: verified
definitionally against `Cube.perform_move`. -/
theorem step_FP (a0 a1 a2 a3 a4 a5 a6 a7 b0 b1 b2 b3 b4 b5 b6 b7
    e0 e1 e2 e3 e4 e5 e6 e7 e8 e9 e10 e11
    f0 f1 f2 f3 f4 f5 f6 f7 f8 f9 f10 f11 : Nat) :
    Cube.perform_move ⟨[a0,a1,a2,a3,a4,a5,a6,a7], [b0,b1,b2,b3,b4,b5,b6,b7],
      [e0,e1,e2,e3,e4,e5,e6,e7,e8,e9,e10,e11],
      [f0,f1,f2,f3,f4,f5,f6,f7,f8,f9,f10,f11]⟩ MOVE_FP
    = ⟨[a4,a0,a2,a3,a5,a1,a6,a7],
       [(b4 + 4) % 3,(b0 + 5) % 3,b2,b3,(b5 + 5) % 3,(b1 + 4) % 3,b6,b7],
       [e8,e1,e2,e9,e4,e5,e6,e7,e3,e0,e10,e11],
       [(f8 + 3) % 2,f1,f2,(f9 + 3) % 2,f4,f5,f6,f7,(f3 + 3) % 2,(f0 + 3) % 2,f10,f11]⟩ := by rfl

/-- Action of move R on an explicitly listed state: verified
definitionally against `Cube.perform_move`. -/
theorem step_R (a0 a1 a2 a3 a4 a5 a6 a7 b0 b1 b2 b3 b4 b5 b6 b7
    e0 e1 e2 e3 e4 e5 e6 e7 e8 e9 e10 e11
    f0 f1 f2 f3 f4 f5 f6 f7 f8 f9 f10 f11 : Nat) :
    Cube.perform_move ⟨[a0,a1,a2,a3,a4,a5,a6,a7], [b0,b1,b2,b3,b4,b5,b6,b7],
      [e0,e1,e2,e3,e4,e5,e6,e7,e8,e9,e10,e11],
      [f0,f1,f2,f3,f4,f5,f6,f7,f8,f9,f10,f11]⟩ MOVE_R
    = ⟨[a4,a1,a2,a0,a7,a5,a6,a3],
       [(b4 + 2) % 3,b1,b2,(b0 + 1) % 3,(b7 + 1) % 3,b5,b6,(b3 + 2) % 3],
       [e0,e1,e2,e3,e8,e5,e6,e11,e7,e9,e10,e4],
       [f0,f1,f2,f3,(f8 + 0) % 2,f5,f6,(f11 + 0) % 2,(f7 + 0) % 2,f9,f10,(f4 + 0) % 2]⟩ := by rfl

/-- Action of move R2 on an explicitly listed state: verified
definitionally against `Cube.perform_move`. -/
theorem step_R2 (a0 a1 a2 a3 a4 a5 a6 a7 b0 b1 b2 b3 b4 b5 b6 b7
    e0 e1 e2 e3 e4 e5 e6 e7 e8 e9 e10 e11
    f0 f1 f2 f3 f4 f5 f6 f7 f8 f9 f10 f11 : Nat) :
    Cube.perform_move ⟨[a0,a1,a2,a3,a4,a5,a6,a7], [b0,b1,b2,b3,b4,b5,b6,b7],
      [e0,e1,e2,e3,e4,e5,e6,e7,e8,e9,e10,e11],
      [f0,f1,f2,f3,f4,f5,f6,f7,f8,f9,f10,f11]⟩ MOVE_R2
    = ⟨[a7,a1,a2,a4,a3,a5,a6,a0],
       [(b7 + 3) % 3,b1,b2,(b4 + 3) % 3,(b3 + 3) % 3,b5,b6,(b0 + 3) % 3],
       [e0,e1,e2,e3,e7,e5,e6,e4,e11,e9,e10,e8],
       [f0,f1,f2,f3,(f7 + 0) % 2,f5,f6,(f4 + 0) % 2,(f11 + 0) % 2,f9,f10,(f8 + 0) % 2]⟩ := by rfl

/-- Action of move RP on an explicitly listed state: verified
definitionally against `Cube.perform_move`. -/
theorem step_RP (a0 a1 a2 a3 a4 a5 a6 a7 b0 b1 b2 b3 b4 b5 b6 b7
    e0 e1 e2 e3 e4 e5 e6 e7 e8 e9 e10 e11
    f0 f1 f2 f3 f4 f5 f6 f7 f8 f9 f10 f11 : Nat) :
    Cube.perform_move ⟨[a0,a1,a2,a3,a4,a5,a6,a7], [b0,b1,b2,b3,b4,b5,b6,b7],
      [e0,e1,e2,e3,e4,e5,e6,e7,e8,e9,e10,e11],
      [f0,f1,f2,f3,f4,f5,f6,f7,f8,f9,f10,f11]⟩ MOVE_RP
    = ⟨[a3,a1,a2,a7,a0,a5,a6,a4],
       [(b3 + 5) % 3,b1,b2,(b7 + 4) % 3,(b0 + 4) % 3,b5,b6,(b4 + 5) % 3],
       [e0,e1,e2,e3,e11,e5,e6,e8,e4,e9,e10,e7],
       [f0,f1,f2,f3,(f11 + 0) % 2,f5,f6,(f8 + 0) % 2,(f4 + 0) % 2,f9,f10,(f7 + 0) % 2]⟩ := by rfl

/-- Action of move B on an explicitly listed state: verified
definitionally against `Cube.perform_move`. -/
theorem step_B (a0 a1 a2 a3 a4 a5 a6 a7 b0 b1 b2 b3 b4 b5 b6 b7
    e0 e1 e2 e3 e4 e5 e6 e7 e8 e9 e10 e11
    f0 f1 f2 f3 f4 f5 f6 f7 f8 f9 f10 f11 : Nat) :
    Cube.perform_move ⟨[a0,a1,a2,a3,a4,a5,a6,a7], [b0,b1,b2,b3,b4,b5,b6,b7],
      [e0,e1,e2,e3,e4,e5,e6,e7,e8,e9,e10,e11],
      [f0,f1,f2,f3,f4,f5,f6,f7,f8,f9,f10,f11]⟩ MOVE_B
    = ⟨[a0,a1,a3,a7,a4,a5,a2,a6],
       [b0,b1,(b3 + 1) % 3,(b7 + 2) % 3,b4,b5,(b2 + 2) % 3,(b6 + 1) % 3],
       [e0,e11,e10,e3,e4,e5,e6,e7,e8,e9,e1,e2],
       [f0,(f11 + 1) % 2,(f10 + 1) % 2,f3,f4,f5,f6,f7,f8,f9,(f1 + 1) % 2,(f2 + 1) % 2]⟩ := by rfl

/-- Action of move B2 on an explicitly listed state: verified
definitionally against `Cube.perform_move`. -/
theorem step_B2 (a0 a1 a2 a3 a4 a5 a6 a7 b0 b1 b2 b3 b4 b5 b6 b7
    e0 e1 e2 e3 e4 e5 e6 e7 e8 e9 e10 e11
    f0 f1 f2 f3 f4 f5 f6 f7 f8 f9 f10 f11 : Nat) :
    Cube.perform_move ⟨[a0,a1,a2,a3,a4,a5,a6,a7], [b0,b1,b2,b3,b4,b5,b6,b7],
      [e0,e1,e2,e3,e4,e5,e6,e7,e8,e9,e10,e11],
      [f0,f1,f2,f3,f4,f5,f6,f7,f8,f9,f10,f11]⟩ MOVE_B2
    = ⟨[a0,a1,a7,a6,a4,a5,a3,a2],
       [b0,b1,(b7 + 3) % 3,(b6 + 3) % 3,b4,b5,(b3 + 3) % 3,(b2 + 3) % 3],
       [e0,e2,e1,e3,e4,e5,e6,e7,e8,e9,e11,e10],
       [f0,(f2 + 2) % 2,(f1 + 2) % 2,f3,f4,f5,f6,f7,f8,f9,(f11 + 2) % 2,(f10 + 2) % 2]⟩ := by rfl

/-- Action of move BP on an explicitly listed state: verified
definitionally against `Cube.perform_move`. -/
theorem step_BP (a0 a1 a2 a3 a4 a5 a6 a7 b0 b1 b2 b3 b4 b5 b6 b7
    e0 e1 e2 e3 e4 e5 e6 e7 e8 e9 e10 e11
    f0 f1 f2 f3 f4 f5 f6 f7 f8 f9 f10 f11 : Nat) :
    Cube.perform_move ⟨[a0,a1,a2,a3,a4,a5,a6,a7], [b0,b1,b2,b3,b4,b5,b6,b7],
      [e0,e1,e2,e3,e4,e5,e6,e7,e8,e9,e10,e11],
      [f0,f1,f2,f3,f4,f5,f6,f7,f8,f9,f10,f11]⟩ MOVE_BP
    = ⟨[a0,a1,a6,a2,a4,a5,a7,a3],
       [b0,b1,(b6 + 4) % 3,(b2 + 5) % 3,b4,b5,(b7 + 5) % 3,(b3 + 4) % 3],
       [e0,e10,e11,e3,e4,e5,e6,e7,e8,e9,e2,e1],
       [f0,(f10 + 3) % 2,(f11 + 3) % 2,f3,f4,f5,f6,f7,f8,f9,(f2 + 3) % 2,(f1 + 3) % 2]⟩ := by rfl

/-- Action of move D on an explicitly listed state: verified
definitionally against `Cube.perform_move`. -/
theorem step_D (a0 a1 a2 a3 a4 a5 a6 a7 b0 b1 b2 b3 b4 b5 b6 b7
    e0 e1 e2 e3 e4 e5 e6 e7 e8 e9 e10 e11
    f0 f1 f2 f3 f4 f5 f6 f7 f8 f9 f10 f11 : Nat) :
    Cube.perform_move ⟨[a0,a1,a2,a3,a4,a5,a6,a7], [b0,b1,b2,b3,b4,b5,b6,b7],
      [e0,e1,e2,e3,e4,e5,e6,e7,e8,e9,e10,e11],
      [f0,f1,f2,f3,f4,f5,f6,f7,f8,f9,f10,f11]⟩ MOVE_D
    = ⟨[a0,a1,a2,a3,a5,a6,a7,a4],
       [b0,b1,b2,b3,(b5 + 0) % 3,(b6 + 0) % 3,(b7 + 0) % 3,(b4 + 0) % 3],
       [e0,e1,e7,e6,e4,e5,e2,e3,e8,e9,e10,e11],
       [f0,f1,(f7 + 0) % 2,(f6 + 0) % 2,f4,f5,(f2 + 0) % 2,(f3 + 0) % 2,f8,f9,f10,f11]⟩ := by rfl

/-- Action of move D2 on an explicitly listed state: verified
definitionally against `Cube.perform_move`. -/
theorem step_D2 (a0 a1 a2 a3 a4 a5 a6 a7 b0 b1 b2 b3 b4 b5 b6 b7
    e0 e1 e2 e3 e4 e5 e6 e7 e8 e9 e10 e11
    f0 f1 f2 f3 f4 f5 f6 f7 f8 f9 f10 f11 : Nat) :
    Cube.perform_move ⟨[a0,a1,a2,a3,a4,a5,a6,a7], [b0,b1,b2,b3,b4,b5,b6,b7],
      [e0,e1,e2,e3,e4,e5,e6,e7,e8,e9,e10,e11],
      [f0,f1,f2,f3,f4,f5,f6,f7,f8,f9,f10,f11]⟩ MOVE_D2
    = ⟨[a0,a1,a2,a3,a6,a7,a4,a5],
       [b0,b1,b2,b3,(b6 + 0) % 3,(b7 + 0) % 3,(b4 + 0) % 3,(b5 + 0) % 3],
       [e0,e1,e3,e2,e4,e5,e7,e6,e8,e9,e10,e11],
       [f0,f1,(f3 + 0) % 2,(f2 + 0) % 2,f4,f5,(f7 + 0) % 2,(f6 + 0) % 2,f8,f9,f10,f11]⟩ := by rfl

/-- Action of move DP on an explicitly listed state: verified
definitionally against `Cube.perform_move`. -/
theorem step_DP (a0 a1 a2 a3 a4 a5 a6 a7 b0 b1 b2 b3 b4 b5 b6 b7
    e0 e1 e2 e3 e4 e5 e6 e7 e8 e9 e10 e11
    f0 f1 f2 f3 f4 f5 f6 f7 f8 f9 f10 f11 : Nat) :
    Cube.perform_move ⟨[a0,a1,a2,a3,a4,a5,a6,a7], [b0,b1,b2,b3,b4,b5,b6,b7],
      [e0,e1,e2,e3,e4,e5,e6,e7,e8,e9,e10,e11],
      [f0,f1,f2,f3,f4,f5,f6,f7,f8,f9,f10,f11]⟩ MOVE_DP
    = ⟨[a0,a1,a2,a3,a7,a4,a5,a6],
       [b0,b1,b2,b3,(b7 + 0) % 3,(b4 + 0) % 3,(b5 + 0) % 3,(b6 + 0) % 3],
       [e0,e1,e6,e7,e4,e5,e3,e2,e8,e9,e10,e11],
       [f0,f1,(f6 + 0) % 2,(f7 + 0) % 2,f4,f5,(f3 + 0) % 2,(f2 + 0) % 2,f8,f9,f10,f11]⟩ := by rfl

set_option linter.unusedVariables false

set_option maxHeartbeats 1600000 in
/-- Every legal move preserves the full invariant Valid. -/
theorem valid_step (c : Cube) (hv : Valid c) (m : Int)
    (hm : m ∈ legal_moves) : Valid (c.perform_move m) := by
  obtain ⟨cp, co, ep, eo⟩ := c
  obtain ⟨⟨h1, h2, h3, h4, h5, h6⟩, hperm_c, hperm_e, hsum_c, hsum_e, hpar⟩ := hv
  obtain ⟨a0, a1, a2, a3, a4, a5, a6, a7, rfl⟩ := len8_explicit _ h1
  obtain ⟨b0, b1, b2, b3, b4, b5, b6, b7, rfl⟩ := len8_explicit _ h2
  obtain ⟨e0, e1, e2, e3, e4, e5, e6, e7, e8, e9, e10, e11, rfl⟩ :=
    len12_explicit _ h3
  obtain ⟨f0, f1, f2, f3, f4, f5, f6, f7, f8, f9, f10, f11, rfl⟩ :=
    len12_explicit _ h4
  simp only [List.mem_cons, List.not_mem_nil, or_false, forall_eq_or_imp,
    forall_eq] at h5 h6
  have hpc : List.Perm ([a0, a1, a2, a3, a4, a5, a6, a7] : List Nat)
      (List.range 8) := hperm_c
  have hpe : List.Perm
      ([e0, e1, e2, e3, e4, e5, e6, e7, e8, e9, e10, e11] : List Nat)
      (List.range 12) := hperm_e
  have hsc : ([b0, b1, b2, b3, b4, b5, b6, b7] : List Nat).sum % 3 = 0 := hsum_c
  have hse : ([f0, f1, f2, f3, f4, f5, f6, f7, f8, f9, f10, f11] :
      List Nat).sum % 2 = 0 := hsum_e
  have hpr : (inversions [a0, a1, a2, a3, a4, a5, a6, a7] +
      inversions [e0, e1, e2, e3, e4, e5, e6, e7, e8, e9, e10, e11]) % 2 = 0 :=
    hpar
  have hinj_c := List.nodup_iff_injective_get.mp
    (hpc.nodup_iff.mpr (List.nodup_range 8))
  have hinj_e := List.nodup_iff_injective_get.mp
    (hpe.nodup_iff.mpr (List.nodup_range 12))
  clear hperm_c hperm_e hsum_c hsum_e hpar h1 h2 h3 h4
  simp only [legal_moves, List.mem_cons, List.not_mem_nil, or_false] at hm
  rcases hm with rfl | rfl | rfl | rfl | rfl | rfl | rfl | rfl | rfl | rfl |
    rfl | rfl | rfl | rfl | rfl | rfl | rfl | rfl
  · -- move U
    simp only [step_U]
    have pc : List.Perm [a3, a0, a1, a2, a4, a5, a6, a7]
        [a0, a1, a2, a3, a4, a5, a6, a7] :=
      (List.Perm.trans (List.Perm.trans (List.Perm.swap a0 a3 [a1, a2, a4, a5, a6, a7]) (List.Perm.cons a0 (List.Perm.swap a1 a3 [a2, a4, a5, a6, a7]))) (List.Perm.cons a0 (List.Perm.cons a1 (List.Perm.swap a2 a3 [a4, a5, a6, a7]))))
    have pe : List.Perm [e4, e5, e2, e3, e1, e0, e6, e7, e8, e9, e10, e11]
        [e0, e1, e2, e3, e4, e5, e6, e7, e8, e9, e10, e11] :=
      (List.Perm.trans (List.Perm.trans (List.Perm.trans (List.Perm.trans (List.Perm.trans (List.Perm.trans (List.Perm.trans (List.Perm.trans (List.Perm.trans (List.Perm.trans (List.Perm.trans (List.Perm.trans (List.Perm.cons e4 (List.Perm.swap e2 e5 [e3, e1, e0, e6, e7, e8, e9, e10, e11])) (List.Perm.swap e2 e4 [e5, e3, e1, e0, e6, e7, e8, e9, e10, e11])) (List.Perm.cons e2 (List.Perm.cons e4 (List.Perm.swap e3 e5 [e1, e0, e6, e7, e8, e9, e10, e11])))) (List.Perm.cons e2 (List.Perm.swap e3 e4 [e5, e1, e0, e6, e7, e8, e9, e10, e11]))) (List.Perm.cons e2 (List.Perm.cons e3 (List.Perm.cons e4 (List.Perm.swap e1 e5 [e0, e6, e7, e8, e9, e10, e11]))))) (List.Perm.cons e2 (List.Perm.cons e3 (List.Perm.swap e1 e4 [e5, e0, e6, e7, e8, e9, e10, e11])))) (List.Perm.cons e2 (List.Perm.swap e1 e3 [e4, e5, e0, e6, e7, e8, e9, e10, e11]))) (List.Perm.swap e1 e2 [e3, e4, e5, e0, e6, e7, e8, e9, e10, e11])) (List.Perm.cons e1 (List.Perm.cons e2 (List.Perm.cons e3 (List.Perm.cons e4 (List.Perm.swap e0 e5 [e6, e7, e8, e9, e10, e11])))))) (List.Perm.cons e1 (List.Perm.cons e2 (List.Perm.cons e3 (List.Perm.swap e0 e4 [e5, e6, e7, e8, e9, e10, e11]))))) (List.Perm.cons e1 (List.Perm.cons e2 (List.Perm.swap e0 e3 [e4, e5, e6, e7, e8, e9, e10, e11])))) (List.Perm.cons e1 (List.Perm.swap e0 e2 [e3, e4, e5, e6, e7, e8, e9, e10, e11]))) (List.Perm.swap e0 e1 [e2, e3, e4, e5, e6, e7, e8, e9, e10, e11]))
    unfold Valid WellFormed
    refine ⟨⟨rfl, rfl, rfl, rfl, ?_, ?_⟩,
      pc.trans hpc, pe.trans hpe, ?_, ?_, ?_⟩
    · simp only [List.mem_cons, List.not_mem_nil, or_false, forall_eq_or_imp,
        forall_eq]
      omega
    · simp only [List.mem_cons, List.not_mem_nil, or_false, forall_eq_or_imp,
        forall_eq]
      omega
    · simp only [List.sum_cons, List.sum_nil] at hsc ⊢
      omega
    · simp only [List.sum_cons, List.sum_nil] at hse ⊢
      omega
    · -- parity: chain of adjacent transpositions (3 corner, 13 edge)
      show (inversions [a3, a0, a1, a2, a4, a5, a6, a7] +
        inversions [e4, e5, e2, e3, e1, e0, e6, e7, e8, e9, e10, e11]) % 2 = 0
      have sc0 : (inversions ([a3, a0, a1, a2, a4, a5, a6, a7] : List Nat) + inversions ([a0, a3, a1, a2, a4, a5, a6, a7] : List Nat)) % 2 = 1 := inversions_adj_swap a3 a0 (fun he => absurd (congrArg Fin.val (@hinj_c ⟨3, by simp⟩ ⟨0, by simp⟩ he)) (by simp)) [] [a1, a2, a4, a5, a6, a7]
      have sc1 : (inversions ([a0, a3, a1, a2, a4, a5, a6, a7] : List Nat) + inversions ([a0, a1, a3, a2, a4, a5, a6, a7] : List Nat)) % 2 = 1 := inversions_adj_swap a3 a1 (fun he => absurd (congrArg Fin.val (@hinj_c ⟨3, by simp⟩ ⟨1, by simp⟩ he)) (by simp)) [a0] [a2, a4, a5, a6, a7]
      have sc2 : (inversions ([a0, a1, a3, a2, a4, a5, a6, a7] : List Nat) + inversions ([a0, a1, a2, a3, a4, a5, a6, a7] : List Nat)) % 2 = 1 := inversions_adj_swap a3 a2 (fun he => absurd (congrArg Fin.val (@hinj_c ⟨3, by simp⟩ ⟨2, by simp⟩ he)) (by simp)) [a0, a1] [a4, a5, a6, a7]
      have se0 : (inversions ([e4, e5, e2, e3, e1, e0, e6, e7, e8, e9, e10, e11] : List Nat) + inversions ([e4, e2, e5, e3, e1, e0, e6, e7, e8, e9, e10, e11] : List Nat)) % 2 = 1 := inversions_adj_swap e5 e2 (fun he => absurd (congrArg Fin.val (@hinj_e ⟨5, by simp⟩ ⟨2, by simp⟩ he)) (by simp)) [e4] [e3, e1, e0, e6, e7, e8, e9, e10, e11]
      have se1 : (inversions ([e4, e2, e5, e3, e1, e0, e6, e7, e8, e9, e10, e11] : List Nat) + inversions ([e2, e4, e5, e3, e1, e0, e6, e7, e8, e9, e10, e11] : List Nat)) % 2 = 1 := inversions_adj_swap e4 e2 (fun he => absurd (congrArg Fin.val (@hinj_e ⟨4, by simp⟩ ⟨2, by simp⟩ he)) (by simp)) [] [e5, e3, e1, e0, e6, e7, e8, e9, e10, e11]
      have se2 : (inversions ([e2, e4, e5, e3, e1, e0, e6, e7, e8, e9, e10, e11] : List Nat) + inversions ([e2, e4, e3, e5, e1, e0, e6, e7, e8, e9, e10, e11] : List Nat)) % 2 = 1 := inversions_adj_swap e5 e3 (fun he => absurd (congrArg Fin.val (@hinj_e ⟨5, by simp⟩ ⟨3, by simp⟩ he)) (by simp)) [e2, e4] [e1, e0, e6, e7, e8, e9, e10, e11]
      have se3 : (inversions ([e2, e4, e3, e5, e1, e0, e6, e7, e8, e9, e10, e11] : List Nat) + inversions ([e2, e3, e4, e5, e1, e0, e6, e7, e8, e9, e10, e11] : List Nat)) % 2 = 1 := inversions_adj_swap e4 e3 (fun he => absurd (congrArg Fin.val (@hinj_e ⟨4, by simp⟩ ⟨3, by simp⟩ he)) (by simp)) [e2] [e5, e1, e0, e6, e7, e8, e9, e10, e11]
      have se4 : (inversions ([e2, e3, e4, e5, e1, e0, e6, e7, e8, e9, e10, e11] : List Nat) + inversions ([e2, e3, e4, e1, e5, e0, e6, e7, e8, e9, e10, e11] : List Nat)) % 2 = 1 := inversions_adj_swap e5 e1 (fun he => absurd (congrArg Fin.val (@hinj_e ⟨5, by simp⟩ ⟨1, by simp⟩ he)) (by simp)) [e2, e3, e4] [e0, e6, e7, e8, e9, e10, e11]
      have se5 : (inversions ([e2, e3, e4, e1, e5, e0, e6, e7, e8, e9, e10, e11] : List Nat) + inversions ([e2, e3, e1, e4, e5, e0, e6, e7, e8, e9, e10, e11] : List Nat)) % 2 = 1 := inversions_adj_swap e4 e1 (fun he => absurd (congrArg Fin.val (@hinj_e ⟨4, by simp⟩ ⟨1, by simp⟩ he)) (by simp)) [e2, e3] [e5, e0, e6, e7, e8, e9, e10, e11]
      have se6 : (inversions ([e2, e3, e1, e4, e5, e0, e6, e7, e8, e9, e10, e11] : List Nat) + inversions ([e2, e1, e3, e4, e5, e0, e6, e7, e8, e9, e10, e11] : List Nat)) % 2 = 1 := inversions_adj_swap e3 e1 (fun he => absurd (congrArg Fin.val (@hinj_e ⟨3, by simp⟩ ⟨1, by simp⟩ he)) (by simp)) [e2] [e4, e5, e0, e6, e7, e8, e9, e10, e11]
      have se7 : (inversions ([e2, e1, e3, e4, e5, e0, e6, e7, e8, e9, e10, e11] : List Nat) + inversions ([e1, e2, e3, e4, e5, e0, e6, e7, e8, e9, e10, e11] : List Nat)) % 2 = 1 := inversions_adj_swap e2 e1 (fun he => absurd (congrArg Fin.val (@hinj_e ⟨2, by simp⟩ ⟨1, by simp⟩ he)) (by simp)) [] [e3, e4, e5, e0, e6, e7, e8, e9, e10, e11]
      have se8 : (inversions ([e1, e2, e3, e4, e5, e0, e6, e7, e8, e9, e10, e11] : List Nat) + inversions ([e1, e2, e3, e4, e0, e5, e6, e7, e8, e9, e10, e11] : List Nat)) % 2 = 1 := inversions_adj_swap e5 e0 (fun he => absurd (congrArg Fin.val (@hinj_e ⟨5, by simp⟩ ⟨0, by simp⟩ he)) (by simp)) [e1, e2, e3, e4] [e6, e7, e8, e9, e10, e11]
      have se9 : (inversions ([e1, e2, e3, e4, e0, e5, e6, e7, e8, e9, e10, e11] : List Nat) + inversions ([e1, e2, e3, e0, e4, e5, e6, e7, e8, e9, e10, e11] : List Nat)) % 2 = 1 := inversions_adj_swap e4 e0 (fun he => absurd (congrArg Fin.val (@hinj_e ⟨4, by simp⟩ ⟨0, by simp⟩ he)) (by simp)) [e1, e2, e3] [e5, e6, e7, e8, e9, e10, e11]
      have se10 : (inversions ([e1, e2, e3, e0, e4, e5, e6, e7, e8, e9, e10, e11] : List Nat) + inversions ([e1, e2, e0, e3, e4, e5, e6, e7, e8, e9, e10, e11] : List Nat)) % 2 = 1 := inversions_adj_swap e3 e0 (fun he => absurd (congrArg Fin.val (@hinj_e ⟨3, by simp⟩ ⟨0, by simp⟩ he)) (by simp)) [e1, e2] [e4, e5, e6, e7, e8, e9, e10, e11]
      have se11 : (inversions ([e1, e2, e0, e3, e4, e5, e6, e7, e8, e9, e10, e11] : List Nat) + inversions ([e1, e0, e2, e3, e4, e5, e6, e7, e8, e9, e10, e11] : List Nat)) % 2 = 1 := inversions_adj_swap e2 e0 (fun he => absurd (congrArg Fin.val (@hinj_e ⟨2, by simp⟩ ⟨0, by simp⟩ he)) (by simp)) [e1] [e3, e4, e5, e6, e7, e8, e9, e10, e11]
      have se12 : (inversions ([e1, e0, e2, e3, e4, e5, e6, e7, e8, e9, e10, e11] : List Nat) + inversions ([e0, e1, e2, e3, e4, e5, e6, e7, e8, e9, e10, e11] : List Nat)) % 2 = 1 := inversions_adj_swap e1 e0 (fun he => absurd (congrArg Fin.val (@hinj_e ⟨1, by simp⟩ ⟨0, by simp⟩ he)) (by simp)) [] [e2, e3, e4, e5, e6, e7, e8, e9, e10, e11]
      omega
  · -- move U2
    simp only [step_U2]
    have pc : List.Perm [a2, a3, a0, a1, a4, a5, a6, a7]
        [a0, a1, a2, a3, a4, a5, a6, a7] :=
      (List.Perm.trans (List.Perm.trans (List.Perm.trans (List.Perm.cons a2 (List.Perm.swap a0 a3 [a1, a4, a5, a6, a7])) (List.Perm.swap a0 a2 [a3, a1, a4, a5, a6, a7])) (List.Perm.cons a0 (List.Perm.cons a2 (List.Perm.swap a1 a3 [a4, a5, a6, a7])))) (List.Perm.cons a0 (List.Perm.swap a1 a2 [a3, a4, a5, a6, a7])))
    have pe : List.Perm [e1, e0, e2, e3, e5, e4, e6, e7, e8, e9, e10, e11]
        [e0, e1, e2, e3, e4, e5, e6, e7, e8, e9, e10, e11] :=
      (List.Perm.trans (List.Perm.swap e0 e1 [e2, e3, e5, e4, e6, e7, e8, e9, e10, e11]) (List.Perm.cons e0 (List.Perm.cons e1 (List.Perm.cons e2 (List.Perm.cons e3 (List.Perm.swap e4 e5 [e6, e7, e8, e9, e10, e11]))))))
    unfold Valid WellFormed
    refine ⟨⟨rfl, rfl, rfl, rfl, ?_, ?_⟩,
      pc.trans hpc, pe.trans hpe, ?_, ?_, ?_⟩
    · simp only [List.mem_cons, List.not_mem_nil, or_false, forall_eq_or_imp,
        forall_eq]
      omega
    · simp only [List.mem_cons, List.not_mem_nil, or_false, forall_eq_or_imp,
        forall_eq]
      omega
    · simp only [List.sum_cons, List.sum_nil] at hsc ⊢
      omega
    · simp only [List.sum_cons, List.sum_nil] at hse ⊢
      omega
    · -- parity: chain of adjacent transpositions (4 corner, 2 edge)
      show (inversions [a2, a3, a0, a1, a4, a5, a6, a7] +
        inversions [e1, e0, e2, e3, e5, e4, e6, e7, e8, e9, e10, e11]) % 2 = 0
      have sc0 : (inversions ([a2, a3, a0, a1, a4, a5, a6, a7] : List Nat) + inversions ([a2, a0, a3, a1, a4, a5, a6, a7] : List Nat)) % 2 = 1 := inversions_adj_swap a3 a0 (fun he => absurd (congrArg Fin.val (@hinj_c ⟨3, by simp⟩ ⟨0, by simp⟩ he)) (by simp)) [a2] [a1, a4, a5, a6, a7]
      have sc1 : (inversions ([a2, a0, a3, a1, a4, a5, a6, a7] : List Nat) + inversions ([a0, a2, a3, a1, a4, a5, a6, a7] : List Nat)) % 2 = 1 := inversions_adj_swap a2 a0 (fun he => absurd (congrArg Fin.val (@hinj_c ⟨2, by simp⟩ ⟨0, by simp⟩ he)) (by simp)) [] [a3, a1, a4, a5, a6, a7]
      have sc2 : (inversions ([a0, a2, a3, a1, a4, a5, a6, a7] : List Nat) + inversions ([a0, a2, a1, a3, a4, a5, a6, a7] : List Nat)) % 2 = 1 := inversions_adj_swap a3 a1 (fun he => absurd (congrArg Fin.val (@hinj_c ⟨3, by simp⟩ ⟨1, by simp⟩ he)) (by simp)) [a0, a2] [a4, a5, a6, a7]
      have sc3 : (inversions ([a0, a2, a1, a3, a4, a5, a6, a7] : List Nat) + inversions ([a0, a1, a2, a3, a4, a5, a6, a7] : List Nat)) % 2 = 1 := inversions_adj_swap a2 a1 (fun he => absurd (congrArg Fin.val (@hinj_c ⟨2, by simp⟩ ⟨1, by simp⟩ he)) (by simp)) [a0] [a3, a4, a5, a6, a7]
      have se0 : (inversions ([e1, e0, e2, e3, e5, e4, e6, e7, e8, e9, e10, e11] : List Nat) + inversions ([e0, e1, e2, e3, e5, e4, e6, e7, e8, e9, e10, e11] : List Nat)) % 2 = 1 := inversions_adj_swap e1 e0 (fun he => absurd (congrArg Fin.val (@hinj_e ⟨1, by simp⟩ ⟨0, by simp⟩ he)) (by simp)) [] [e2, e3, e5, e4, e6, e7, e8, e9, e10, e11]
      have se1 : (inversions ([e0, e1, e2, e3, e5, e4, e6, e7, e8, e9, e10, e11] : List Nat) + inversions ([e0, e1, e2, e3, e4, e5, e6, e7, e8, e9, e10, e11] : List Nat)) % 2 = 1 := inversions_adj_swap e5 e4 (fun he => absurd (congrArg Fin.val (@hinj_e ⟨5, by simp⟩ ⟨4, by simp⟩ he)) (by simp)) [e0, e1, e2, e3] [e6, e7, e8, e9, e10, e11]
      omega
  · -- move UP
    simp only [step_UP]
    have pc : List.Perm [a1, a2, a3, a0, a4, a5, a6, a7]
        [a0, a1, a2, a3, a4, a5, a6, a7] :=
      (List.Perm.trans (List.Perm.trans (List.Perm.cons a1 (List.Perm.cons a2 (List.Perm.swap a0 a3 [a4, a5, a6, a7]))) (List.Perm.cons a1 (List.Perm.swap a0 a2 [a3, a4, a5, a6, a7]))) (List.Perm.swap a0 a1 [a2, a3, a4, a5, a6, a7]))
    have pe : List.Perm [e5, e4, e2, e3, e0, e1, e6, e7, e8, e9, e10, e11]
        [e0, e1, e2, e3, e4, e5, e6, e7, e8, e9, e10, e11] :=
      (List.Perm.trans (List.Perm.trans (List.Perm.trans (List.Perm.trans (List.Perm.trans (List.Perm.trans (List.Perm.trans (List.Perm.trans (List.Perm.trans (List.Perm.trans (List.Perm.trans (List.Perm.trans (List.Perm.swap e4 e5 [e2, e3, e0, e1, e6, e7, e8, e9, e10, e11]) (List.Perm.cons e4 (List.Perm.swap e2 e5 [e3, e0, e1, e6, e7, e8, e9, e10, e11]))) (List.Perm.swap e2 e4 [e5, e3, e0, e1, e6, e7, e8, e9, e10, e11])) (List.Perm.cons e2 (List.Perm.cons e4 (List.Perm.swap e3 e5 [e0, e1, e6, e7, e8, e9, e10, e11])))) (List.Perm.cons e2 (List.Perm.swap e3 e4 [e5, e0, e1, e6, e7, e8, e9, e10, e11]))) (List.Perm.cons e2 (List.Perm.cons e3 (List.Perm.cons e4 (List.Perm.swap e0 e5 [e1, e6, e7, e8, e9, e10, e11]))))) (List.Perm.cons e2 (List.Perm.cons e3 (List.Perm.swap e0 e4 [e5, e1, e6, e7, e8, e9, e10, e11])))) (List.Perm.cons e2 (List.Perm.swap e0 e3 [e4, e5, e1, e6, e7, e8, e9, e10, e11]))) (List.Perm.swap e0 e2 [e3, e4, e5, e1, e6, e7, e8, e9, e10, e11])) (List.Perm.cons e0 (List.Perm.cons e2 (List.Perm.cons e3 (List.Perm.cons e4 (List.Perm.swap e1 e5 [e6, e7, e8, e9, e10, e11])))))) (List.Perm.cons e0 (List.Perm.cons e2 (List.Perm.cons e3 (List.Perm.swap e1 e4 [e5, e6, e7, e8, e9, e10, e11]))))) (List.Perm.cons e0 (List.Perm.cons e2 (List.Perm.swap e1 e3 [e4, e5, e6, e7, e8, e9, e10, e11])))) (List.Perm.cons e0 (List.Perm.swap e1 e2 [e3, e4, e5, e6, e7, e8, e9, e10, e11])))
    unfold Valid WellFormed
    refine ⟨⟨rfl, rfl, rfl, rfl, ?_, ?_⟩,
      pc.trans hpc, pe.trans hpe, ?_, ?_, ?_⟩
    · simp only [List.mem_cons, List.not_mem_nil, or_false, forall_eq_or_imp,
        forall_eq]
      omega
    · simp only [List.mem_cons, List.not_mem_nil, or_false, forall_eq_or_imp,
        forall_eq]
      omega
    · simp only [List.sum_cons, List.sum_nil] at hsc ⊢
      omega
    · simp only [List.sum_cons, List.sum_nil] at hse ⊢
      omega
    · -- parity: chain of adjacent transpositions (3 corner, 13 edge)
      show (inversions [a1, a2, a3, a0, a4, a5, a6, a7] +
        inversions [e5, e4, e2, e3, e0, e1, e6, e7, e8, e9, e10, e11]) % 2 = 0
      have sc0 : (inversions ([a1, a2, a3, a0, a4, a5, a6, a7] : List Nat) + inversions ([a1, a2, a0, a3, a4, a5, a6, a7] : List Nat)) % 2 = 1 := inversions_adj_swap a3 a0 (fun he => absurd (congrArg Fin.val (@hinj_c ⟨3, by simp⟩ ⟨0, by simp⟩ he)) (by simp)) [a1, a2] [a4, a5, a6, a7]
      have sc1 : (inversions ([a1, a2, a0, a3, a4, a5, a6, a7] : List Nat) + inversions ([a1, a0, a2, a3, a4, a5, a6, a7] : List Nat)) % 2 = 1 := inversions_adj_swap a2 a0 (fun he => absurd (congrArg Fin.val (@hinj_c ⟨2, by simp⟩ ⟨0, by simp⟩ he)) (by simp)) [a1] [a3, a4, a5, a6, a7]
      have sc2 : (inversions ([a1, a0, a2, a3, a4, a5, a6, a7] : List Nat) + inversions ([a0, a1, a2, a3, a4, a5, a6, a7] : List Nat)) % 2 = 1 := inversions_adj_swap a1 a0 (fun he => absurd (congrArg Fin.val (@hinj_c ⟨1, by simp⟩ ⟨0, by simp⟩ he)) (by simp)) [] [a2, a3, a4, a5, a6, a7]
      have se0 : (inversions ([e5, e4, e2, e3, e0, e1, e6, e7, e8, e9, e10, e11] : List Nat) + inversions ([e4, e5, e2, e3, e0, e1, e6, e7, e8, e9, e10, e11] : List Nat)) % 2 = 1 := inversions_adj_swap e5 e4 (fun he => absurd (congrArg Fin.val (@hinj_e ⟨5, by simp⟩ ⟨4, by simp⟩ he)) (by simp)) [] [e2, e3, e0, e1, e6, e7, e8, e9, e10, e11]
      have se1 : (inversions ([e4, e5, e2, e3, e0, e1, e6, e7, e8, e9, e10, e11] : List Nat) + inversions ([e4, e2, e5, e3, e0, e1, e6, e7, e8, e9, e10, e11] : List Nat)) % 2 = 1 := inversions_adj_swap e5 e2 (fun he => absurd (congrArg Fin.val (@hinj_e ⟨5, by simp⟩ ⟨2, by simp⟩ he)) (by simp)) [e4] [e3, e0, e1, e6, e7, e8, e9, e10, e11]
      have se2 : (inversions ([e4, e2, e5, e3, e0, e1, e6, e7, e8, e9, e10, e11] : List Nat) + inversions ([e2, e4, e5, e3, e0, e1, e6, e7, e8, e9, e10, e11] : List Nat)) % 2 = 1 := inversions_adj_swap e4 e2 (fun he => absurd (congrArg Fin.val (@hinj_e ⟨4, by simp⟩ ⟨2, by simp⟩ he)) (by simp)) [] [e5, e3, e0, e1, e6, e7, e8, e9, e10, e11]
      have se3 : (inversions ([e2, e4, e5, e3, e0, e1, e6, e7, e8, e9, e10, e11] : List Nat) + inversions ([e2, e4, e3, e5, e0, e1, e6, e7, e8, e9, e10, e11] : List Nat)) % 2 = 1 := inversions_adj_swap e5 e3 (fun he => absurd (congrArg Fin.val (@hinj_e ⟨5, by simp⟩ ⟨3, by simp⟩ he)) (by simp)) [e2, e4] [e0, e1, e6, e7, e8, e9, e10, e11]
      have se4 : (inversions ([e2, e4, e3, e5, e0, e1, e6, e7, e8, e9, e10, e11] : List Nat) + inversions ([e2, e3, e4, e5, e0, e1, e6, e7, e8, e9, e10, e11] : List Nat)) % 2 = 1 := inversions_adj_swap e4 e3 (fun he => absurd (congrArg Fin.val (@hinj_e ⟨4, by simp⟩ ⟨3, by simp⟩ he)) (by simp)) [e2] [e5, e0, e1, e6, e7, e8, e9, e10, e11]
      have se5 : (inversions ([e2, e3, e4, e5, e0, e1, e6, e7, e8, e9, e10, e11] : List Nat) + inversions ([e2, e3, e4, e0, e5, e1, e6, e7, e8, e9, e10, e11] : List Nat)) % 2 = 1 := inversions_adj_swap e5 e0 (fun he => absurd (congrArg Fin.val (@hinj_e ⟨5, by simp⟩ ⟨0, by simp⟩ he)) (by simp)) [e2, e3, e4] [e1, e6, e7, e8, e9, e10, e11]
      have se6 : (inversions ([e2, e3, e4, e0, e5, e1, e6, e7, e8, e9, e10, e11] : List Nat) + inversions ([e2, e3, e0, e4, e5, e1, e6, e7, e8, e9, e10, e11] : List Nat)) % 2 = 1 := inversions_adj_swap e4 e0 (fun he => absurd (congrArg Fin.val (@hinj_e ⟨4, by simp⟩ ⟨0, by simp⟩ he)) (by simp)) [e2, e3] [e5, e1, e6, e7, e8, e9, e10, e11]
      have se7 : (inversions ([e2, e3, e0, e4, e5, e1, e6, e7, e8, e9, e10, e11] : List Nat) + inversions ([e2, e0, e3, e4, e5, e1, e6, e7, e8, e9, e10, e11] : List Nat)) % 2 = 1 := inversions_adj_swap e3 e0 (fun he => absurd (congrArg Fin.val (@hinj_e ⟨3, by simp⟩ ⟨0, by simp⟩ he)) (by simp)) [e2] [e4, e5, e1, e6, e7, e8, e9, e10, e11]
      have se8 : (inversions ([e2, e0, e3, e4, e5, e1, e6, e7, e8, e9, e10, e11] : List Nat) + inversions ([e0, e2, e3, e4, e5, e1, e6, e7, e8, e9, e10, e11] : List Nat)) % 2 = 1 := inversions_adj_swap e2 e0 (fun he => absurd (congrArg Fin.val (@hinj_e ⟨2, by simp⟩ ⟨0, by simp⟩ he)) (by simp)) [] [e3, e4, e5, e1, e6, e7, e8, e9, e10, e11]
      have se9 : (inversions ([e0, e2, e3, e4, e5, e1, e6, e7, e8, e9, e10, e11] : List Nat) + inversions ([e0, e2, e3, e4, e1, e5, e6, e7, e8, e9, e10, e11] : List Nat)) % 2 = 1 := inversions_adj_swap e5 e1 (fun he => absurd (congrArg Fin.val (@hinj_e ⟨5, by simp⟩ ⟨1, by simp⟩ he)) (by simp)) [e0, e2, e3, e4] [e6, e7, e8, e9, e10, e11]
      have se10 : (inversions ([e0, e2, e3, e4, e1, e5, e6, e7, e8, e9, e10, e11] : List Nat) + inversions ([e0, e2, e3, e1, e4, e5, e6, e7, e8, e9, e10, e11] : List Nat)) % 2 = 1 := inversions_adj_swap e4 e1 (fun he => absurd (congrArg Fin.val (@hinj_e ⟨4, by simp⟩ ⟨1, by simp⟩ he)) (by simp)) [e0, e2, e3] [e5, e6, e7, e8, e9, e10, e11]
      have se11 : (inversions ([e0, e2, e3, e1, e4, e5, e6, e7, e8, e9, e10, e11] : List Nat) + inversions ([e0, e2, e1, e3, e4, e5, e6, e7, e8, e9, e10, e11] : List Nat)) % 2 = 1 := inversions_adj_swap e3 e1 (fun he => absurd (congrArg Fin.val (@hinj_e ⟨3, by simp⟩ ⟨1, by simp⟩ he)) (by simp)) [e0, e2] [e4, e5, e6, e7, e8, e9, e10, e11]
      have se12 : (inversions ([e0, e2, e1, e3, e4, e5, e6, e7, e8, e9, e10, e11] : List Nat) + inversions ([e0, e1, e2, e3, e4, e5, e6, e7, e8, e9, e10, e11] : List Nat)) % 2 = 1 := inversions_adj_swap e2 e1 (fun he => absurd (congrArg Fin.val (@hinj_e ⟨2, by simp⟩ ⟨1, by simp⟩ he)) (by simp)) [e0] [e3, e4, e5, e6, e7, e8, e9, e10, e11]
      omega
  · -- move L
    simp only [step_L]
    have pc : List.Perm [a0, a2, a6, a3, a4, a1, a5, a7]
        [a0, a1, a2, a3, a4, a5, a6, a7] :=
      (List.Perm.trans (List.Perm.trans (List.Perm.trans (List.Perm.trans (List.Perm.trans (List.Perm.trans (List.Perm.cons a0 (List.Perm.cons a2 (List.Perm.swap a3 a6 [a4, a1, a5, a7]))) (List.Perm.cons a0 (List.Perm.cons a2 (List.Perm.cons a3 (List.Perm.swap a4 a6 [a1, a5, a7]))))) (List.Perm.cons a0 (List.Perm.cons a2 (List.Perm.cons a3 (List.Perm.cons a4 (List.Perm.swap a1 a6 [a5, a7])))))) (List.Perm.cons a0 (List.Perm.cons a2 (List.Perm.cons a3 (List.Perm.swap a1 a4 [a6, a5, a7]))))) (List.Perm.cons a0 (List.Perm.cons a2 (List.Perm.swap a1 a3 [a4, a6, a5, a7])))) (List.Perm.cons a0 (List.Perm.swap a1 a2 [a3, a4, a6, a5, a7]))) (List.Perm.cons a0 (List.Perm.cons a1 (List.Perm.cons a2 (List.Perm.cons a3 (List.Perm.cons a4 (List.Perm.swap a5 a6 [a7])))))))
    have pe : List.Perm [e0, e1, e2, e3, e4, e10, e9, e7, e8, e5, e6, e11]
        [e0, e1, e2, e3, e4, e5, e6, e7, e8, e9, e10, e11] :=
      (List.Perm.trans (List.Perm.trans (List.Perm.trans (List.Perm.trans (List.Perm.trans (List.Perm.trans (List.Perm.trans (List.Perm.trans (List.Perm.trans (List.Perm.trans (List.Perm.trans (List.Perm.trans (List.Perm.cons e0 (List.Perm.cons e1 (List.Perm.cons e2 (List.Perm.cons e3 (List.Perm.cons e4 (List.Perm.swap e9 e10 [e7, e8, e5, e6, e11])))))) (List.Perm.cons e0 (List.Perm.cons e1 (List.Perm.cons e2 (List.Perm.cons e3 (List.Perm.cons e4 (List.Perm.cons e9 (List.Perm.swap e7 e10 [e8, e5, e6, e11])))))))) (List.Perm.cons e0 (List.Perm.cons e1 (List.Perm.cons e2 (List.Perm.cons e3 (List.Perm.cons e4 (List.Perm.swap e7 e9 [e10, e8, e5, e6, e11]))))))) (List.Perm.cons e0 (List.Perm.cons e1 (List.Perm.cons e2 (List.Perm.cons e3 (List.Perm.cons e4 (List.Perm.cons e7 (List.Perm.cons e9 (List.Perm.swap e8 e10 [e5, e6, e11]))))))))) (List.Perm.cons e0 (List.Perm.cons e1 (List.Perm.cons e2 (List.Perm.cons e3 (List.Perm.cons e4 (List.Perm.cons e7 (List.Perm.swap e8 e9 [e10, e5, e6, e11])))))))) (List.Perm.cons e0 (List.Perm.cons e1 (List.Perm.cons e2 (List.Perm.cons e3 (List.Perm.cons e4 (List.Perm.cons e7 (List.Perm.cons e8 (List.Perm.cons e9 (List.Perm.swap e5 e10 [e6, e11])))))))))) (List.Perm.cons e0 (List.Perm.cons e1 (List.Perm.cons e2 (List.Perm.cons e3 (List.Perm.cons e4 (List.Perm.cons e7 (List.Perm.cons e8 (List.Perm.swap e5 e9 [e10, e6, e11]))))))))) (List.Perm.cons e0 (List.Perm.cons e1 (List.Perm.cons e2 (List.Perm.cons e3 (List.Perm.cons e4 (List.Perm.cons e7 (List.Perm.swap e5 e8 [e9, e10, e6, e11])))))))) (List.Perm.cons e0 (List.Perm.cons e1 (List.Perm.cons e2 (List.Perm.cons e3 (List.Perm.cons e4 (List.Perm.swap e5 e7 [e8, e9, e10, e6, e11]))))))) (List.Perm.cons e0 (List.Perm.cons e1 (List.Perm.cons e2 (List.Perm.cons e3 (List.Perm.cons e4 (List.Perm.cons e5 (List.Perm.cons e7 (List.Perm.cons e8 (List.Perm.cons e9 (List.Perm.swap e6 e10 [e11]))))))))))) (List.Perm.cons e0 (List.Perm.cons e1 (List.Perm.cons e2 (List.Perm.cons e3 (List.Perm.cons e4 (List.Perm.cons e5 (List.Perm.cons e7 (List.Perm.cons e8 (List.Perm.swap e6 e9 [e10, e11])))))))))) (List.Perm.cons e0 (List.Perm.cons e1 (List.Perm.cons e2 (List.Perm.cons e3 (List.Perm.cons e4 (List.Perm.cons e5 (List.Perm.cons e7 (List.Perm.swap e6 e8 [e9, e10, e11]))))))))) (List.Perm.cons e0 (List.Perm.cons e1 (List.Perm.cons e2 (List.Perm.cons e3 (List.Perm.cons e4 (List.Perm.cons e5 (List.Perm.swap e6 e7 [e8, e9, e10, e11]))))))))
    unfold Valid WellFormed
    refine ⟨⟨rfl, rfl, rfl, rfl, ?_, ?_⟩,
      pc.trans hpc, pe.trans hpe, ?_, ?_, ?_⟩
    · simp only [List.mem_cons, List.not_mem_nil, or_false, forall_eq_or_imp,
        forall_eq]
      omega
    · simp only [List.mem_cons, List.not_mem_nil, or_false, forall_eq_or_imp,
        forall_eq]
      omega
    · simp only [List.sum_cons, List.sum_nil] at hsc ⊢
      omega
    · simp only [List.sum_cons, List.sum_nil] at hse ⊢
      omega
    · -- parity: chain of adjacent transpositions (7 corner, 13 edge)
      show (inversions [a0, a2, a6, a3, a4, a1, a5, a7] +
        inversions [e0, e1, e2, e3, e4, e10, e9, e7, e8, e5, e6, e11]) % 2 = 0
      have sc0 : (inversions ([a0, a2, a6, a3, a4, a1, a5, a7] : List Nat) + inversions ([a0, a2, a3, a6, a4, a1, a5, a7] : List Nat)) % 2 = 1 := inversions_adj_swap a6 a3 (fun he => absurd (congrArg Fin.val (@hinj_c ⟨6, by simp⟩ ⟨3, by simp⟩ he)) (by simp)) [a0, a2] [a4, a1, a5, a7]
      have sc1 : (inversions ([a0, a2, a3, a6, a4, a1, a5, a7] : List Nat) + inversions ([a0, a2, a3, a4, a6, a1, a5, a7] : List Nat)) % 2 = 1 := inversions_adj_swap a6 a4 (fun he => absurd (congrArg Fin.val (@hinj_c ⟨6, by simp⟩ ⟨4, by simp⟩ he)) (by simp)) [a0, a2, a3] [a1, a5, a7]
      have sc2 : (inversions ([a0, a2, a3, a4, a6, a1, a5, a7] : List Nat) + inversions ([a0, a2, a3, a4, a1, a6, a5, a7] : List Nat)) % 2 = 1 := inversions_adj_swap a6 a1 (fun he => absurd (congrArg Fin.val (@hinj_c ⟨6, by simp⟩ ⟨1, by simp⟩ he)) (by simp)) [a0, a2, a3, a4] [a5, a7]
      have sc3 : (inversions ([a0, a2, a3, a4, a1, a6, a5, a7] : List Nat) + inversions ([a0, a2, a3, a1, a4, a6, a5, a7] : List Nat)) % 2 = 1 := inversions_adj_swap a4 a1 (fun he => absurd (congrArg Fin.val (@hinj_c ⟨4, by simp⟩ ⟨1, by simp⟩ he)) (by simp)) [a0, a2, a3] [a6, a5, a7]
      have sc4 : (inversions ([a0, a2, a3, a1, a4, a6, a5, a7] : List Nat) + inversions ([a0, a2, a1, a3, a4, a6, a5, a7] : List Nat)) % 2 = 1 := inversions_adj_swap a3 a1 (fun he => absurd (congrArg Fin.val (@hinj_c ⟨3, by simp⟩ ⟨1, by simp⟩ he)) (by simp)) [a0, a2] [a4, a6, a5, a7]
      have sc5 : (inversions ([a0, a2, a1, a3, a4, a6, a5, a7] : List Nat) + inversions ([a0, a1, a2, a3, a4, a6, a5, a7] : List Nat)) % 2 = 1 := inversions_adj_swap a2 a1 (fun he => absurd (congrArg Fin.val (@hinj_c ⟨2, by simp⟩ ⟨1, by simp⟩ he)) (by simp)) [a0] [a3, a4, a6, a5, a7]
      have sc6 : (inversions ([a0, a1, a2, a3, a4, a6, a5, a7] : List Nat) + inversions ([a0, a1, a2, a3, a4, a5, a6, a7] : List Nat)) % 2 = 1 := inversions_adj_swap a6 a5 (fun he => absurd (congrArg Fin.val (@hinj_c ⟨6, by simp⟩ ⟨5, by simp⟩ he)) (by simp)) [a0, a1, a2, a3, a4] [a7]
      have se0 : (inversions ([e0, e1, e2, e3, e4, e10, e9, e7, e8, e5, e6, e11] : List Nat) + inversions ([e0, e1, e2, e3, e4, e9, e10, e7, e8, e5, e6, e11] : List Nat)) % 2 = 1 := inversions_adj_swap e10 e9 (fun he => absurd (congrArg Fin.val (@hinj_e ⟨10, by simp⟩ ⟨9, by simp⟩ he)) (by simp)) [e0, e1, e2, e3, e4] [e7, e8, e5, e6, e11]
      have se1 : (inversions ([e0, e1, e2, e3, e4, e9, e10, e7, e8, e5, e6, e11] : List Nat) + inversions ([e0, e1, e2, e3, e4, e9, e7, e10, e8, e5, e6, e11] : List Nat)) % 2 = 1 := inversions_adj_swap e10 e7 (fun he => absurd (congrArg Fin.val (@hinj_e ⟨10, by simp⟩ ⟨7, by simp⟩ he)) (by simp)) [e0, e1, e2, e3, e4, e9] [e8, e5, e6, e11]
      have se2 : (inversions ([e0, e1, e2, e3, e4, e9, e7, e10, e8, e5, e6, e11] : List Nat) + inversions ([e0, e1, e2, e3, e4, e7, e9, e10, e8, e5, e6, e11] : List Nat)) % 2 = 1 := inversions_adj_swap e9 e7 (fun he => absurd (congrArg Fin.val (@hinj_e ⟨9, by simp⟩ ⟨7, by simp⟩ he)) (by simp)) [e0, e1, e2, e3, e4] [e10, e8, e5, e6, e11]
      have se3 : (inversions ([e0, e1, e2, e3, e4, e7, e9, e10, e8, e5, e6, e11] : List Nat) + inversions ([e0, e1, e2, e3, e4, e7, e9, e8, e10, e5, e6, e11] : List Nat)) % 2 = 1 := inversions_adj_swap e10 e8 (fun he => absurd (congrArg Fin.val (@hinj_e ⟨10, by simp⟩ ⟨8, by simp⟩ he)) (by simp)) [e0, e1, e2, e3, e4, e7, e9] [e5, e6, e11]
      have se4 : (inversions ([e0, e1, e2, e3, e4, e7, e9, e8, e10, e5, e6, e11] : List Nat) + inversions ([e0, e1, e2, e3, e4, e7, e8, e9, e10, e5, e6, e11] : List Nat)) % 2 = 1 := inversions_adj_swap e9 e8 (fun he => absurd (congrArg Fin.val (@hinj_e ⟨9, by simp⟩ ⟨8, by simp⟩ he)) (by simp)) [e0, e1, e2, e3, e4, e7] [e10, e5, e6, e11]
      have se5 : (inversions ([e0, e1, e2, e3, e4, e7, e8, e9, e10, e5, e6, e11] : List Nat) + inversions ([e0, e1, e2, e3, e4, e7, e8, e9, e5, e10, e6, e11] : List Nat)) % 2 = 1 := inversions_adj_swap e10 e5 (fun he => absurd (congrArg Fin.val (@hinj_e ⟨10, by simp⟩ ⟨5, by simp⟩ he)) (by simp)) [e0, e1, e2, e3, e4, e7, e8, e9] [e6, e11]
      have se6 : (inversions ([e0, e1, e2, e3, e4, e7, e8, e9, e5, e10, e6, e11] : List Nat) + inversions ([e0, e1, e2, e3, e4, e7, e8, e5, e9, e10, e6, e11] : List Nat)) % 2 = 1 := inversions_adj_swap e9 e5 (fun he => absurd (congrArg Fin.val (@hinj_e ⟨9, by simp⟩ ⟨5, by simp⟩ he)) (by simp)) [e0, e1, e2, e3, e4, e7, e8] [e10, e6, e11]
      have se7 : (inversions ([e0, e1, e2, e3, e4, e7, e8, e5, e9, e10, e6, e11] : List Nat) + inversions ([e0, e1, e2, e3, e4, e7, e5, e8, e9, e10, e6, e11] : List Nat)) % 2 = 1 := inversions_adj_swap e8 e5 (fun he => absurd (congrArg Fin.val (@hinj_e ⟨8, by simp⟩ ⟨5, by simp⟩ he)) (by simp)) [e0, e1, e2, e3, e4, e7] [e9, e10, e6, e11]
      have se8 : (inversions ([e0, e1, e2, e3, e4, e7, e5, e8, e9, e10, e6, e11] : List Nat) + inversions ([e0, e1, e2, e3, e4, e5, e7, e8, e9, e10, e6, e11] : List Nat)) % 2 = 1 := inversions_adj_swap e7 e5 (fun he => absurd (congrArg Fin.val (@hinj_e ⟨7, by simp⟩ ⟨5, by simp⟩ he)) (by simp)) [e0, e1, e2, e3, e4] [e8, e9, e10, e6, e11]
      have se9 : (inversions ([e0, e1, e2, e3, e4, e5, e7, e8, e9, e10, e6, e11] : List Nat) + inversions ([e0, e1, e2, e3, e4, e5, e7, e8, e9, e6, e10, e11] : List Nat)) % 2 = 1 := inversions_adj_swap e10 e6 (fun he => absurd (congrArg Fin.val (@hinj_e ⟨10, by simp⟩ ⟨6, by simp⟩ he)) (by simp)) [e0, e1, e2, e3, e4, e5, e7, e8, e9] [e11]
      have se10 : (inversions ([e0, e1, e2, e3, e4, e5, e7, e8, e9, e6, e10, e11] : List Nat) + inversions ([e0, e1, e2, e3, e4, e5, e7, e8, e6, e9, e10, e11] : List Nat)) % 2 = 1 := inversions_adj_swap e9 e6 (fun he => absurd (congrArg Fin.val (@hinj_e ⟨9, by simp⟩ ⟨6, by simp⟩ he)) (by simp)) [e0, e1, e2, e3, e4, e5, e7, e8] [e10, e11]
      have se11 : (inversions ([e0, e1, e2, e3, e4, e5, e7, e8, e6, e9, e10, e11] : List Nat) + inversions ([e0, e1, e2, e3, e4, e5, e7, e6, e8, e9, e10, e11] : List Nat)) % 2 = 1 := inversions_adj_swap e8 e6 (fun he => absurd (congrArg Fin.val (@hinj_e ⟨8, by simp⟩ ⟨6, by simp⟩ he)) (by simp)) [e0, e1, e2, e3, e4, e5, e7] [e9, e10, e11]
      have se12 : (inversions ([e0, e1, e2, e3, e4, e5, e7, e6, e8, e9, e10, e11] : List Nat) + inversions ([e0, e1, e2, e3, e4, e5, e6, e7, e8, e9, e10, e11] : List Nat)) % 2 = 1 := inversions_adj_swap e7 e6 (fun he => absurd (congrArg Fin.val (@hinj_e ⟨7, by simp⟩ ⟨6, by simp⟩ he)) (by simp)) [e0, e1, e2, e3, e4, e5] [e8, e9, e10, e11]
      omega
  · -- move L2
    simp only [step_L2]
    have pc : List.Perm [a0, a6, a5, a3, a4, a2, a1, a7]
        [a0, a1, a2, a3, a4, a5, a6, a7] :=
      (List.Perm.trans (List.Perm.trans (List.Perm.trans (List.Perm.trans (List.Perm.trans (List.Perm.trans (List.Perm.trans (List.Perm.trans (List.Perm.trans (List.Perm.trans (List.Perm.trans (List.Perm.trans (List.Perm.trans (List.Perm.cons a0 (List.Perm.swap a5 a6 [a3, a4, a2, a1, a7])) (List.Perm.cons a0 (List.Perm.cons a5 (List.Perm.swap a3 a6 [a4, a2, a1, a7])))) (List.Perm.cons a0 (List.Perm.swap a3 a5 [a6, a4, a2, a1, a7]))) (List.Perm.cons a0 (List.Perm.cons a3 (List.Perm.cons a5 (List.Perm.swap a4 a6 [a2, a1, a7]))))) (List.Perm.cons a0 (List.Perm.cons a3 (List.Perm.swap a4 a5 [a6, a2, a1, a7])))) (List.Perm.cons a0 (List.Perm.cons a3 (List.Perm.cons a4 (List.Perm.cons a5 (List.Perm.swap a2 a6 [a1, a7])))))) (List.Perm.cons a0 (List.Perm.cons a3 (List.Perm.cons a4 (List.Perm.swap a2 a5 [a6, a1, a7]))))) (List.Perm.cons a0 (List.Perm.cons a3 (List.Perm.swap a2 a4 [a5, a6, a1, a7])))) (List.Perm.cons a0 (List.Perm.swap a2 a3 [a4, a5, a6, a1, a7]))) (List.Perm.cons a0 (List.Perm.cons a2 (List.Perm.cons a3 (List.Perm.cons a4 (List.Perm.cons a5 (List.Perm.swap a1 a6 [a7]))))))) (List.Perm.cons a0 (List.Perm.cons a2 (List.Perm.cons a3 (List.Perm.cons a4 (List.Perm.swap a1 a5 [a6, a7])))))) (List.Perm.cons a0 (List.Perm.cons a2 (List.Perm.cons a3 (List.Perm.swap a1 a4 [a5, a6, a7]))))) (List.Perm.cons a0 (List.Perm.cons a2 (List.Perm.swap a1 a3 [a4, a5, a6, a7])))) (List.Perm.cons a0 (List.Perm.swap a1 a2 [a3, a4, a5, a6, a7])))
    have pe : List.Perm [e0, e1, e2, e3, e4, e6, e5, e7, e8, e10, e9, e11]
        [e0, e1, e2, e3, e4, e5, e6, e7, e8, e9, e10, e11] :=
      (List.Perm.trans (List.Perm.cons e0 (List.Perm.cons e1 (List.Perm.cons e2 (List.Perm.cons e3 (List.Perm.cons e4 (List.Perm.swap e5 e6 [e7, e8, e10, e9, e11])))))) (List.Perm.cons e0 (List.Perm.cons e1 (List.Perm.cons e2 (List.Perm.cons e3 (List.Perm.cons e4 (List.Perm.cons e5 (List.Perm.cons e6 (List.Perm.cons e7 (List.Perm.cons e8 (List.Perm.swap e9 e10 [e11])))))))))))
    unfold Valid WellFormed
    refine ⟨⟨rfl, rfl, rfl, rfl, ?_, ?_⟩,
      pc.trans hpc, pe.trans hpe, ?_, ?_, ?_⟩
    · simp only [List.mem_cons, List.not_mem_nil, or_false, forall_eq_or_imp,
        forall_eq]
      omega
    · simp only [List.mem_cons, List.not_mem_nil, or_false, forall_eq_or_imp,
        forall_eq]
      omega
    · simp only [List.sum_cons, List.sum_nil] at hsc ⊢
      omega
    · simp only [List.sum_cons, List.sum_nil] at hse ⊢
      omega
    · -- parity: chain of adjacent transpositions (14 corner, 2 edge)
      show (inversions [a0, a6, a5, a3, a4, a2, a1, a7] +
        inversions [e0, e1, e2, e3, e4, e6, e5, e7, e8, e10, e9, e11]) % 2 = 0
      have sc0 : (inversions ([a0, a6, a5, a3, a4, a2, a1, a7] : List Nat) + inversions ([a0, a5, a6, a3, a4, a2, a1, a7] : List Nat)) % 2 = 1 := inversions_adj_swap a6 a5 (fun he => absurd (congrArg Fin.val (@hinj_c ⟨6, by simp⟩ ⟨5, by simp⟩ he)) (by simp)) [a0] [a3, a4, a2, a1, a7]
      have sc1 : (inversions ([a0, a5, a6, a3, a4, a2, a1, a7] : List Nat) + inversions ([a0, a5, a3, a6, a4, a2, a1, a7] : List Nat)) % 2 = 1 := inversions_adj_swap a6 a3 (fun he => absurd (congrArg Fin.val (@hinj_c ⟨6, by simp⟩ ⟨3, by simp⟩ he)) (by simp)) [a0, a5] [a4, a2, a1, a7]
      have sc2 : (inversions ([a0, a5, a3, a6, a4, a2, a1, a7] : List Nat) + inversions ([a0, a3, a5, a6, a4, a2, a1, a7] : List Nat)) % 2 = 1 := inversions_adj_swap a5 a3 (fun he => absurd (congrArg Fin.val (@hinj_c ⟨5, by simp⟩ ⟨3, by simp⟩ he)) (by simp)) [a0] [a6, a4, a2, a1, a7]
      have sc3 : (inversions ([a0, a3, a5, a6, a4, a2, a1, a7] : List Nat) + inversions ([a0, a3, a5, a4, a6, a2, a1, a7] : List Nat)) % 2 = 1 := inversions_adj_swap a6 a4 (fun he => absurd (congrArg Fin.val (@hinj_c ⟨6, by simp⟩ ⟨4, by simp⟩ he)) (by simp)) [a0, a3, a5] [a2, a1, a7]
      have sc4 : (inversions ([a0, a3, a5, a4, a6, a2, a1, a7] : List Nat) + inversions ([a0, a3, a4, a5, a6, a2, a1, a7] : List Nat)) % 2 = 1 := inversions_adj_swap a5 a4 (fun he => absurd (congrArg Fin.val (@hinj_c ⟨5, by simp⟩ ⟨4, by simp⟩ he)) (by simp)) [a0, a3] [a6, a2, a1, a7]
      have sc5 : (inversions ([a0, a3, a4, a5, a6, a2, a1, a7] : List Nat) + inversions ([a0, a3, a4, a5, a2, a6, a1, a7] : List Nat)) % 2 = 1 := inversions_adj_swap a6 a2 (fun he => absurd (congrArg Fin.val (@hinj_c ⟨6, by simp⟩ ⟨2, by simp⟩ he)) (by simp)) [a0, a3, a4, a5] [a1, a7]
      have sc6 : (inversions ([a0, a3, a4, a5, a2, a6, a1, a7] : List Nat) + inversions ([a0, a3, a4, a2, a5, a6, a1, a7] : List Nat)) % 2 = 1 := inversions_adj_swap a5 a2 (fun he => absurd (congrArg Fin.val (@hinj_c ⟨5, by simp⟩ ⟨2, by simp⟩ he)) (by simp)) [a0, a3, a4] [a6, a1, a7]
      have sc7 : (inversions ([a0, a3, a4, a2, a5, a6, a1, a7] : List Nat) + inversions ([a0, a3, a2, a4, a5, a6, a1, a7] : List Nat)) % 2 = 1 := inversions_adj_swap a4 a2 (fun he => absurd (congrArg Fin.val (@hinj_c ⟨4, by simp⟩ ⟨2, by simp⟩ he)) (by simp)) [a0, a3] [a5, a6, a1, a7]
      have sc8 : (inversions ([a0, a3, a2, a4, a5, a6, a1, a7] : List Nat) + inversions ([a0, a2, a3, a4, a5, a6, a1, a7] : List Nat)) % 2 = 1 := inversions_adj_swap a3 a2 (fun he => absurd (congrArg Fin.val (@hinj_c ⟨3, by simp⟩ ⟨2, by simp⟩ he)) (by simp)) [a0] [a4, a5, a6, a1, a7]
      have sc9 : (inversions ([a0, a2, a3, a4, a5, a6, a1, a7] : List Nat) + inversions ([a0, a2, a3, a4, a5, a1, a6, a7] : List Nat)) % 2 = 1 := inversions_adj_swap a6 a1 (fun he => absurd (congrArg Fin.val (@hinj_c ⟨6, by simp⟩ ⟨1, by simp⟩ he)) (by simp)) [a0, a2, a3, a4, a5] [a7]
      have sc10 : (inversions ([a0, a2, a3, a4, a5, a1, a6, a7] : List Nat) + inversions ([a0, a2, a3, a4, a1, a5, a6, a7] : List Nat)) % 2 = 1 := inversions_adj_swap a5 a1 (fun he => absurd (congrArg Fin.val (@hinj_c ⟨5, by simp⟩ ⟨1, by simp⟩ he)) (by simp)) [a0, a2, a3, a4] [a6, a7]
      have sc11 : (inversions ([a0, a2, a3, a4, a1, a5, a6, a7] : List Nat) + inversions ([a0, a2, a3, a1, a4, a5, a6, a7] : List Nat)) % 2 = 1 := inversions_adj_swap a4 a1 (fun he => absurd (congrArg Fin.val (@hinj_c ⟨4, by simp⟩ ⟨1, by simp⟩ he)) (by simp)) [a0, a2, a3] [a5, a6, a7]
      have sc12 : (inversions ([a0, a2, a3, a1, a4, a5, a6, a7] : List Nat) + inversions ([a0, a2, a1, a3, a4, a5, a6, a7] : List Nat)) % 2 = 1 := inversions_adj_swap a3 a1 (fun he => absurd (congrArg Fin.val (@hinj_c ⟨3, by simp⟩ ⟨1, by simp⟩ he)) (by simp)) [a0, a2] [a4, a5, a6, a7]
      have sc13 : (inversions ([a0, a2, a1, a3, a4, a5, a6, a7] : List Nat) + inversions ([a0, a1, a2, a3, a4, a5, a6, a7] : List Nat)) % 2 = 1 := inversions_adj_swap a2 a1 (fun he => absurd (congrArg Fin.val (@hinj_c ⟨2, by simp⟩ ⟨1, by simp⟩ he)) (by simp)) [a0] [a3, a4, a5, a6, a7]
      have se0 : (inversions ([e0, e1, e2, e3, e4, e6, e5, e7, e8, e10, e9, e11] : List Nat) + inversions ([e0, e1, e2, e3, e4, e5, e6, e7, e8, e10, e9, e11] : List Nat)) % 2 = 1 := inversions_adj_swap e6 e5 (fun he => absurd (congrArg Fin.val (@hinj_e ⟨6, by simp⟩ ⟨5, by simp⟩ he)) (by simp)) [e0, e1, e2, e3, e4] [e7, e8, e10, e9, e11]
      have se1 : (inversions ([e0, e1, e2, e3, e4, e5, e6, e7, e8, e10, e9, e11] : List Nat) + inversions ([e0, e1, e2, e3, e4, e5, e6, e7, e8, e9, e10, e11] : List Nat)) % 2 = 1 := inversions_adj_swap e10 e9 (fun he => absurd (congrArg Fin.val (@hinj_e ⟨10, by simp⟩ ⟨9, by simp⟩ he)) (by simp)) [e0, e1, e2, e3, e4, e5, e6, e7, e8] [e11]
      omega
  · -- move LP
    simp only [step_LP]
    have pc : List.Perm [a0, a5, a1, a3, a4, a6, a2, a7]
        [a0, a1, a2, a3, a4, a5, a6, a7] :=
      (List.Perm.trans (List.Perm.trans (List.Perm.trans (List.Perm.trans (List.Perm.trans (List.Perm.trans (List.Perm.cons a0 (List.Perm.swap a1 a5 [a3, a4, a6, a2, a7])) (List.Perm.cons a0 (List.Perm.cons a1 (List.Perm.swap a3 a5 [a4, a6, a2, a7])))) (List.Perm.cons a0 (List.Perm.cons a1 (List.Perm.cons a3 (List.Perm.swap a4 a5 [a6, a2, a7]))))) (List.Perm.cons a0 (List.Perm.cons a1 (List.Perm.cons a3 (List.Perm.cons a4 (List.Perm.cons a5 (List.Perm.swap a2 a6 [a7]))))))) (List.Perm.cons a0 (List.Perm.cons a1 (List.Perm.cons a3 (List.Perm.cons a4 (List.Perm.swap a2 a5 [a6, a7])))))) (List.Perm.cons a0 (List.Perm.cons a1 (List.Perm.cons a3 (List.Perm.swap a2 a4 [a5, a6, a7]))))) (List.Perm.cons a0 (List.Perm.cons a1 (List.Perm.swap a2 a3 [a4, a5, a6, a7]))))
    have pe : List.Perm [e0, e1, e2, e3, e4, e9, e10, e7, e8, e6, e5, e11]
        [e0, e1, e2, e3, e4, e5, e6, e7, e8, e9, e10, e11] :=
      (List.Perm.trans (List.Perm.trans (List.Perm.trans (List.Perm.trans (List.Perm.trans (List.Perm.trans (List.Perm.trans (List.Perm.trans (List.Perm.trans (List.Perm.trans (List.Perm.trans (List.Perm.trans (List.Perm.cons e0 (List.Perm.cons e1 (List.Perm.cons e2 (List.Perm.cons e3 (List.Perm.cons e4 (List.Perm.cons e9 (List.Perm.swap e7 e10 [e8, e6, e5, e11]))))))) (List.Perm.cons e0 (List.Perm.cons e1 (List.Perm.cons e2 (List.Perm.cons e3 (List.Perm.cons e4 (List.Perm.swap e7 e9 [e10, e8, e6, e5, e11]))))))) (List.Perm.cons e0 (List.Perm.cons e1 (List.Perm.cons e2 (List.Perm.cons e3 (List.Perm.cons e4 (List.Perm.cons e7 (List.Perm.cons e9 (List.Perm.swap e8 e10 [e6, e5, e11]))))))))) (List.Perm.cons e0 (List.Perm.cons e1 (List.Perm.cons e2 (List.Perm.cons e3 (List.Perm.cons e4 (List.Perm.cons e7 (List.Perm.swap e8 e9 [e10, e6, e5, e11])))))))) (List.Perm.cons e0 (List.Perm.cons e1 (List.Perm.cons e2 (List.Perm.cons e3 (List.Perm.cons e4 (List.Perm.cons e7 (List.Perm.cons e8 (List.Perm.cons e9 (List.Perm.swap e6 e10 [e5, e11])))))))))) (List.Perm.cons e0 (List.Perm.cons e1 (List.Perm.cons e2 (List.Perm.cons e3 (List.Perm.cons e4 (List.Perm.cons e7 (List.Perm.cons e8 (List.Perm.swap e6 e9 [e10, e5, e11]))))))))) (List.Perm.cons e0 (List.Perm.cons e1 (List.Perm.cons e2 (List.Perm.cons e3 (List.Perm.cons e4 (List.Perm.cons e7 (List.Perm.swap e6 e8 [e9, e10, e5, e11])))))))) (List.Perm.cons e0 (List.Perm.cons e1 (List.Perm.cons e2 (List.Perm.cons e3 (List.Perm.cons e4 (List.Perm.swap e6 e7 [e8, e9, e10, e5, e11]))))))) (List.Perm.cons e0 (List.Perm.cons e1 (List.Perm.cons e2 (List.Perm.cons e3 (List.Perm.cons e4 (List.Perm.cons e6 (List.Perm.cons e7 (List.Perm.cons e8 (List.Perm.cons e9 (List.Perm.swap e5 e10 [e11]))))))))))) (List.Perm.cons e0 (List.Perm.cons e1 (List.Perm.cons e2 (List.Perm.cons e3 (List.Perm.cons e4 (List.Perm.cons e6 (List.Perm.cons e7 (List.Perm.cons e8 (List.Perm.swap e5 e9 [e10, e11])))))))))) (List.Perm.cons e0 (List.Perm.cons e1 (List.Perm.cons e2 (List.Perm.cons e3 (List.Perm.cons e4 (List.Perm.cons e6 (List.Perm.cons e7 (List.Perm.swap e5 e8 [e9, e10, e11]))))))))) (List.Perm.cons e0 (List.Perm.cons e1 (List.Perm.cons e2 (List.Perm.cons e3 (List.Perm.cons e4 (List.Perm.cons e6 (List.Perm.swap e5 e7 [e8, e9, e10, e11])))))))) (List.Perm.cons e0 (List.Perm.cons e1 (List.Perm.cons e2 (List.Perm.cons e3 (List.Perm.cons e4 (List.Perm.swap e5 e6 [e7, e8, e9, e10, e11])))))))
    unfold Valid WellFormed
    refine ⟨⟨rfl, rfl, rfl, rfl, ?_, ?_⟩,
      pc.trans hpc, pe.trans hpe, ?_, ?_, ?_⟩
    · simp only [List.mem_cons, List.not_mem_nil, or_false, forall_eq_or_imp,
        forall_eq]
      omega
    · simp only [List.mem_cons, List.not_mem_nil, or_false, forall_eq_or_imp,
        forall_eq]
      omega
    · simp only [List.sum_cons, List.sum_nil] at hsc ⊢
      omega
    · simp only [List.sum_cons, List.sum_nil] at hse ⊢
      omega
    · -- parity: chain of adjacent transpositions (7 corner, 13 edge)
      show (inversions [a0, a5, a1, a3, a4, a6, a2, a7] +
        inversions [e0, e1, e2, e3, e4, e9, e10, e7, e8, e6, e5, e11]) % 2 = 0
      have sc0 : (inversions ([a0, a5, a1, a3, a4, a6, a2, a7] : List Nat) + inversions ([a0, a1, a5, a3, a4, a6, a2, a7] : List Nat)) % 2 = 1 := inversions_adj_swap a5 a1 (fun he => absurd (congrArg Fin.val (@hinj_c ⟨5, by simp⟩ ⟨1, by simp⟩ he)) (by simp)) [a0] [a3, a4, a6, a2, a7]
      have sc1 : (inversions ([a0, a1, a5, a3, a4, a6, a2, a7] : List Nat) + inversions ([a0, a1, a3, a5, a4, a6, a2, a7] : List Nat)) % 2 = 1 := inversions_adj_swap a5 a3 (fun he => absurd (congrArg Fin.val (@hinj_c ⟨5, by simp⟩ ⟨3, by simp⟩ he)) (by simp)) [a0, a1] [a4, a6, a2, a7]
      have sc2 : (inversions ([a0, a1, a3, a5, a4, a6, a2, a7] : List Nat) + inversions ([a0, a1, a3, a4, a5, a6, a2, a7] : List Nat)) % 2 = 1 := inversions_adj_swap a5 a4 (fun he => absurd (congrArg Fin.val (@hinj_c ⟨5, by simp⟩ ⟨4, by simp⟩ he)) (by simp)) [a0, a1, a3] [a6, a2, a7]
      have sc3 : (inversions ([a0, a1, a3, a4, a5, a6, a2, a7] : List Nat) + inversions ([a0, a1, a3, a4, a5, a2, a6, a7] : List Nat)) % 2 = 1 := inversions_adj_swap a6 a2 (fun he => absurd (congrArg Fin.val (@hinj_c ⟨6, by simp⟩ ⟨2, by simp⟩ he)) (by simp)) [a0, a1, a3, a4, a5] [a7]
      have sc4 : (inversions ([a0, a1, a3, a4, a5, a2, a6, a7] : List Nat) + inversions ([a0, a1, a3, a4, a2, a5, a6, a7] : List Nat)) % 2 = 1 := inversions_adj_swap a5 a2 (fun he => absurd (congrArg Fin.val (@hinj_c ⟨5, by simp⟩ ⟨2, by simp⟩ he)) (by simp)) [a0, a1, a3, a4] [a6, a7]
      have sc5 : (inversions ([a0, a1, a3, a4, a2, a5, a6, a7] : List Nat) + inversions ([a0, a1, a3, a2, a4, a5, a6, a7] : List Nat)) % 2 = 1 := inversions_adj_swap a4 a2 (fun he => absurd (congrArg Fin.val (@hinj_c ⟨4, by simp⟩ ⟨2, by simp⟩ he)) (by simp)) [a0, a1, a3] [a5, a6, a7]
      have sc6 : (inversions ([a0, a1, a3, a2, a4, a5, a6, a7] : List Nat) + inversions ([a0, a1, a2, a3, a4, a5, a6, a7] : List Nat)) % 2 = 1 := inversions_adj_swap a3 a2 (fun he => absurd (congrArg Fin.val (@hinj_c ⟨3, by simp⟩ ⟨2, by simp⟩ he)) (by simp)) [a0, a1] [a4, a5, a6, a7]
      have se0 : (inversions ([e0, e1, e2, e3, e4, e9, e10, e7, e8, e6, e5, e11] : List Nat) + inversions ([e0, e1, e2, e3, e4, e9, e7, e10, e8, e6, e5, e11] : List Nat)) % 2 = 1 := inversions_adj_swap e10 e7 (fun he => absurd (congrArg Fin.val (@hinj_e ⟨10, by simp⟩ ⟨7, by simp⟩ he)) (by simp)) [e0, e1, e2, e3, e4, e9] [e8, e6, e5, e11]
      have se1 : (inversions ([e0, e1, e2, e3, e4, e9, e7, e10, e8, e6, e5, e11] : List Nat) + inversions ([e0, e1, e2, e3, e4, e7, e9, e10, e8, e6, e5, e11] : List Nat)) % 2 = 1 := inversions_adj_swap e9 e7 (fun he => absurd (congrArg Fin.val (@hinj_e ⟨9, by simp⟩ ⟨7, by simp⟩ he)) (by simp)) [e0, e1, e2, e3, e4] [e10, e8, e6, e5, e11]
      have se2 : (inversions ([e0, e1, e2, e3, e4, e7, e9, e10, e8, e6, e5, e11] : List Nat) + inversions ([e0, e1, e2, e3, e4, e7, e9, e8, e10, e6, e5, e11] : List Nat)) % 2 = 1 := inversions_adj_swap e10 e8 (fun he => absurd (congrArg Fin.val (@hinj_e ⟨10, by simp⟩ ⟨8, by simp⟩ he)) (by simp)) [e0, e1, e2, e3, e4, e7, e9] [e6, e5, e11]
      have se3 : (inversions ([e0, e1, e2, e3, e4, e7, e9, e8, e10, e6, e5, e11] : List Nat) + inversions ([e0, e1, e2, e3, e4, e7, e8, e9, e10, e6, e5, e11] : List Nat)) % 2 = 1 := inversions_adj_swap e9 e8 (fun he => absurd (congrArg Fin.val (@hinj_e ⟨9, by simp⟩ ⟨8, by simp⟩ he)) (by simp)) [e0, e1, e2, e3, e4, e7] [e10, e6, e5, e11]
      have se4 : (inversions ([e0, e1, e2, e3, e4, e7, e8, e9, e10, e6, e5, e11] : List Nat) + inversions ([e0, e1, e2, e3, e4, e7, e8, e9, e6, e10, e5, e11] : List Nat)) % 2 = 1 := inversions_adj_swap e10 e6 (fun he => absurd (congrArg Fin.val (@hinj_e ⟨10, by simp⟩ ⟨6, by simp⟩ he)) (by simp)) [e0, e1, e2, e3, e4, e7, e8, e9] [e5, e11]
      have se5 : (inversions ([e0, e1, e2, e3, e4, e7, e8, e9, e6, e10, e5, e11] : List Nat) + inversions ([e0, e1, e2, e3, e4, e7, e8, e6, e9, e10, e5, e11] : List Nat)) % 2 = 1 := inversions_adj_swap e9 e6 (fun he => absurd (congrArg Fin.val (@hinj_e ⟨9, by simp⟩ ⟨6, by simp⟩ he)) (by simp)) [e0, e1, e2, e3, e4, e7, e8] [e10, e5, e11]
      have se6 : (inversions ([e0, e1, e2, e3, e4, e7, e8, e6, e9, e10, e5, e11] : List Nat) + inversions ([e0, e1, e2, e3, e4, e7, e6, e8, e9, e10, e5, e11] : List Nat)) % 2 = 1 := inversions_adj_swap e8 e6 (fun he => absurd (congrArg Fin.val (@hinj_e ⟨8, by simp⟩ ⟨6, by simp⟩ he)) (by simp)) [e0, e1, e2, e3, e4, e7] [e9, e10, e5, e11]
      have se7 : (inversions ([e0, e1, e2, e3, e4, e7, e6, e8, e9, e10, e5, e11] : List Nat) + inversions ([e0, e1, e2, e3, e4, e6, e7, e8, e9, e10, e5, e11] : List Nat)) % 2 = 1 := inversions_adj_swap e7 e6 (fun he => absurd (congrArg Fin.val (@hinj_e ⟨7, by simp⟩ ⟨6, by simp⟩ he)) (by simp)) [e0, e1, e2, e3, e4] [e8, e9, e10, e5, e11]
      have se8 : (inversions ([e0, e1, e2, e3, e4, e6, e7, e8, e9, e10, e5, e11] : List Nat) + inversions ([e0, e1, e2, e3, e4, e6, e7, e8, e9, e5, e10, e11] : List Nat)) % 2 = 1 := inversions_adj_swap e10 e5 (fun he => absurd (congrArg Fin.val (@hinj_e ⟨10, by simp⟩ ⟨5, by simp⟩ he)) (by simp)) [e0, e1, e2, e3, e4, e6, e7, e8, e9] [e11]
      have se9 : (inversions ([e0, e1, e2, e3, e4, e6, e7, e8, e9, e5, e10, e11] : List Nat) + inversions ([e0, e1, e2, e3, e4, e6, e7, e8, e5, e9, e10, e11] : List Nat)) % 2 = 1 := inversions_adj_swap e9 e5 (fun he => absurd (congrArg Fin.val (@hinj_e ⟨9, by simp⟩ ⟨5, by simp⟩ he)) (by simp)) [e0, e1, e2, e3, e4, e6, e7, e8] [e10, e11]
      have se10 : (inversions ([e0, e1, e2, e3, e4, e6, e7, e8, e5, e9, e10, e11] : List Nat) + inversions ([e0, e1, e2, e3, e4, e6, e7, e5, e8, e9, e10, e11] : List Nat)) % 2 = 1 := inversions_adj_swap e8 e5 (fun he => absurd (congrArg Fin.val (@hinj_e ⟨8, by simp⟩ ⟨5, by simp⟩ he)) (by simp)) [e0, e1, e2, e3, e4, e6, e7] [e9, e10, e11]
      have se11 : (inversions ([e0, e1, e2, e3, e4, e6, e7, e5, e8, e9, e10, e11] : List Nat) + inversions ([e0, e1, e2, e3, e4, e6, e5, e7, e8, e9, e10, e11] : List Nat)) % 2 = 1 := inversions_adj_swap e7 e5 (fun he => absurd (congrArg Fin.val (@hinj_e ⟨7, by simp⟩ ⟨5, by simp⟩ he)) (by simp)) [e0, e1, e2, e3, e4, e6] [e8, e9, e10, e11]
      have se12 : (inversions ([e0, e1, e2, e3, e4, e6, e5, e7, e8, e9, e10, e11] : List Nat) + inversions ([e0, e1, e2, e3, e4, e5, e6, e7, e8, e9, e10, e11] : List Nat)) % 2 = 1 := inversions_adj_swap e6 e5 (fun he => absurd (congrArg Fin.val (@hinj_e ⟨6, by simp⟩ ⟨5, by simp⟩ he)) (by simp)) [e0, e1, e2, e3, e4] [e7, e8, e9, e10, e11]
      omega
  · -- move F
    simp only [step_F]
    have pc : List.Perm [a1, a5, a2, a3, a0, a4, a6, a7]
        [a0, a1, a2, a3, a4, a5, a6, a7] :=
      (List.Perm.trans (List.Perm.trans (List.Perm.trans (List.Perm.trans (List.Perm.trans (List.Perm.trans (List.Perm.cons a1 (List.Perm.swap a2 a5 [a3, a0, a4, a6, a7])) (List.Perm.cons a1 (List.Perm.cons a2 (List.Perm.swap a3 a5 [a0, a4, a6, a7])))) (List.Perm.cons a1 (List.Perm.cons a2 (List.Perm.cons a3 (List.Perm.swap a0 a5 [a4, a6, a7]))))) (List.Perm.cons a1 (List.Perm.cons a2 (List.Perm.swap a0 a3 [a5, a4, a6, a7])))) (List.Perm.cons a1 (List.Perm.swap a0 a2 [a3, a5, a4, a6, a7]))) (List.Perm.swap a0 a1 [a2, a3, a5, a4, a6, a7])) (List.Perm.cons a0 (List.Perm.cons a1 (List.Perm.cons a2 (List.Perm.cons a3 (List.Perm.swap a4 a5 [a6, a7]))))))
    have pe : List.Perm [e9, e1, e2, e8, e4, e5, e6, e7, e0, e3, e10, e11]
        [e0, e1, e2, e3, e4, e5, e6, e7, e8, e9, e10, e11] :=
      (List.Perm.trans (List.Perm.trans (List.Perm.trans (List.Perm.trans (List.Perm.trans (List.Perm.trans (List.Perm.trans (List.Perm.trans (List.Perm.trans (List.Perm.trans (List.Perm.trans (List.Perm.trans (List.Perm.trans (List.Perm.trans (List.Perm.trans (List.Perm.trans (List.Perm.trans (List.Perm.trans (List.Perm.trans (List.Perm.trans (List.Perm.trans (List.Perm.trans (List.Perm.trans (List.Perm.trans (List.Perm.swap e1 e9 [e2, e8, e4, e5, e6, e7, e0, e3, e10, e11]) (List.Perm.cons e1 (List.Perm.swap e2 e9 [e8, e4, e5, e6, e7, e0, e3, e10, e11]))) (List.Perm.cons e1 (List.Perm.cons e2 (List.Perm.swap e8 e9 [e4, e5, e6, e7, e0, e3, e10, e11])))) (List.Perm.cons e1 (List.Perm.cons e2 (List.Perm.cons e8 (List.Perm.swap e4 e9 [e5, e6, e7, e0, e3, e10, e11]))))) (List.Perm.cons e1 (List.Perm.cons e2 (List.Perm.swap e4 e8 [e9, e5, e6, e7, e0, e3, e10, e11])))) (List.Perm.cons e1 (List.Perm.cons e2 (List.Perm.cons e4 (List.Perm.cons e8 (List.Perm.swap e5 e9 [e6, e7, e0, e3, e10, e11])))))) (List.Perm.cons e1 (List.Perm.cons e2 (List.Perm.cons e4 (List.Perm.swap e5 e8 [e9, e6, e7, e0, e3, e10, e11]))))) (List.Perm.cons e1 (List.Perm.cons e2 (List.Perm.cons e4 (List.Perm.cons e5 (List.Perm.cons e8 (List.Perm.swap e6 e9 [e7, e0, e3, e10, e11]))))))) (List.Perm.cons e1 (List.Perm.cons e2 (List.Perm.cons e4 (List.Perm.cons e5 (List.Perm.swap e6 e8 [e9, e7, e0, e3, e10, e11])))))) (List.Perm.cons e1 (List.Perm.cons e2 (List.Perm.cons e4 (List.Perm.cons e5 (List.Perm.cons e6 (List.Perm.cons e8 (List.Perm.swap e7 e9 [e0, e3, e10, e11])))))))) (List.Perm.cons e1 (List.Perm.cons e2 (List.Perm.cons e4 (List.Perm.cons e5 (List.Perm.cons e6 (List.Perm.swap e7 e8 [e9, e0, e3, e10, e11]))))))) (List.Perm.cons e1 (List.Perm.cons e2 (List.Perm.cons e4 (List.Perm.cons e5 (List.Perm.cons e6 (List.Perm.cons e7 (List.Perm.cons e8 (List.Perm.swap e0 e9 [e3, e10, e11]))))))))) (List.Perm.cons e1 (List.Perm.cons e2 (List.Perm.cons e4 (List.Perm.cons e5 (List.Perm.cons e6 (List.Perm.cons e7 (List.Perm.swap e0 e8 [e9, e3, e10, e11])))))))) (List.Perm.cons e1 (List.Perm.cons e2 (List.Perm.cons e4 (List.Perm.cons e5 (List.Perm.cons e6 (List.Perm.swap e0 e7 [e8, e9, e3, e10, e11]))))))) (List.Perm.cons e1 (List.Perm.cons e2 (List.Perm.cons e4 (List.Perm.cons e5 (List.Perm.swap e0 e6 [e7, e8, e9, e3, e10, e11])))))) (List.Perm.cons e1 (List.Perm.cons e2 (List.Perm.cons e4 (List.Perm.swap e0 e5 [e6, e7, e8, e9, e3, e10, e11]))))) (List.Perm.cons e1 (List.Perm.cons e2 (List.Perm.swap e0 e4 [e5, e6, e7, e8, e9, e3, e10, e11])))) (List.Perm.cons e1 (List.Perm.swap e0 e2 [e4, e5, e6, e7, e8, e9, e3, e10, e11]))) (List.Perm.swap e0 e1 [e2, e4, e5, e6, e7, e8, e9, e3, e10, e11])) (List.Perm.cons e0 (List.Perm.cons e1 (List.Perm.cons e2 (List.Perm.cons e4 (List.Perm.cons e5 (List.Perm.cons e6 (List.Perm.cons e7 (List.Perm.cons e8 (List.Perm.swap e3 e9 [e10, e11])))))))))) (List.Perm.cons e0 (List.Perm.cons e1 (List.Perm.cons e2 (List.Perm.cons e4 (List.Perm.cons e5 (List.Perm.cons e6 (List.Perm.cons e7 (List.Perm.swap e3 e8 [e9, e10, e11]))))))))) (List.Perm.cons e0 (List.Perm.cons e1 (List.Perm.cons e2 (List.Perm.cons e4 (List.Perm.cons e5 (List.Perm.cons e6 (List.Perm.swap e3 e7 [e8, e9, e10, e11])))))))) (List.Perm.cons e0 (List.Perm.cons e1 (List.Perm.cons e2 (List.Perm.cons e4 (List.Perm.cons e5 (List.Perm.swap e3 e6 [e7, e8, e9, e10, e11]))))))) (List.Perm.cons e0 (List.Perm.cons e1 (List.Perm.cons e2 (List.Perm.cons e4 (List.Perm.swap e3 e5 [e6, e7, e8, e9, e10, e11])))))) (List.Perm.cons e0 (List.Perm.cons e1 (List.Perm.cons e2 (List.Perm.swap e3 e4 [e5, e6, e7, e8, e9, e10, e11])))))
    unfold Valid WellFormed
    refine ⟨⟨rfl, rfl, rfl, rfl, ?_, ?_⟩,
      pc.trans hpc, pe.trans hpe, ?_, ?_, ?_⟩
    · simp only [List.mem_cons, List.not_mem_nil, or_false, forall_eq_or_imp,
        forall_eq]
      omega
    · simp only [List.mem_cons, List.not_mem_nil, or_false, forall_eq_or_imp,
        forall_eq]
      omega
    · simp only [List.sum_cons, List.sum_nil] at hsc ⊢
      omega
    · simp only [List.sum_cons, List.sum_nil] at hse ⊢
      omega
    · -- parity: chain of adjacent transpositions (7 corner, 25 edge)
      show (inversions [a1, a5, a2, a3, a0, a4, a6, a7] +
        inversions [e9, e1, e2, e8, e4, e5, e6, e7, e0, e3, e10, e11]) % 2 = 0
      have sc0 : (inversions ([a1, a5, a2, a3, a0, a4, a6, a7] : List Nat) + inversions ([a1, a2, a5, a3, a0, a4, a6, a7] : List Nat)) % 2 = 1 := inversions_adj_swap a5 a2 (fun he => absurd (congrArg Fin.val (@hinj_c ⟨5, by simp⟩ ⟨2, by simp⟩ he)) (by simp)) [a1] [a3, a0, a4, a6, a7]
      have sc1 : (inversions ([a1, a2, a5, a3, a0, a4, a6, a7] : List Nat) + inversions ([a1, a2, a3, a5, a0, a4, a6, a7] : List Nat)) % 2 = 1 := inversions_adj_swap a5 a3 (fun he => absurd (congrArg Fin.val (@hinj_c ⟨5, by simp⟩ ⟨3, by simp⟩ he)) (by simp)) [a1, a2] [a0, a4, a6, a7]
      have sc2 : (inversions ([a1, a2, a3, a5, a0, a4, a6, a7] : List Nat) + inversions ([a1, a2, a3, a0, a5, a4, a6, a7] : List Nat)) % 2 = 1 := inversions_adj_swap a5 a0 (fun he => absurd (congrArg Fin.val (@hinj_c ⟨5, by simp⟩ ⟨0, by simp⟩ he)) (by simp)) [a1, a2, a3] [a4, a6, a7]
      have sc3 : (inversions ([a1, a2, a3, a0, a5, a4, a6, a7] : List Nat) + inversions ([a1, a2, a0, a3, a5, a4, a6, a7] : List Nat)) % 2 = 1 := inversions_adj_swap a3 a0 (fun he => absurd (congrArg Fin.val (@hinj_c ⟨3, by simp⟩ ⟨0, by simp⟩ he)) (by simp)) [a1, a2] [a5, a4, a6, a7]
      have sc4 : (inversions ([a1, a2, a0, a3, a5, a4, a6, a7] : List Nat) + inversions ([a1, a0, a2, a3, a5, a4, a6, a7] : List Nat)) % 2 = 1 := inversions_adj_swap a2 a0 (fun he => absurd (congrArg Fin.val (@hinj_c ⟨2, by simp⟩ ⟨0, by simp⟩ he)) (by simp)) [a1] [a3, a5, a4, a6, a7]
      have sc5 : (inversions ([a1, a0, a2, a3, a5, a4, a6, a7] : List Nat) + inversions ([a0, a1, a2, a3, a5, a4, a6, a7] : List Nat)) % 2 = 1 := inversions_adj_swap a1 a0 (fun he => absurd (congrArg Fin.val (@hinj_c ⟨1, by simp⟩ ⟨0, by simp⟩ he)) (by simp)) [] [a2, a3, a5, a4, a6, a7]
      have sc6 : (inversions ([a0, a1, a2, a3, a5, a4, a6, a7] : List Nat) + inversions ([a0, a1, a2, a3, a4, a5, a6, a7] : List Nat)) % 2 = 1 := inversions_adj_swap a5 a4 (fun he => absurd (congrArg Fin.val (@hinj_c ⟨5, by simp⟩ ⟨4, by simp⟩ he)) (by simp)) [a0, a1, a2, a3] [a6, a7]
      have se0 : (inversions ([e9, e1, e2, e8, e4, e5, e6, e7, e0, e3, e10, e11] : List Nat) + inversions ([e1, e9, e2, e8, e4, e5, e6, e7, e0, e3, e10, e11] : List Nat)) % 2 = 1 := inversions_adj_swap e9 e1 (fun he => absurd (congrArg Fin.val (@hinj_e ⟨9, by simp⟩ ⟨1, by simp⟩ he)) (by simp)) [] [e2, e8, e4, e5, e6, e7, e0, e3, e10, e11]
      have se1 : (inversions ([e1, e9, e2, e8, e4, e5, e6, e7, e0, e3, e10, e11] : List Nat) + inversions ([e1, e2, e9, e8, e4, e5, e6, e7, e0, e3, e10, e11] : List Nat)) % 2 = 1 := inversions_adj_swap e9 e2 (fun he => absurd (congrArg Fin.val (@hinj_e ⟨9, by simp⟩ ⟨2, by simp⟩ he)) (by simp)) [e1] [e8, e4, e5, e6, e7, e0, e3, e10, e11]
      have se2 : (inversions ([e1, e2, e9, e8, e4, e5, e6, e7, e0, e3, e10, e11] : List Nat) + inversions ([e1, e2, e8, e9, e4, e5, e6, e7, e0, e3, e10, e11] : List Nat)) % 2 = 1 := inversions_adj_swap e9 e8 (fun he => absurd (congrArg Fin.val (@hinj_e ⟨9, by simp⟩ ⟨8, by simp⟩ he)) (by simp)) [e1, e2] [e4, e5, e6, e7, e0, e3, e10, e11]
      have se3 : (inversions ([e1, e2, e8, e9, e4, e5, e6, e7, e0, e3, e10, e11] : List Nat) + inversions ([e1, e2, e8, e4, e9, e5, e6, e7, e0, e3, e10, e11] : List Nat)) % 2 = 1 := inversions_adj_swap e9 e4 (fun he => absurd (congrArg Fin.val (@hinj_e ⟨9, by simp⟩ ⟨4, by simp⟩ he)) (by simp)) [e1, e2, e8] [e5, e6, e7, e0, e3, e10, e11]
      have se4 : (inversions ([e1, e2, e8, e4, e9, e5, e6, e7, e0, e3, e10, e11] : List Nat) + inversions ([e1, e2, e4, e8, e9, e5, e6, e7, e0, e3, e10, e11] : List Nat)) % 2 = 1 := inversions_adj_swap e8 e4 (fun he => absurd (congrArg Fin.val (@hinj_e ⟨8, by simp⟩ ⟨4, by simp⟩ he)) (by simp)) [e1, e2] [e9, e5, e6, e7, e0, e3, e10, e11]
      have se5 : (inversions ([e1, e2, e4, e8, e9, e5, e6, e7, e0, e3, e10, e11] : List Nat) + inversions ([e1, e2, e4, e8, e5, e9, e6, e7, e0, e3, e10, e11] : List Nat)) % 2 = 1 := inversions_adj_swap e9 e5 (fun he => absurd (congrArg Fin.val (@hinj_e ⟨9, by simp⟩ ⟨5, by simp⟩ he)) (by simp)) [e1, e2, e4, e8] [e6, e7, e0, e3, e10, e11]
      have se6 : (inversions ([e1, e2, e4, e8, e5, e9, e6, e7, e0, e3, e10, e11] : List Nat) + inversions ([e1, e2, e4, e5, e8, e9, e6, e7, e0, e3, e10, e11] : List Nat)) % 2 = 1 := inversions_adj_swap e8 e5 (fun he => absurd (congrArg Fin.val (@hinj_e ⟨8, by simp⟩ ⟨5, by simp⟩ he)) (by simp)) [e1, e2, e4] [e9, e6, e7, e0, e3, e10, e11]
      have se7 : (inversions ([e1, e2, e4, e5, e8, e9, e6, e7, e0, e3, e10, e11] : List Nat) + inversions ([e1, e2, e4, e5, e8, e6, e9, e7, e0, e3, e10, e11] : List Nat)) % 2 = 1 := inversions_adj_swap e9 e6 (fun he => absurd (congrArg Fin.val (@hinj_e ⟨9, by simp⟩ ⟨6, by simp⟩ he)) (by simp)) [e1, e2, e4, e5, e8] [e7, e0, e3, e10, e11]
      have se8 : (inversions ([e1, e2, e4, e5, e8, e6, e9, e7, e0, e3, e10, e11] : List Nat) + inversions ([e1, e2, e4, e5, e6, e8, e9, e7, e0, e3, e10, e11] : List Nat)) % 2 = 1 := inversions_adj_swap e8 e6 (fun he => absurd (congrArg Fin.val (@hinj_e ⟨8, by simp⟩ ⟨6, by simp⟩ he)) (by simp)) [e1, e2, e4, e5] [e9, e7, e0, e3, e10, e11]
      have se9 : (inversions ([e1, e2, e4, e5, e6, e8, e9, e7, e0, e3, e10, e11] : List Nat) + inversions ([e1, e2, e4, e5, e6, e8, e7, e9, e0, e3, e10, e11] : List Nat)) % 2 = 1 := inversions_adj_swap e9 e7 (fun he => absurd (congrArg Fin.val (@hinj_e ⟨9, by simp⟩ ⟨7, by simp⟩ he)) (by simp)) [e1, e2, e4, e5, e6, e8] [e0, e3, e10, e11]
      have se10 : (inversions ([e1, e2, e4, e5, e6, e8, e7, e9, e0, e3, e10, e11] : List Nat) + inversions ([e1, e2, e4, e5, e6, e7, e8, e9, e0, e3, e10, e11] : List Nat)) % 2 = 1 := inversions_adj_swap e8 e7 (fun he => absurd (congrArg Fin.val (@hinj_e ⟨8, by simp⟩ ⟨7, by simp⟩ he)) (by simp)) [e1, e2, e4, e5, e6] [e9, e0, e3, e10, e11]
      have se11 : (inversions ([e1, e2, e4, e5, e6, e7, e8, e9, e0, e3, e10, e11] : List Nat) + inversions ([e1, e2, e4, e5, e6, e7, e8, e0, e9, e3, e10, e11] : List Nat)) % 2 = 1 := inversions_adj_swap e9 e0 (fun he => absurd (congrArg Fin.val (@hinj_e ⟨9, by simp⟩ ⟨0, by simp⟩ he)) (by simp)) [e1, e2, e4, e5, e6, e7, e8] [e3, e10, e11]
      have se12 : (inversions ([e1, e2, e4, e5, e6, e7, e8, e0, e9, e3, e10, e11] : List Nat) + inversions ([e1, e2, e4, e5, e6, e7, e0, e8, e9, e3, e10, e11] : List Nat)) % 2 = 1 := inversions_adj_swap e8 e0 (fun he => absurd (congrArg Fin.val (@hinj_e ⟨8, by simp⟩ ⟨0, by simp⟩ he)) (by simp)) [e1, e2, e4, e5, e6, e7] [e9, e3, e10, e11]
      have se13 : (inversions ([e1, e2, e4, e5, e6, e7, e0, e8, e9, e3, e10, e11] : List Nat) + inversions ([e1, e2, e4, e5, e6, e0, e7, e8, e9, e3, e10, e11] : List Nat)) % 2 = 1 := inversions_adj_swap e7 e0 (fun he => absurd (congrArg Fin.val (@hinj_e ⟨7, by simp⟩ ⟨0, by simp⟩ he)) (by simp)) [e1, e2, e4, e5, e6] [e8, e9, e3, e10, e11]
      have se14 : (inversions ([e1, e2, e4, e5, e6, e0, e7, e8, e9, e3, e10, e11] : List Nat) + inversions ([e1, e2, e4, e5, e0, e6, e7, e8, e9, e3, e10, e11] : List Nat)) % 2 = 1 := inversions_adj_swap e6 e0 (fun he => absurd (congrArg Fin.val (@hinj_e ⟨6, by simp⟩ ⟨0, by simp⟩ he)) (by simp)) [e1, e2, e4, e5] [e7, e8, e9, e3, e10, e11]
      have se15 : (inversions ([e1, e2, e4, e5, e0, e6, e7, e8, e9, e3, e10, e11] : List Nat) + inversions ([e1, e2, e4, e0, e5, e6, e7, e8, e9, e3, e10, e11] : List Nat)) % 2 = 1 := inversions_adj_swap e5 e0 (fun he => absurd (congrArg Fin.val (@hinj_e ⟨5, by simp⟩ ⟨0, by simp⟩ he)) (by simp)) [e1, e2, e4] [e6, e7, e8, e9, e3, e10, e11]
      have se16 : (inversions ([e1, e2, e4, e0, e5, e6, e7, e8, e9, e3, e10, e11] : List Nat) + inversions ([e1, e2, e0, e4, e5, e6, e7, e8, e9, e3, e10, e11] : List Nat)) % 2 = 1 := inversions_adj_swap e4 e0 (fun he => absurd (congrArg Fin.val (@hinj_e ⟨4, by simp⟩ ⟨0, by simp⟩ he)) (by simp)) [e1, e2] [e5, e6, e7, e8, e9, e3, e10, e11]
      have se17 : (inversions ([e1, e2, e0, e4, e5, e6, e7, e8, e9, e3, e10, e11] : List Nat) + inversions ([e1, e0, e2, e4, e5, e6, e7, e8, e9, e3, e10, e11] : List Nat)) % 2 = 1 := inversions_adj_swap e2 e0 (fun he => absurd (congrArg Fin.val (@hinj_e ⟨2, by simp⟩ ⟨0, by simp⟩ he)) (by simp)) [e1] [e4, e5, e6, e7, e8, e9, e3, e10, e11]
      have se18 : (inversions ([e1, e0, e2, e4, e5, e6, e7, e8, e9, e3, e10, e11] : List Nat) + inversions ([e0, e1, e2, e4, e5, e6, e7, e8, e9, e3, e10, e11] : List Nat)) % 2 = 1 := inversions_adj_swap e1 e0 (fun he => absurd (congrArg Fin.val (@hinj_e ⟨1, by simp⟩ ⟨0, by simp⟩ he)) (by simp)) [] [e2, e4, e5, e6, e7, e8, e9, e3, e10, e11]
      have se19 : (inversions ([e0, e1, e2, e4, e5, e6, e7, e8, e9, e3, e10, e11] : List Nat) + inversions ([e0, e1, e2, e4, e5, e6, e7, e8, e3, e9, e10, e11] : List Nat)) % 2 = 1 := inversions_adj_swap e9 e3 (fun he => absurd (congrArg Fin.val (@hinj_e ⟨9, by simp⟩ ⟨3, by simp⟩ he)) (by simp)) [e0, e1, e2, e4, e5, e6, e7, e8] [e10, e11]
      have se20 : (inversions ([e0, e1, e2, e4, e5, e6, e7, e8, e3, e9, e10, e11] : List Nat) + inversions ([e0, e1, e2, e4, e5, e6, e7, e3, e8, e9, e10, e11] : List Nat)) % 2 = 1 := inversions_adj_swap e8 e3 (fun he => absurd (congrArg Fin.val (@hinj_e ⟨8, by simp⟩ ⟨3, by simp⟩ he)) (by simp)) [e0, e1, e2, e4, e5, e6, e7] [e9, e10, e11]
      have se21 : (inversions ([e0, e1, e2, e4, e5, e6, e7, e3, e8, e9, e10, e11] : List Nat) + inversions ([e0, e1, e2, e4, e5, e6, e3, e7, e8, e9, e10, e11] : List Nat)) % 2 = 1 := inversions_adj_swap e7 e3 (fun he => absurd (congrArg Fin.val (@hinj_e ⟨7, by simp⟩ ⟨3, by simp⟩ he)) (by simp)) [e0, e1, e2, e4, e5, e6] [e8, e9, e10, e11]
      have se22 : (inversions ([e0, e1, e2, e4, e5, e6, e3, e7, e8, e9, e10, e11] : List Nat) + inversions ([e0, e1, e2, e4, e5, e3, e6, e7, e8, e9, e10, e11] : List Nat)) % 2 = 1 := inversions_adj_swap e6 e3 (fun he => absurd (congrArg Fin.val (@hinj_e ⟨6, by simp⟩ ⟨3, by simp⟩ he)) (by simp)) [e0, e1, e2, e4, e5] [e7, e8, e9, e10, e11]
      have se23 : (inversions ([e0, e1, e2, e4, e5, e3, e6, e7, e8, e9, e10, e11] : List Nat) + inversions ([e0, e1, e2, e4, e3, e5, e6, e7, e8, e9, e10, e11] : List Nat)) % 2 = 1 := inversions_adj_swap e5 e3 (fun he => absurd (congrArg Fin.val (@hinj_e ⟨5, by simp⟩ ⟨3, by simp⟩ he)) (by simp)) [e0, e1, e2, e4] [e6, e7, e8, e9, e10, e11]
      have se24 : (inversions ([e0, e1, e2, e4, e3, e5, e6, e7, e8, e9, e10, e11] : List Nat) + inversions ([e0, e1, e2, e3, e4, e5, e6, e7, e8, e9, e10, e11] : List Nat)) % 2 = 1 := inversions_adj_swap e4 e3 (fun he => absurd (congrArg Fin.val (@hinj_e ⟨4, by simp⟩ ⟨3, by simp⟩ he)) (by simp)) [e0, e1, e2] [e5, e6, e7, e8, e9, e10, e11]
      omega
  · -- move F2
    simp only [step_F2]
    have pc : List.Perm [a5, a4, a2, a3, a1, a0, a6, a7]
        [a0, a1, a2, a3, a4, a5, a6, a7] :=
      (List.Perm.trans (List.Perm.trans (List.Perm.trans (List.Perm.trans (List.Perm.trans (List.Perm.trans (List.Perm.trans (List.Perm.trans (List.Perm.trans (List.Perm.trans (List.Perm.trans (List.Perm.trans (List.Perm.trans (List.Perm.swap a4 a5 [a2, a3, a1, a0, a6, a7]) (List.Perm.cons a4 (List.Perm.swap a2 a5 [a3, a1, a0, a6, a7]))) (List.Perm.swap a2 a4 [a5, a3, a1, a0, a6, a7])) (List.Perm.cons a2 (List.Perm.cons a4 (List.Perm.swap a3 a5 [a1, a0, a6, a7])))) (List.Perm.cons a2 (List.Perm.swap a3 a4 [a5, a1, a0, a6, a7]))) (List.Perm.cons a2 (List.Perm.cons a3 (List.Perm.cons a4 (List.Perm.swap a1 a5 [a0, a6, a7]))))) (List.Perm.cons a2 (List.Perm.cons a3 (List.Perm.swap a1 a4 [a5, a0, a6, a7])))) (List.Perm.cons a2 (List.Perm.swap a1 a3 [a4, a5, a0, a6, a7]))) (List.Perm.swap a1 a2 [a3, a4, a5, a0, a6, a7])) (List.Perm.cons a1 (List.Perm.cons a2 (List.Perm.cons a3 (List.Perm.cons a4 (List.Perm.swap a0 a5 [a6, a7])))))) (List.Perm.cons a1 (List.Perm.cons a2 (List.Perm.cons a3 (List.Perm.swap a0 a4 [a5, a6, a7]))))) (List.Perm.cons a1 (List.Perm.cons a2 (List.Perm.swap a0 a3 [a4, a5, a6, a7])))) (List.Perm.cons a1 (List.Perm.swap a0 a2 [a3, a4, a5, a6, a7]))) (List.Perm.swap a0 a1 [a2, a3, a4, a5, a6, a7]))
    have pe : List.Perm [e3, e1, e2, e0, e4, e5, e6, e7, e9, e8, e10, e11]
        [e0, e1, e2, e3, e4, e5, e6, e7, e8, e9, e10, e11] :=
      (List.Perm.trans (List.Perm.trans (List.Perm.trans (List.Perm.trans (List.Perm.trans (List.Perm.swap e1 e3 [e2, e0, e4, e5, e6, e7, e9, e8, e10, e11]) (List.Perm.cons e1 (List.Perm.swap e2 e3 [e0, e4, e5, e6, e7, e9, e8, e10, e11]))) (List.Perm.cons e1 (List.Perm.cons e2 (List.Perm.swap e0 e3 [e4, e5, e6, e7, e9, e8, e10, e11])))) (List.Perm.cons e1 (List.Perm.swap e0 e2 [e3, e4, e5, e6, e7, e9, e8, e10, e11]))) (List.Perm.swap e0 e1 [e2, e3, e4, e5, e6, e7, e9, e8, e10, e11])) (List.Perm.cons e0 (List.Perm.cons e1 (List.Perm.cons e2 (List.Perm.cons e3 (List.Perm.cons e4 (List.Perm.cons e5 (List.Perm.cons e6 (List.Perm.cons e7 (List.Perm.swap e8 e9 [e10, e11]))))))))))
    unfold Valid WellFormed
    refine ⟨⟨rfl, rfl, rfl, rfl, ?_, ?_⟩,
      pc.trans hpc, pe.trans hpe, ?_, ?_, ?_⟩
    · simp only [List.mem_cons, List.not_mem_nil, or_false, forall_eq_or_imp,
        forall_eq]
      omega
    · simp only [List.mem_cons, List.not_mem_nil, or_false, forall_eq_or_imp,
        forall_eq]
      omega
    · simp only [List.sum_cons, List.sum_nil] at hsc ⊢
      omega
    · simp only [List.sum_cons, List.sum_nil] at hse ⊢
      omega
    · -- parity: chain of adjacent transpositions (14 corner, 6 edge)
      show (inversions [a5, a4, a2, a3, a1, a0, a6, a7] +
        inversions [e3, e1, e2, e0, e4, e5, e6, e7, e9, e8, e10, e11]) % 2 = 0
      have sc0 : (inversions ([a5, a4, a2, a3, a1, a0, a6, a7] : List Nat) + inversions ([a4, a5, a2, a3, a1, a0, a6, a7] : List Nat)) % 2 = 1 := inversions_adj_swap a5 a4 (fun he => absurd (congrArg Fin.val (@hinj_c ⟨5, by simp⟩ ⟨4, by simp⟩ he)) (by simp)) [] [a2, a3, a1, a0, a6, a7]
      have sc1 : (inversions ([a4, a5, a2, a3, a1, a0, a6, a7] : List Nat) + inversions ([a4, a2, a5, a3, a1, a0, a6, a7] : List Nat)) % 2 = 1 := inversions_adj_swap a5 a2 (fun he => absurd (congrArg Fin.val (@hinj_c ⟨5, by simp⟩ ⟨2, by simp⟩ he)) (by simp)) [a4] [a3, a1, a0, a6, a7]
      have sc2 : (inversions ([a4, a2, a5, a3, a1, a0, a6, a7] : List Nat) + inversions ([a2, a4, a5, a3, a1, a0, a6, a7] : List Nat)) % 2 = 1 := inversions_adj_swap a4 a2 (fun he => absurd (congrArg Fin.val (@hinj_c ⟨4, by simp⟩ ⟨2, by simp⟩ he)) (by simp)) [] [a5, a3, a1, a0, a6, a7]
      have sc3 : (inversions ([a2, a4, a5, a3, a1, a0, a6, a7] : List Nat) + inversions ([a2, a4, a3, a5, a1, a0, a6, a7] : List Nat)) % 2 = 1 := inversions_adj_swap a5 a3 (fun he => absurd (congrArg Fin.val (@hinj_c ⟨5, by simp⟩ ⟨3, by simp⟩ he)) (by simp)) [a2, a4] [a1, a0, a6, a7]
      have sc4 : (inversions ([a2, a4, a3, a5, a1, a0, a6, a7] : List Nat) + inversions ([a2, a3, a4, a5, a1, a0, a6, a7] : List Nat)) % 2 = 1 := inversions_adj_swap a4 a3 (fun he => absurd (congrArg Fin.val (@hinj_c ⟨4, by simp⟩ ⟨3, by simp⟩ he)) (by simp)) [a2] [a5, a1, a0, a6, a7]
      have sc5 : (inversions ([a2, a3, a4, a5, a1, a0, a6, a7] : List Nat) + inversions ([a2, a3, a4, a1, a5, a0, a6, a7] : List Nat)) % 2 = 1 := inversions_adj_swap a5 a1 (fun he => absurd (congrArg Fin.val (@hinj_c ⟨5, by simp⟩ ⟨1, by simp⟩ he)) (by simp)) [a2, a3, a4] [a0, a6, a7]
      have sc6 : (inversions ([a2, a3, a4, a1, a5, a0, a6, a7] : List Nat) + inversions ([a2, a3, a1, a4, a5, a0, a6, a7] : List Nat)) % 2 = 1 := inversions_adj_swap a4 a1 (fun he => absurd (congrArg Fin.val (@hinj_c ⟨4, by simp⟩ ⟨1, by simp⟩ he)) (by simp)) [a2, a3] [a5, a0, a6, a7]
      have sc7 : (inversions ([a2, a3, a1, a4, a5, a0, a6, a7] : List Nat) + inversions ([a2, a1, a3, a4, a5, a0, a6, a7] : List Nat)) % 2 = 1 := inversions_adj_swap a3 a1 (fun he => absurd (congrArg Fin.val (@hinj_c ⟨3, by simp⟩ ⟨1, by simp⟩ he)) (by simp)) [a2] [a4, a5, a0, a6, a7]
      have sc8 : (inversions ([a2, a1, a3, a4, a5, a0, a6, a7] : List Nat) + inversions ([a1, a2, a3, a4, a5, a0, a6, a7] : List Nat)) % 2 = 1 := inversions_adj_swap a2 a1 (fun he => absurd (congrArg Fin.val (@hinj_c ⟨2, by simp⟩ ⟨1, by simp⟩ he)) (by simp)) [] [a3, a4, a5, a0, a6, a7]
      have sc9 : (inversions ([a1, a2, a3, a4, a5, a0, a6, a7] : List Nat) + inversions ([a1, a2, a3, a4, a0, a5, a6, a7] : List Nat)) % 2 = 1 := inversions_adj_swap a5 a0 (fun he => absurd (congrArg Fin.val (@hinj_c ⟨5, by simp⟩ ⟨0, by simp⟩ he)) (by simp)) [a1, a2, a3, a4] [a6, a7]
      have sc10 : (inversions ([a1, a2, a3, a4, a0, a5, a6, a7] : List Nat) + inversions ([a1, a2, a3, a0, a4, a5, a6, a7] : List Nat)) % 2 = 1 := inversions_adj_swap a4 a0 (fun he => absurd (congrArg Fin.val (@hinj_c ⟨4, by simp⟩ ⟨0, by simp⟩ he)) (by simp)) [a1, a2, a3] [a5, a6, a7]
      have sc11 : (inversions ([a1, a2, a3, a0, a4, a5, a6, a7] : List Nat) + inversions ([a1, a2, a0, a3, a4, a5, a6, a7] : List Nat)) % 2 = 1 := inversions_adj_swap a3 a0 (fun he => absurd (congrArg Fin.val (@hinj_c ⟨3, by simp⟩ ⟨0, by simp⟩ he)) (by simp)) [a1, a2] [a4, a5, a6, a7]
      have sc12 : (inversions ([a1, a2, a0, a3, a4, a5, a6, a7] : List Nat) + inversions ([a1, a0, a2, a3, a4, a5, a6, a7] : List Nat)) % 2 = 1 := inversions_adj_swap a2 a0 (fun he => absurd (congrArg Fin.val (@hinj_c ⟨2, by simp⟩ ⟨0, by simp⟩ he)) (by simp)) [a1] [a3, a4, a5, a6, a7]
      have sc13 : (inversions ([a1, a0, a2, a3, a4, a5, a6, a7] : List Nat) + inversions ([a0, a1, a2, a3, a4, a5, a6, a7] : List Nat)) % 2 = 1 := inversions_adj_swap a1 a0 (fun he => absurd (congrArg Fin.val (@hinj_c ⟨1, by simp⟩ ⟨0, by simp⟩ he)) (by simp)) [] [a2, a3, a4, a5, a6, a7]
      have se0 : (inversions ([e3, e1, e2, e0, e4, e5, e6, e7, e9, e8, e10, e11] : List Nat) + inversions ([e1, e3, e2, e0, e4, e5, e6, e7, e9, e8, e10, e11] : List Nat)) % 2 = 1 := inversions_adj_swap e3 e1 (fun he => absurd (congrArg Fin.val (@hinj_e ⟨3, by simp⟩ ⟨1, by simp⟩ he)) (by simp)) [] [e2, e0, e4, e5, e6, e7, e9, e8, e10, e11]
      have se1 : (inversions ([e1, e3, e2, e0, e4, e5, e6, e7, e9, e8, e10, e11] : List Nat) + inversions ([e1, e2, e3, e0, e4, e5, e6, e7, e9, e8, e10, e11] : List Nat)) % 2 = 1 := inversions_adj_swap e3 e2 (fun he => absurd (congrArg Fin.val (@hinj_e ⟨3, by simp⟩ ⟨2, by simp⟩ he)) (by simp)) [e1] [e0, e4, e5, e6, e7, e9, e8, e10, e11]
      have se2 : (inversions ([e1, e2, e3, e0, e4, e5, e6, e7, e9, e8, e10, e11] : List Nat) + inversions ([e1, e2, e0, e3, e4, e5, e6, e7, e9, e8, e10, e11] : List Nat)) % 2 = 1 := inversions_adj_swap e3 e0 (fun he => absurd (congrArg Fin.val (@hinj_e ⟨3, by simp⟩ ⟨0, by simp⟩ he)) (by simp)) [e1, e2] [e4, e5, e6, e7, e9, e8, e10, e11]
      have se3 : (inversions ([e1, e2, e0, e3, e4, e5, e6, e7, e9, e8, e10, e11] : List Nat) + inversions ([e1, e0, e2, e3, e4, e5, e6, e7, e9, e8, e10, e11] : List Nat)) % 2 = 1 := inversions_adj_swap e2 e0 (fun he => absurd (congrArg Fin.val (@hinj_e ⟨2, by simp⟩ ⟨0, by simp⟩ he)) (by simp)) [e1] [e3, e4, e5, e6, e7, e9, e8, e10, e11]
      have se4 : (inversions ([e1, e0, e2, e3, e4, e5, e6, e7, e9, e8, e10, e11] : List Nat) + inversions ([e0, e1, e2, e3, e4, e5, e6, e7, e9, e8, e10, e11] : List Nat)) % 2 = 1 := inversions_adj_swap e1 e0 (fun he => absurd (congrArg Fin.val (@hinj_e ⟨1, by simp⟩ ⟨0, by simp⟩ he)) (by simp)) [] [e2, e3, e4, e5, e6, e7, e9, e8, e10, e11]
      have se5 : (inversions ([e0, e1, e2, e3, e4, e5, e6, e7, e9, e8, e10, e11] : List Nat) + inversions ([e0, e1, e2, e3, e4, e5, e6, e7, e8, e9, e10, e11] : List Nat)) % 2 = 1 := inversions_adj_swap e9 e8 (fun he => absurd (congrArg Fin.val (@hinj_e ⟨9, by simp⟩ ⟨8, by simp⟩ he)) (by simp)) [e0, e1, e2, e3, e4, e5, e6, e7] [e10, e11]
      omega
  · -- move FP
    simp only [step_FP]
    have pc : List.Perm [a4, a0, a2, a3, a5, a1, a6, a7]
        [a0, a1, a2, a3, a4, a5, a6, a7] :=
      (List.Perm.trans (List.Perm.trans (List.Perm.trans (List.Perm.trans (List.Perm.trans (List.Perm.trans (List.Perm.swap a0 a4 [a2, a3, a5, a1, a6, a7]) (List.Perm.cons a0 (List.Perm.swap a2 a4 [a3, a5, a1, a6, a7]))) (List.Perm.cons a0 (List.Perm.cons a2 (List.Perm.swap a3 a4 [a5, a1, a6, a7])))) (List.Perm.cons a0 (List.Perm.cons a2 (List.Perm.cons a3 (List.Perm.cons a4 (List.Perm.swap a1 a5 [a6, a7])))))) (List.Perm.cons a0 (List.Perm.cons a2 (List.Perm.cons a3 (List.Perm.swap a1 a4 [a5, a6, a7]))))) (List.Perm.cons a0 (List.Perm.cons a2 (List.Perm.swap a1 a3 [a4, a5, a6, a7])))) (List.Perm.cons a0 (List.Perm.swap a1 a2 [a3, a4, a5, a6, a7])))
    have pe : List.Perm [e8, e1, e2, e9, e4, e5, e6, e7, e3, e0, e10, e11]
        [e0, e1, e2, e3, e4, e5, e6, e7, e8, e9, e10, e11] :=
      (List.Perm.trans (List.Perm.trans (List.Perm.trans (List.Perm.trans (List.Perm.trans (List.Perm.trans (List.Perm.trans (List.Perm.trans (List.Perm.trans (List.Perm.trans (List.Perm.trans (List.Perm.trans (List.Perm.trans (List.Perm.trans (List.Perm.trans (List.Perm.trans (List.Perm.trans (List.Perm.trans (List.Perm.trans (List.Perm.trans (List.Perm.trans (List.Perm.trans (List.Perm.trans (List.Perm.trans (List.Perm.swap e1 e8 [e2, e9, e4, e5, e6, e7, e3, e0, e10, e11]) (List.Perm.cons e1 (List.Perm.swap e2 e8 [e9, e4, e5, e6, e7, e3, e0, e10, e11]))) (List.Perm.cons e1 (List.Perm.cons e2 (List.Perm.cons e8 (List.Perm.swap e4 e9 [e5, e6, e7, e3, e0, e10, e11]))))) (List.Perm.cons e1 (List.Perm.cons e2 (List.Perm.swap e4 e8 [e9, e5, e6, e7, e3, e0, e10, e11])))) (List.Perm.cons e1 (List.Perm.cons e2 (List.Perm.cons e4 (List.Perm.cons e8 (List.Perm.swap e5 e9 [e6, e7, e3, e0, e10, e11])))))) (List.Perm.cons e1 (List.Perm.cons e2 (List.Perm.cons e4 (List.Perm.swap e5 e8 [e9, e6, e7, e3, e0, e10, e11]))))) (List.Perm.cons e1 (List.Perm.cons e2 (List.Perm.cons e4 (List.Perm.cons e5 (List.Perm.cons e8 (List.Perm.swap e6 e9 [e7, e3, e0, e10, e11]))))))) (List.Perm.cons e1 (List.Perm.cons e2 (List.Perm.cons e4 (List.Perm.cons e5 (List.Perm.swap e6 e8 [e9, e7, e3, e0, e10, e11])))))) (List.Perm.cons e1 (List.Perm.cons e2 (List.Perm.cons e4 (List.Perm.cons e5 (List.Perm.cons e6 (List.Perm.cons e8 (List.Perm.swap e7 e9 [e3, e0, e10, e11])))))))) (List.Perm.cons e1 (List.Perm.cons e2 (List.Perm.cons e4 (List.Perm.cons e5 (List.Perm.cons e6 (List.Perm.swap e7 e8 [e9, e3, e0, e10, e11]))))))) (List.Perm.cons e1 (List.Perm.cons e2 (List.Perm.cons e4 (List.Perm.cons e5 (List.Perm.cons e6 (List.Perm.cons e7 (List.Perm.cons e8 (List.Perm.swap e3 e9 [e0, e10, e11]))))))))) (List.Perm.cons e1 (List.Perm.cons e2 (List.Perm.cons e4 (List.Perm.cons e5 (List.Perm.cons e6 (List.Perm.cons e7 (List.Perm.swap e3 e8 [e9, e0, e10, e11])))))))) (List.Perm.cons e1 (List.Perm.cons e2 (List.Perm.cons e4 (List.Perm.cons e5 (List.Perm.cons e6 (List.Perm.swap e3 e7 [e8, e9, e0, e10, e11]))))))) (List.Perm.cons e1 (List.Perm.cons e2 (List.Perm.cons e4 (List.Perm.cons e5 (List.Perm.swap e3 e6 [e7, e8, e9, e0, e10, e11])))))) (List.Perm.cons e1 (List.Perm.cons e2 (List.Perm.cons e4 (List.Perm.swap e3 e5 [e6, e7, e8, e9, e0, e10, e11]))))) (List.Perm.cons e1 (List.Perm.cons e2 (List.Perm.swap e3 e4 [e5, e6, e7, e8, e9, e0, e10, e11])))) (List.Perm.cons e1 (List.Perm.cons e2 (List.Perm.cons e3 (List.Perm.cons e4 (List.Perm.cons e5 (List.Perm.cons e6 (List.Perm.cons e7 (List.Perm.cons e8 (List.Perm.swap e0 e9 [e10, e11])))))))))) (List.Perm.cons e1 (List.Perm.cons e2 (List.Perm.cons e3 (List.Perm.cons e4 (List.Perm.cons e5 (List.Perm.cons e6 (List.Perm.cons e7 (List.Perm.swap e0 e8 [e9, e10, e11]))))))))) (List.Perm.cons e1 (List.Perm.cons e2 (List.Perm.cons e3 (List.Perm.cons e4 (List.Perm.cons e5 (List.Perm.cons e6 (List.Perm.swap e0 e7 [e8, e9, e10, e11])))))))) (List.Perm.cons e1 (List.Perm.cons e2 (List.Perm.cons e3 (List.Perm.cons e4 (List.Perm.cons e5 (List.Perm.swap e0 e6 [e7, e8, e9, e10, e11]))))))) (List.Perm.cons e1 (List.Perm.cons e2 (List.Perm.cons e3 (List.Perm.cons e4 (List.Perm.swap e0 e5 [e6, e7, e8, e9, e10, e11])))))) (List.Perm.cons e1 (List.Perm.cons e2 (List.Perm.cons e3 (List.Perm.swap e0 e4 [e5, e6, e7, e8, e9, e10, e11]))))) (List.Perm.cons e1 (List.Perm.cons e2 (List.Perm.swap e0 e3 [e4, e5, e6, e7, e8, e9, e10, e11])))) (List.Perm.cons e1 (List.Perm.swap e0 e2 [e3, e4, e5, e6, e7, e8, e9, e10, e11]))) (List.Perm.swap e0 e1 [e2, e3, e4, e5, e6, e7, e8, e9, e10, e11]))
    unfold Valid WellFormed
    refine ⟨⟨rfl, rfl, rfl, rfl, ?_, ?_⟩,
      pc.trans hpc, pe.trans hpe, ?_, ?_, ?_⟩
    · simp only [List.mem_cons, List.not_mem_nil, or_false, forall_eq_or_imp,
        forall_eq]
      omega
    · simp only [List.mem_cons, List.not_mem_nil, or_false, forall_eq_or_imp,
        forall_eq]
      omega
    · simp only [List.sum_cons, List.sum_nil] at hsc ⊢
      omega
    · simp only [List.sum_cons, List.sum_nil] at hse ⊢
      omega
    · -- parity: chain of adjacent transpositions (7 corner, 25 edge)
      show (inversions [a4, a0, a2, a3, a5, a1, a6, a7] +
        inversions [e8, e1, e2, e9, e4, e5, e6, e7, e3, e0, e10, e11]) % 2 = 0
      have sc0 : (inversions ([a4, a0, a2, a3, a5, a1, a6, a7] : List Nat) + inversions ([a0, a4, a2, a3, a5, a1, a6, a7] : List Nat)) % 2 = 1 := inversions_adj_swap a4 a0 (fun he => absurd (congrArg Fin.val (@hinj_c ⟨4, by simp⟩ ⟨0, by simp⟩ he)) (by simp)) [] [a2, a3, a5, a1, a6, a7]
      have sc1 : (inversions ([a0, a4, a2, a3, a5, a1, a6, a7] : List Nat) + inversions ([a0, a2, a4, a3, a5, a1, a6, a7] : List Nat)) % 2 = 1 := inversions_adj_swap a4 a2 (fun he => absurd (congrArg Fin.val (@hinj_c ⟨4, by simp⟩ ⟨2, by simp⟩ he)) (by simp)) [a0] [a3, a5, a1, a6, a7]
      have sc2 : (inversions ([a0, a2, a4, a3, a5, a1, a6, a7] : List Nat) + inversions ([a0, a2, a3, a4, a5, a1, a6, a7] : List Nat)) % 2 = 1 := inversions_adj_swap a4 a3 (fun he => absurd (congrArg Fin.val (@hinj_c ⟨4, by simp⟩ ⟨3, by simp⟩ he)) (by simp)) [a0, a2] [a5, a1, a6, a7]
      have sc3 : (inversions ([a0, a2, a3, a4, a5, a1, a6, a7] : List Nat) + inversions ([a0, a2, a3, a4, a1, a5, a6, a7] : List Nat)) % 2 = 1 := inversions_adj_swap a5 a1 (fun he => absurd (congrArg Fin.val (@hinj_c ⟨5, by simp⟩ ⟨1, by simp⟩ he)) (by simp)) [a0, a2, a3, a4] [a6, a7]
      have sc4 : (inversions ([a0, a2, a3, a4, a1, a5, a6, a7] : List Nat) + inversions ([a0, a2, a3, a1, a4, a5, a6, a7] : List Nat)) % 2 = 1 := inversions_adj_swap a4 a1 (fun he => absurd (congrArg Fin.val (@hinj_c ⟨4, by simp⟩ ⟨1, by simp⟩ he)) (by simp)) [a0, a2, a3] [a5, a6, a7]
      have sc5 : (inversions ([a0, a2, a3, a1, a4, a5, a6, a7] : List Nat) + inversions ([a0, a2, a1, a3, a4, a5, a6, a7] : List Nat)) % 2 = 1 := inversions_adj_swap a3 a1 (fun he => absurd (congrArg Fin.val (@hinj_c ⟨3, by simp⟩ ⟨1, by simp⟩ he)) (by simp)) [a0, a2] [a4, a5, a6, a7]
      have sc6 : (inversions ([a0, a2, a1, a3, a4, a5, a6, a7] : List Nat) + inversions ([a0, a1, a2, a3, a4, a5, a6, a7] : List Nat)) % 2 = 1 := inversions_adj_swap a2 a1 (fun he => absurd (congrArg Fin.val (@hinj_c ⟨2, by simp⟩ ⟨1, by simp⟩ he)) (by simp)) [a0] [a3, a4, a5, a6, a7]
      have se0 : (inversions ([e8, e1, e2, e9, e4, e5, e6, e7, e3, e0, e10, e11] : List Nat) + inversions ([e1, e8, e2, e9, e4, e5, e6, e7, e3, e0, e10, e11] : List Nat)) % 2 = 1 := inversions_adj_swap e8 e1 (fun he => absurd (congrArg Fin.val (@hinj_e ⟨8, by simp⟩ ⟨1, by simp⟩ he)) (by simp)) [] [e2, e9, e4, e5, e6, e7, e3, e0, e10, e11]
      have se1 : (inversions ([e1, e8, e2, e9, e4, e5, e6, e7, e3, e0, e10, e11] : List Nat) + inversions ([e1, e2, e8, e9, e4, e5, e6, e7, e3, e0, e10, e11] : List Nat)) % 2 = 1 := inversions_adj_swap e8 e2 (fun he => absurd (congrArg Fin.val (@hinj_e ⟨8, by simp⟩ ⟨2, by simp⟩ he)) (by simp)) [e1] [e9, e4, e5, e6, e7, e3, e0, e10, e11]
      have se2 : (inversions ([e1, e2, e8, e9, e4, e5, e6, e7, e3, e0, e10, e11] : List Nat) + inversions ([e1, e2, e8, e4, e9, e5, e6, e7, e3, e0, e10, e11] : List Nat)) % 2 = 1 := inversions_adj_swap e9 e4 (fun he => absurd (congrArg Fin.val (@hinj_e ⟨9, by simp⟩ ⟨4, by simp⟩ he)) (by simp)) [e1, e2, e8] [e5, e6, e7, e3, e0, e10, e11]
      have se3 : (inversions ([e1, e2, e8, e4, e9, e5, e6, e7, e3, e0, e10, e11] : List Nat) + inversions ([e1, e2, e4, e8, e9, e5, e6, e7, e3, e0, e10, e11] : List Nat)) % 2 = 1 := inversions_adj_swap e8 e4 (fun he => absurd (congrArg Fin.val (@hinj_e ⟨8, by simp⟩ ⟨4, by simp⟩ he)) (by simp)) [e1, e2] [e9, e5, e6, e7, e3, e0, e10, e11]
      have se4 : (inversions ([e1, e2, e4, e8, e9, e5, e6, e7, e3, e0, e10, e11] : List Nat) + inversions ([e1, e2, e4, e8, e5, e9, e6, e7, e3, e0, e10, e11] : List Nat)) % 2 = 1 := inversions_adj_swap e9 e5 (fun he => absurd (congrArg Fin.val (@hinj_e ⟨9, by simp⟩ ⟨5, by simp⟩ he)) (by simp)) [e1, e2, e4, e8] [e6, e7, e3, e0, e10, e11]
      have se5 : (inversions ([e1, e2, e4, e8, e5, e9, e6, e7, e3, e0, e10, e11] : List Nat) + inversions ([e1, e2, e4, e5, e8, e9, e6, e7, e3, e0, e10, e11] : List Nat)) % 2 = 1 := inversions_adj_swap e8 e5 (fun he => absurd (congrArg Fin.val (@hinj_e ⟨8, by simp⟩ ⟨5, by simp⟩ he)) (by simp)) [e1, e2, e4] [e9, e6, e7, e3, e0, e10, e11]
      have se6 : (inversions ([e1, e2, e4, e5, e8, e9, e6, e7, e3, e0, e10, e11] : List Nat) + inversions ([e1, e2, e4, e5, e8, e6, e9, e7, e3, e0, e10, e11] : List Nat)) % 2 = 1 := inversions_adj_swap e9 e6 (fun he => absurd (congrArg Fin.val (@hinj_e ⟨9, by simp⟩ ⟨6, by simp⟩ he)) (by simp)) [e1, e2, e4, e5, e8] [e7, e3, e0, e10, e11]
      have se7 : (inversions ([e1, e2, e4, e5, e8, e6, e9, e7, e3, e0, e10, e11] : List Nat) + inversions ([e1, e2, e4, e5, e6, e8, e9, e7, e3, e0, e10, e11] : List Nat)) % 2 = 1 := inversions_adj_swap e8 e6 (fun he => absurd (congrArg Fin.val (@hinj_e ⟨8, by simp⟩ ⟨6, by simp⟩ he)) (by simp)) [e1, e2, e4, e5] [e9, e7, e3, e0, e10, e11]
      have se8 : (inversions ([e1, e2, e4, e5, e6, e8, e9, e7, e3, e0, e10, e11] : List Nat) + inversions ([e1, e2, e4, e5, e6, e8, e7, e9, e3, e0, e10, e11] : List Nat)) % 2 = 1 := inversions_adj_swap e9 e7 (fun he => absurd (congrArg Fin.val (@hinj_e ⟨9, by simp⟩ ⟨7, by simp⟩ he)) (by simp)) [e1, e2, e4, e5, e6, e8] [e3, e0, e10, e11]
      have se9 : (inversions ([e1, e2, e4, e5, e6, e8, e7, e9, e3, e0, e10, e11] : List Nat) + inversions ([e1, e2, e4, e5, e6, e7, e8, e9, e3, e0, e10, e11] : List Nat)) % 2 = 1 := inversions_adj_swap e8 e7 (fun he => absurd (congrArg Fin.val (@hinj_e ⟨8, by simp⟩ ⟨7, by simp⟩ he)) (by simp)) [e1, e2, e4, e5, e6] [e9, e3, e0, e10, e11]
      have se10 : (inversions ([e1, e2, e4, e5, e6, e7, e8, e9, e3, e0, e10, e11] : List Nat) + inversions ([e1, e2, e4, e5, e6, e7, e8, e3, e9, e0, e10, e11] : List Nat)) % 2 = 1 := inversions_adj_swap e9 e3 (fun he => absurd (congrArg Fin.val (@hinj_e ⟨9, by simp⟩ ⟨3, by simp⟩ he)) (by simp)) [e1, e2, e4, e5, e6, e7, e8] [e0, e10, e11]
      have se11 : (inversions ([e1, e2, e4, e5, e6, e7, e8, e3, e9, e0, e10, e11] : List Nat) + inversions ([e1, e2, e4, e5, e6, e7, e3, e8, e9, e0, e10, e11] : List Nat)) % 2 = 1 := inversions_adj_swap e8 e3 (fun he => absurd (congrArg Fin.val (@hinj_e ⟨8, by simp⟩ ⟨3, by simp⟩ he)) (by simp)) [e1, e2, e4, e5, e6, e7] [e9, e0, e10, e11]
      have se12 : (inversions ([e1, e2, e4, e5, e6, e7, e3, e8, e9, e0, e10, e11] : List Nat) + inversions ([e1, e2, e4, e5, e6, e3, e7, e8, e9, e0, e10, e11] : List Nat)) % 2 = 1 := inversions_adj_swap e7 e3 (fun he => absurd (congrArg Fin.val (@hinj_e ⟨7, by simp⟩ ⟨3, by simp⟩ he)) (by simp)) [e1, e2, e4, e5, e6] [e8, e9, e0, e10, e11]
      have se13 : (inversions ([e1, e2, e4, e5, e6, e3, e7, e8, e9, e0, e10, e11] : List Nat) + inversions ([e1, e2, e4, e5, e3, e6, e7, e8, e9, e0, e10, e11] : List Nat)) % 2 = 1 := inversions_adj_swap e6 e3 (fun he => absurd (congrArg Fin.val (@hinj_e ⟨6, by simp⟩ ⟨3, by simp⟩ he)) (by simp)) [e1, e2, e4, e5] [e7, e8, e9, e0, e10, e11]
      have se14 : (inversions ([e1, e2, e4, e5, e3, e6, e7, e8, e9, e0, e10, e11] : List Nat) + inversions ([e1, e2, e4, e3, e5, e6, e7, e8, e9, e0, e10, e11] : List Nat)) % 2 = 1 := inversions_adj_swap e5 e3 (fun he => absurd (congrArg Fin.val (@hinj_e ⟨5, by simp⟩ ⟨3, by simp⟩ he)) (by simp)) [e1, e2, e4] [e6, e7, e8, e9, e0, e10, e11]
      have se15 : (inversions ([e1, e2, e4, e3, e5, e6, e7, e8, e9, e0, e10, e11] : List Nat) + inversions ([e1, e2, e3, e4, e5, e6, e7, e8, e9, e0, e10, e11] : List Nat)) % 2 = 1 := inversions_adj_swap e4 e3 (fun he => absurd (congrArg Fin.val (@hinj_e ⟨4, by simp⟩ ⟨3, by simp⟩ he)) (by simp)) [e1, e2] [e5, e6, e7, e8, e9, e0, e10, e11]
      have se16 : (inversions ([e1, e2, e3, e4, e5, e6, e7, e8, e9, e0, e10, e11] : List Nat) + inversions ([e1, e2, e3, e4, e5, e6, e7, e8, e0, e9, e10, e11] : List Nat)) % 2 = 1 := inversions_adj_swap e9 e0 (fun he => absurd (congrArg Fin.val (@hinj_e ⟨9, by simp⟩ ⟨0, by simp⟩ he)) (by simp)) [e1, e2, e3, e4, e5, e6, e7, e8] [e10, e11]
      have se17 : (inversions ([e1, e2, e3, e4, e5, e6, e7, e8, e0, e9, e10, e11] : List Nat) + inversions ([e1, e2, e3, e4, e5, e6, e7, e0, e8, e9, e10, e11] : List Nat)) % 2 = 1 := inversions_adj_swap e8 e0 (fun he => absurd (congrArg Fin.val (@hinj_e ⟨8, by simp⟩ ⟨0, by simp⟩ he)) (by simp)) [e1, e2, e3, e4, e5, e6, e7] [e9, e10, e11]
      have se18 : (inversions ([e1, e2, e3, e4, e5, e6, e7, e0, e8, e9, e10, e11] : List Nat) + inversions ([e1, e2, e3, e4, e5, e6, e0, e7, e8, e9, e10, e11] : List Nat)) % 2 = 1 := inversions_adj_swap e7 e0 (fun he => absurd (congrArg Fin.val (@hinj_e ⟨7, by simp⟩ ⟨0, by simp⟩ he)) (by simp)) [e1, e2, e3, e4, e5, e6] [e8, e9, e10, e11]
      have se19 : (inversions ([e1, e2, e3, e4, e5, e6, e0, e7, e8, e9, e10, e11] : List Nat) + inversions ([e1, e2, e3, e4, e5, e0, e6, e7, e8, e9, e10, e11] : List Nat)) % 2 = 1 := inversions_adj_swap e6 e0 (fun he => absurd (congrArg Fin.val (@hinj_e ⟨6, by simp⟩ ⟨0, by simp⟩ he)) (by simp)) [e1, e2, e3, e4, e5] [e7, e8, e9, e10, e11]
      have se20 : (inversions ([e1, e2, e3, e4, e5, e0, e6, e7, e8, e9, e10, e11] : List Nat) + inversions ([e1, e2, e3, e4, e0, e5, e6, e7, e8, e9, e10, e11] : List Nat)) % 2 = 1 := inversions_adj_swap e5 e0 (fun he => absurd (congrArg Fin.val (@hinj_e ⟨5, by simp⟩ ⟨0, by simp⟩ he)) (by simp)) [e1, e2, e3, e4] [e6, e7, e8, e9, e10, e11]
      have se21 : (inversions ([e1, e2, e3, e4, e0, e5, e6, e7, e8, e9, e10, e11] : List Nat) + inversions ([e1, e2, e3, e0, e4, e5, e6, e7, e8, e9, e10, e11] : List Nat)) % 2 = 1 := inversions_adj_swap e4 e0 (fun he => absurd (congrArg Fin.val (@hinj_e ⟨4, by simp⟩ ⟨0, by simp⟩ he)) (by simp)) [e1, e2, e3] [e5, e6, e7, e8, e9, e10, e11]
      have se22 : (inversions ([e1, e2, e3, e0, e4, e5, e6, e7, e8, e9, e10, e11] : List Nat) + inversions ([e1, e2, e0, e3, e4, e5, e6, e7, e8, e9, e10, e11] : List Nat)) % 2 = 1 := inversions_adj_swap e3 e0 (fun he => absurd (congrArg Fin.val (@hinj_e ⟨3, by simp⟩ ⟨0, by simp⟩ he)) (by simp)) [e1, e2] [e4, e5, e6, e7, e8, e9, e10, e11]
      have se23 : (inversions ([e1, e2, e0, e3, e4, e5, e6, e7, e8, e9, e10, e11] : List Nat) + inversions ([e1, e0, e2, e3, e4, e5, e6, e7, e8, e9, e10, e11] : List Nat)) % 2 = 1 := inversions_adj_swap e2 e0 (fun he => absurd (congrArg Fin.val (@hinj_e ⟨2, by simp⟩ ⟨0, by simp⟩ he)) (by simp)) [e1] [e3, e4, e5, e6, e7, e8, e9, e10, e11]
      have se24 : (inversions ([e1, e0, e2, e3, e4, e5, e6, e7, e8, e9, e10, e11] : List Nat) + inversions ([e0, e1, e2, e3, e4, e5, e6, e7, e8, e9, e10, e11] : List Nat)) % 2 = 1 := inversions_adj_swap e1 e0 (fun he => absurd (congrArg Fin.val (@hinj_e ⟨1, by simp⟩ ⟨0, by simp⟩ he)) (by simp)) [] [e2, e3, e4, e5, e6, e7, e8, e9, e10, e11]
      omega
  · -- move R
    simp only [step_R]
    have pc : List.Perm [a4, a1, a2, a0, a7, a5, a6, a3]
        [a0, a1, a2, a3, a4, a5, a6, a7] :=
      (List.Perm.trans (List.Perm.trans (List.Perm.trans (List.Perm.trans (List.Perm.trans (List.Perm.trans (List.Perm.trans (List.Perm.trans (List.Perm.trans (List.Perm.trans (List.Perm.swap a1 a4 [a2, a0, a7, a5, a6, a3]) (List.Perm.cons a1 (List.Perm.swap a2 a4 [a0, a7, a5, a6, a3]))) (List.Perm.cons a1 (List.Perm.cons a2 (List.Perm.swap a0 a4 [a7, a5, a6, a3])))) (List.Perm.cons a1 (List.Perm.swap a0 a2 [a4, a7, a5, a6, a3]))) (List.Perm.swap a0 a1 [a2, a4, a7, a5, a6, a3])) (List.Perm.cons a0 (List.Perm.cons a1 (List.Perm.cons a2 (List.Perm.cons a4 (List.Perm.swap a5 a7 [a6, a3])))))) (List.Perm.cons a0 (List.Perm.cons a1 (List.Perm.cons a2 (List.Perm.cons a4 (List.Perm.cons a5 (List.Perm.swap a6 a7 [a3]))))))) (List.Perm.cons a0 (List.Perm.cons a1 (List.Perm.cons a2 (List.Perm.cons a4 (List.Perm.cons a5 (List.Perm.cons a6 (List.Perm.swap a3 a7 [])))))))) (List.Perm.cons a0 (List.Perm.cons a1 (List.Perm.cons a2 (List.Perm.cons a4 (List.Perm.cons a5 (List.Perm.swap a3 a6 [a7]))))))) (List.Perm.cons a0 (List.Perm.cons a1 (List.Perm.cons a2 (List.Perm.cons a4 (List.Perm.swap a3 a5 [a6, a7])))))) (List.Perm.cons a0 (List.Perm.cons a1 (List.Perm.cons a2 (List.Perm.swap a3 a4 [a5, a6, a7])))))
    have pe : List.Perm [e0, e1, e2, e3, e8, e5, e6, e11, e7, e9, e10, e4]
        [e0, e1, e2, e3, e4, e5, e6, e7, e8, e9, e10, e11] :=
      (List.Perm.trans (List.Perm.trans (List.Perm.trans (List.Perm.trans (List.Perm.trans (List.Perm.trans (List.Perm.trans (List.Perm.trans (List.Perm.trans (List.Perm.trans (List.Perm.trans (List.Perm.trans (List.Perm.cons e0 (List.Perm.cons e1 (List.Perm.cons e2 (List.Perm.cons e3 (List.Perm.swap e5 e8 [e6, e11, e7, e9, e10, e4]))))) (List.Perm.cons e0 (List.Perm.cons e1 (List.Perm.cons e2 (List.Perm.cons e3 (List.Perm.cons e5 (List.Perm.swap e6 e8 [e11, e7, e9, e10, e4]))))))) (List.Perm.cons e0 (List.Perm.cons e1 (List.Perm.cons e2 (List.Perm.cons e3 (List.Perm.cons e5 (List.Perm.cons e6 (List.Perm.cons e8 (List.Perm.swap e7 e11 [e9, e10, e4]))))))))) (List.Perm.cons e0 (List.Perm.cons e1 (List.Perm.cons e2 (List.Perm.cons e3 (List.Perm.cons e5 (List.Perm.cons e6 (List.Perm.swap e7 e8 [e11, e9, e10, e4])))))))) (List.Perm.cons e0 (List.Perm.cons e1 (List.Perm.cons e2 (List.Perm.cons e3 (List.Perm.cons e5 (List.Perm.cons e6 (List.Perm.cons e7 (List.Perm.cons e8 (List.Perm.swap e9 e11 [e10, e4])))))))))) (List.Perm.cons e0 (List.Perm.cons e1 (List.Perm.cons e2 (List.Perm.cons e3 (List.Perm.cons e5 (List.Perm.cons e6 (List.Perm.cons e7 (List.Perm.cons e8 (List.Perm.cons e9 (List.Perm.swap e10 e11 [e4]))))))))))) (List.Perm.cons e0 (List.Perm.cons e1 (List.Perm.cons e2 (List.Perm.cons e3 (List.Perm.cons e5 (List.Perm.cons e6 (List.Perm.cons e7 (List.Perm.cons e8 (List.Perm.cons e9 (List.Perm.cons e10 (List.Perm.swap e4 e11 [])))))))))))) (List.Perm.cons e0 (List.Perm.cons e1 (List.Perm.cons e2 (List.Perm.cons e3 (List.Perm.cons e5 (List.Perm.cons e6 (List.Perm.cons e7 (List.Perm.cons e8 (List.Perm.cons e9 (List.Perm.swap e4 e10 [e11]))))))))))) (List.Perm.cons e0 (List.Perm.cons e1 (List.Perm.cons e2 (List.Perm.cons e3 (List.Perm.cons e5 (List.Perm.cons e6 (List.Perm.cons e7 (List.Perm.cons e8 (List.Perm.swap e4 e9 [e10, e11])))))))))) (List.Perm.cons e0 (List.Perm.cons e1 (List.Perm.cons e2 (List.Perm.cons e3 (List.Perm.cons e5 (List.Perm.cons e6 (List.Perm.cons e7 (List.Perm.swap e4 e8 [e9, e10, e11]))))))))) (List.Perm.cons e0 (List.Perm.cons e1 (List.Perm.cons e2 (List.Perm.cons e3 (List.Perm.cons e5 (List.Perm.cons e6 (List.Perm.swap e4 e7 [e8, e9, e10, e11])))))))) (List.Perm.cons e0 (List.Perm.cons e1 (List.Perm.cons e2 (List.Perm.cons e3 (List.Perm.cons e5 (List.Perm.swap e4 e6 [e7, e8, e9, e10, e11]))))))) (List.Perm.cons e0 (List.Perm.cons e1 (List.Perm.cons e2 (List.Perm.cons e3 (List.Perm.swap e4 e5 [e6, e7, e8, e9, e10, e11]))))))
    unfold Valid WellFormed
    refine ⟨⟨rfl, rfl, rfl, rfl, ?_, ?_⟩,
      pc.trans hpc, pe.trans hpe, ?_, ?_, ?_⟩
    · simp only [List.mem_cons, List.not_mem_nil, or_false, forall_eq_or_imp,
        forall_eq]
      omega
    · simp only [List.mem_cons, List.not_mem_nil, or_false, forall_eq_or_imp,
        forall_eq]
      omega
    · simp only [List.sum_cons, List.sum_nil] at hsc ⊢
      omega
    · simp only [List.sum_cons, List.sum_nil] at hse ⊢
      omega
    · -- parity: chain of adjacent transpositions (11 corner, 13 edge)
      show (inversions [a4, a1, a2, a0, a7, a5, a6, a3] +
        inversions [e0, e1, e2, e3, e8, e5, e6, e11, e7, e9, e10, e4]) % 2 = 0
      have sc0 : (inversions ([a4, a1, a2, a0, a7, a5, a6, a3] : List Nat) + inversions ([a1, a4, a2, a0, a7, a5, a6, a3] : List Nat)) % 2 = 1 := inversions_adj_swap a4 a1 (fun he => absurd (congrArg Fin.val (@hinj_c ⟨4, by simp⟩ ⟨1, by simp⟩ he)) (by simp)) [] [a2, a0, a7, a5, a6, a3]
      have sc1 : (inversions ([a1, a4, a2, a0, a7, a5, a6, a3] : List Nat) + inversions ([a1, a2, a4, a0, a7, a5, a6, a3] : List Nat)) % 2 = 1 := inversions_adj_swap a4 a2 (fun he => absurd (congrArg Fin.val (@hinj_c ⟨4, by simp⟩ ⟨2, by simp⟩ he)) (by simp)) [a1] [a0, a7, a5, a6, a3]
      have sc2 : (inversions ([a1, a2, a4, a0, a7, a5, a6, a3] : List Nat) + inversions ([a1, a2, a0, a4, a7, a5, a6, a3] : List Nat)) % 2 = 1 := inversions_adj_swap a4 a0 (fun he => absurd (congrArg Fin.val (@hinj_c ⟨4, by simp⟩ ⟨0, by simp⟩ he)) (by simp)) [a1, a2] [a7, a5, a6, a3]
      have sc3 : (inversions ([a1, a2, a0, a4, a7, a5, a6, a3] : List Nat) + inversions ([a1, a0, a2, a4, a7, a5, a6, a3] : List Nat)) % 2 = 1 := inversions_adj_swap a2 a0 (fun he => absurd (congrArg Fin.val (@hinj_c ⟨2, by simp⟩ ⟨0, by simp⟩ he)) (by simp)) [a1] [a4, a7, a5, a6, a3]
      have sc4 : (inversions ([a1, a0, a2, a4, a7, a5, a6, a3] : List Nat) + inversions ([a0, a1, a2, a4, a7, a5, a6, a3] : List Nat)) % 2 = 1 := inversions_adj_swap a1 a0 (fun he => absurd (congrArg Fin.val (@hinj_c ⟨1, by simp⟩ ⟨0, by simp⟩ he)) (by simp)) [] [a2, a4, a7, a5, a6, a3]
      have sc5 : (inversions ([a0, a1, a2, a4, a7, a5, a6, a3] : List Nat) + inversions ([a0, a1, a2, a4, a5, a7, a6, a3] : List Nat)) % 2 = 1 := inversions_adj_swap a7 a5 (fun he => absurd (congrArg Fin.val (@hinj_c ⟨7, by simp⟩ ⟨5, by simp⟩ he)) (by simp)) [a0, a1, a2, a4] [a6, a3]
      have sc6 : (inversions ([a0, a1, a2, a4, a5, a7, a6, a3] : List Nat) + inversions ([a0, a1, a2, a4, a5, a6, a7, a3] : List Nat)) % 2 = 1 := inversions_adj_swap a7 a6 (fun he => absurd (congrArg Fin.val (@hinj_c ⟨7, by simp⟩ ⟨6, by simp⟩ he)) (by simp)) [a0, a1, a2, a4, a5] [a3]
      have sc7 : (inversions ([a0, a1, a2, a4, a5, a6, a7, a3] : List Nat) + inversions ([a0, a1, a2, a4, a5, a6, a3, a7] : List Nat)) % 2 = 1 := inversions_adj_swap a7 a3 (fun he => absurd (congrArg Fin.val (@hinj_c ⟨7, by simp⟩ ⟨3, by simp⟩ he)) (by simp)) [a0, a1, a2, a4, a5, a6] []
      have sc8 : (inversions ([a0, a1, a2, a4, a5, a6, a3, a7] : List Nat) + inversions ([a0, a1, a2, a4, a5, a3, a6, a7] : List Nat)) % 2 = 1 := inversions_adj_swap a6 a3 (fun he => absurd (congrArg Fin.val (@hinj_c ⟨6, by simp⟩ ⟨3, by simp⟩ he)) (by simp)) [a0, a1, a2, a4, a5] [a7]
      have sc9 : (inversions ([a0, a1, a2, a4, a5, a3, a6, a7] : List Nat) + inversions ([a0, a1, a2, a4, a3, a5, a6, a7] : List Nat)) % 2 = 1 := inversions_adj_swap a5 a3 (fun he => absurd (congrArg Fin.val (@hinj_c ⟨5, by simp⟩ ⟨3, by simp⟩ he)) (by simp)) [a0, a1, a2, a4] [a6, a7]
      have sc10 : (inversions ([a0, a1, a2, a4, a3, a5, a6, a7] : List Nat) + inversions ([a0, a1, a2, a3, a4, a5, a6, a7] : List Nat)) % 2 = 1 := inversions_adj_swap a4 a3 (fun he => absurd (congrArg Fin.val (@hinj_c ⟨4, by simp⟩ ⟨3, by simp⟩ he)) (by simp)) [a0, a1, a2] [a5, a6, a7]
      have se0 : (inversions ([e0, e1, e2, e3, e8, e5, e6, e11, e7, e9, e10, e4] : List Nat) + inversions ([e0, e1, e2, e3, e5, e8, e6, e11, e7, e9, e10, e4] : List Nat)) % 2 = 1 := inversions_adj_swap e8 e5 (fun he => absurd (congrArg Fin.val (@hinj_e ⟨8, by simp⟩ ⟨5, by simp⟩ he)) (by simp)) [e0, e1, e2, e3] [e6, e11, e7, e9, e10, e4]
      have se1 : (inversions ([e0, e1, e2, e3, e5, e8, e6, e11, e7, e9, e10, e4] : List Nat) + inversions ([e0, e1, e2, e3, e5, e6, e8, e11, e7, e9, e10, e4] : List Nat)) % 2 = 1 := inversions_adj_swap e8 e6 (fun he => absurd (congrArg Fin.val (@hinj_e ⟨8, by simp⟩ ⟨6, by simp⟩ he)) (by simp)) [e0, e1, e2, e3, e5] [e11, e7, e9, e10, e4]
      have se2 : (inversions ([e0, e1, e2, e3, e5, e6, e8, e11, e7, e9, e10, e4] : List Nat) + inversions ([e0, e1, e2, e3, e5, e6, e8, e7, e11, e9, e10, e4] : List Nat)) % 2 = 1 := inversions_adj_swap e11 e7 (fun he => absurd (congrArg Fin.val (@hinj_e ⟨11, by simp⟩ ⟨7, by simp⟩ he)) (by simp)) [e0, e1, e2, e3, e5, e6, e8] [e9, e10, e4]
      have se3 : (inversions ([e0, e1, e2, e3, e5, e6, e8, e7, e11, e9, e10, e4] : List Nat) + inversions ([e0, e1, e2, e3, e5, e6, e7, e8, e11, e9, e10, e4] : List Nat)) % 2 = 1 := inversions_adj_swap e8 e7 (fun he => absurd (congrArg Fin.val (@hinj_e ⟨8, by simp⟩ ⟨7, by simp⟩ he)) (by simp)) [e0, e1, e2, e3, e5, e6] [e11, e9, e10, e4]
      have se4 : (inversions ([e0, e1, e2, e3, e5, e6, e7, e8, e11, e9, e10, e4] : List Nat) + inversions ([e0, e1, e2, e3, e5, e6, e7, e8, e9, e11, e10, e4] : List Nat)) % 2 = 1 := inversions_adj_swap e11 e9 (fun he => absurd (congrArg Fin.val (@hinj_e ⟨11, by simp⟩ ⟨9, by simp⟩ he)) (by simp)) [e0, e1, e2, e3, e5, e6, e7, e8] [e10, e4]
      have se5 : (inversions ([e0, e1, e2, e3, e5, e6, e7, e8, e9, e11, e10, e4] : List Nat) + inversions ([e0, e1, e2, e3, e5, e6, e7, e8, e9, e10, e11, e4] : List Nat)) % 2 = 1 := inversions_adj_swap e11 e10 (fun he => absurd (congrArg Fin.val (@hinj_e ⟨11, by simp⟩ ⟨10, by simp⟩ he)) (by simp)) [e0, e1, e2, e3, e5, e6, e7, e8, e9] [e4]
      have se6 : (inversions ([e0, e1, e2, e3, e5, e6, e7, e8, e9, e10, e11, e4] : List Nat) + inversions ([e0, e1, e2, e3, e5, e6, e7, e8, e9, e10, e4, e11] : List Nat)) % 2 = 1 := inversions_adj_swap e11 e4 (fun he => absurd (congrArg Fin.val (@hinj_e ⟨11, by simp⟩ ⟨4, by simp⟩ he)) (by simp)) [e0, e1, e2, e3, e5, e6, e7, e8, e9, e10] []
      have se7 : (inversions ([e0, e1, e2, e3, e5, e6, e7, e8, e9, e10, e4, e11] : List Nat) + inversions ([e0, e1, e2, e3, e5, e6, e7, e8, e9, e4, e10, e11] : List Nat)) % 2 = 1 := inversions_adj_swap e10 e4 (fun he => absurd (congrArg Fin.val (@hinj_e ⟨10, by simp⟩ ⟨4, by simp⟩ he)) (by simp)) [e0, e1, e2, e3, e5, e6, e7, e8, e9] [e11]
      have se8 : (inversions ([e0, e1, e2, e3, e5, e6, e7, e8, e9, e4, e10, e11] : List Nat) + inversions ([e0, e1, e2, e3, e5, e6, e7, e8, e4, e9, e10, e11] : List Nat)) % 2 = 1 := inversions_adj_swap e9 e4 (fun he => absurd (congrArg Fin.val (@hinj_e ⟨9, by simp⟩ ⟨4, by simp⟩ he)) (by simp)) [e0, e1, e2, e3, e5, e6, e7, e8] [e10, e11]
      have se9 : (inversions ([e0, e1, e2, e3, e5, e6, e7, e8, e4, e9, e10, e11] : List Nat) + inversions ([e0, e1, e2, e3, e5, e6, e7, e4, e8, e9, e10, e11] : List Nat)) % 2 = 1 := inversions_adj_swap e8 e4 (fun he => absurd (congrArg Fin.val (@hinj_e ⟨8, by simp⟩ ⟨4, by simp⟩ he)) (by simp)) [e0, e1, e2, e3, e5, e6, e7] [e9, e10, e11]
      have se10 : (inversions ([e0, e1, e2, e3, e5, e6, e7, e4, e8, e9, e10, e11] : List Nat) + inversions ([e0, e1, e2, e3, e5, e6, e4, e7, e8, e9, e10, e11] : List Nat)) % 2 = 1 := inversions_adj_swap e7 e4 (fun he => absurd (congrArg Fin.val (@hinj_e ⟨7, by simp⟩ ⟨4, by simp⟩ he)) (by simp)) [e0, e1, e2, e3, e5, e6] [e8, e9, e10, e11]
      have se11 : (inversions ([e0, e1, e2, e3, e5, e6, e4, e7, e8, e9, e10, e11] : List Nat) + inversions ([e0, e1, e2, e3, e5, e4, e6, e7, e8, e9, e10, e11] : List Nat)) % 2 = 1 := inversions_adj_swap e6 e4 (fun he => absurd (congrArg Fin.val (@hinj_e ⟨6, by simp⟩ ⟨4, by simp⟩ he)) (by simp)) [e0, e1, e2, e3, e5] [e7, e8, e9, e10, e11]
      have se12 : (inversions ([e0, e1, e2, e3, e5, e4, e6, e7, e8, e9, e10, e11] : List Nat) + inversions ([e0, e1, e2, e3, e4, e5, e6, e7, e8, e9, e10, e11] : List Nat)) % 2 = 1 := inversions_adj_swap e5 e4 (fun he => absurd (congrArg Fin.val (@hinj_e ⟨5, by simp⟩ ⟨4, by simp⟩ he)) (by simp)) [e0, e1, e2, e3] [e6, e7, e8, e9, e10, e11]
      omega
  · -- move R2
    simp only [step_R2]
    have pc : List.Perm [a7, a1, a2, a4, a3, a5, a6, a0]
        [a0, a1, a2, a3, a4, a5, a6, a7] :=
      (List.Perm.trans (List.Perm.trans (List.Perm.trans (List.Perm.trans (List.Perm.trans (List.Perm.trans (List.Perm.trans (List.Perm.trans (List.Perm.trans (List.Perm.trans (List.Perm.trans (List.Perm.trans (List.Perm.trans (List.Perm.swap a1 a7 [a2, a4, a3, a5, a6, a0]) (List.Perm.cons a1 (List.Perm.swap a2 a7 [a4, a3, a5, a6, a0]))) (List.Perm.cons a1 (List.Perm.cons a2 (List.Perm.swap a4 a7 [a3, a5, a6, a0])))) (List.Perm.cons a1 (List.Perm.cons a2 (List.Perm.cons a4 (List.Perm.swap a3 a7 [a5, a6, a0]))))) (List.Perm.cons a1 (List.Perm.cons a2 (List.Perm.swap a3 a4 [a7, a5, a6, a0])))) (List.Perm.cons a1 (List.Perm.cons a2 (List.Perm.cons a3 (List.Perm.cons a4 (List.Perm.swap a5 a7 [a6, a0])))))) (List.Perm.cons a1 (List.Perm.cons a2 (List.Perm.cons a3 (List.Perm.cons a4 (List.Perm.cons a5 (List.Perm.swap a6 a7 [a0]))))))) (List.Perm.cons a1 (List.Perm.cons a2 (List.Perm.cons a3 (List.Perm.cons a4 (List.Perm.cons a5 (List.Perm.cons a6 (List.Perm.swap a0 a7 [])))))))) (List.Perm.cons a1 (List.Perm.cons a2 (List.Perm.cons a3 (List.Perm.cons a4 (List.Perm.cons a5 (List.Perm.swap a0 a6 [a7]))))))) (List.Perm.cons a1 (List.Perm.cons a2 (List.Perm.cons a3 (List.Perm.cons a4 (List.Perm.swap a0 a5 [a6, a7])))))) (List.Perm.cons a1 (List.Perm.cons a2 (List.Perm.cons a3 (List.Perm.swap a0 a4 [a5, a6, a7]))))) (List.Perm.cons a1 (List.Perm.cons a2 (List.Perm.swap a0 a3 [a4, a5, a6, a7])))) (List.Perm.cons a1 (List.Perm.swap a0 a2 [a3, a4, a5, a6, a7]))) (List.Perm.swap a0 a1 [a2, a3, a4, a5, a6, a7]))
    have pe : List.Perm [e0, e1, e2, e3, e7, e5, e6, e4, e11, e9, e10, e8]
        [e0, e1, e2, e3, e4, e5, e6, e7, e8, e9, e10, e11] :=
      (List.Perm.trans (List.Perm.trans (List.Perm.trans (List.Perm.trans (List.Perm.trans (List.Perm.trans (List.Perm.trans (List.Perm.trans (List.Perm.trans (List.Perm.cons e0 (List.Perm.cons e1 (List.Perm.cons e2 (List.Perm.cons e3 (List.Perm.swap e5 e7 [e6, e4, e11, e9, e10, e8]))))) (List.Perm.cons e0 (List.Perm.cons e1 (List.Perm.cons e2 (List.Perm.cons e3 (List.Perm.cons e5 (List.Perm.swap e6 e7 [e4, e11, e9, e10, e8]))))))) (List.Perm.cons e0 (List.Perm.cons e1 (List.Perm.cons e2 (List.Perm.cons e3 (List.Perm.cons e5 (List.Perm.cons e6 (List.Perm.swap e4 e7 [e11, e9, e10, e8])))))))) (List.Perm.cons e0 (List.Perm.cons e1 (List.Perm.cons e2 (List.Perm.cons e3 (List.Perm.cons e5 (List.Perm.swap e4 e6 [e7, e11, e9, e10, e8]))))))) (List.Perm.cons e0 (List.Perm.cons e1 (List.Perm.cons e2 (List.Perm.cons e3 (List.Perm.swap e4 e5 [e6, e7, e11, e9, e10, e8])))))) (List.Perm.cons e0 (List.Perm.cons e1 (List.Perm.cons e2 (List.Perm.cons e3 (List.Perm.cons e4 (List.Perm.cons e5 (List.Perm.cons e6 (List.Perm.cons e7 (List.Perm.swap e9 e11 [e10, e8])))))))))) (List.Perm.cons e0 (List.Perm.cons e1 (List.Perm.cons e2 (List.Perm.cons e3 (List.Perm.cons e4 (List.Perm.cons e5 (List.Perm.cons e6 (List.Perm.cons e7 (List.Perm.cons e9 (List.Perm.swap e10 e11 [e8]))))))))))) (List.Perm.cons e0 (List.Perm.cons e1 (List.Perm.cons e2 (List.Perm.cons e3 (List.Perm.cons e4 (List.Perm.cons e5 (List.Perm.cons e6 (List.Perm.cons e7 (List.Perm.cons e9 (List.Perm.cons e10 (List.Perm.swap e8 e11 [])))))))))))) (List.Perm.cons e0 (List.Perm.cons e1 (List.Perm.cons e2 (List.Perm.cons e3 (List.Perm.cons e4 (List.Perm.cons e5 (List.Perm.cons e6 (List.Perm.cons e7 (List.Perm.cons e9 (List.Perm.swap e8 e10 [e11]))))))))))) (List.Perm.cons e0 (List.Perm.cons e1 (List.Perm.cons e2 (List.Perm.cons e3 (List.Perm.cons e4 (List.Perm.cons e5 (List.Perm.cons e6 (List.Perm.cons e7 (List.Perm.swap e8 e9 [e10, e11]))))))))))
    unfold Valid WellFormed
    refine ⟨⟨rfl, rfl, rfl, rfl, ?_, ?_⟩,
      pc.trans hpc, pe.trans hpe, ?_, ?_, ?_⟩
    · simp only [List.mem_cons, List.not_mem_nil, or_false, forall_eq_or_imp,
        forall_eq]
      omega
    · simp only [List.mem_cons, List.not_mem_nil, or_false, forall_eq_or_imp,
        forall_eq]
      omega
    · simp only [List.sum_cons, List.sum_nil] at hsc ⊢
      omega
    · simp only [List.sum_cons, List.sum_nil] at hse ⊢
      omega
    · -- parity: chain of adjacent transpositions (14 corner, 10 edge)
      show (inversions [a7, a1, a2, a4, a3, a5, a6, a0] +
        inversions [e0, e1, e2, e3, e7, e5, e6, e4, e11, e9, e10, e8]) % 2 = 0
      have sc0 : (inversions ([a7, a1, a2, a4, a3, a5, a6, a0] : List Nat) + inversions ([a1, a7, a2, a4, a3, a5, a6, a0] : List Nat)) % 2 = 1 := inversions_adj_swap a7 a1 (fun he => absurd (congrArg Fin.val (@hinj_c ⟨7, by simp⟩ ⟨1, by simp⟩ he)) (by simp)) [] [a2, a4, a3, a5, a6, a0]
      have sc1 : (inversions ([a1, a7, a2, a4, a3, a5, a6, a0] : List Nat) + inversions ([a1, a2, a7, a4, a3, a5, a6, a0] : List Nat)) % 2 = 1 := inversions_adj_swap a7 a2 (fun he => absurd (congrArg Fin.val (@hinj_c ⟨7, by simp⟩ ⟨2, by simp⟩ he)) (by simp)) [a1] [a4, a3, a5, a6, a0]
      have sc2 : (inversions ([a1, a2, a7, a4, a3, a5, a6, a0] : List Nat) + inversions ([a1, a2, a4, a7, a3, a5, a6, a0] : List Nat)) % 2 = 1 := inversions_adj_swap a7 a4 (fun he => absurd (congrArg Fin.val (@hinj_c ⟨7, by simp⟩ ⟨4, by simp⟩ he)) (by simp)) [a1, a2] [a3, a5, a6, a0]
      have sc3 : (inversions ([a1, a2, a4, a7, a3, a5, a6, a0] : List Nat) + inversions ([a1, a2, a4, a3, a7, a5, a6, a0] : List Nat)) % 2 = 1 := inversions_adj_swap a7 a3 (fun he => absurd (congrArg Fin.val (@hinj_c ⟨7, by simp⟩ ⟨3, by simp⟩ he)) (by simp)) [a1, a2, a4] [a5, a6, a0]
      have sc4 : (inversions ([a1, a2, a4, a3, a7, a5, a6, a0] : List Nat) + inversions ([a1, a2, a3, a4, a7, a5, a6, a0] : List Nat)) % 2 = 1 := inversions_adj_swap a4 a3 (fun he => absurd (congrArg Fin.val (@hinj_c ⟨4, by simp⟩ ⟨3, by simp⟩ he)) (by simp)) [a1, a2] [a7, a5, a6, a0]
      have sc5 : (inversions ([a1, a2, a3, a4, a7, a5, a6, a0] : List Nat) + inversions ([a1, a2, a3, a4, a5, a7, a6, a0] : List Nat)) % 2 = 1 := inversions_adj_swap a7 a5 (fun he => absurd (congrArg Fin.val (@hinj_c ⟨7, by simp⟩ ⟨5, by simp⟩ he)) (by simp)) [a1, a2, a3, a4] [a6, a0]
      have sc6 : (inversions ([a1, a2, a3, a4, a5, a7, a6, a0] : List Nat) + inversions ([a1, a2, a3, a4, a5, a6, a7, a0] : List Nat)) % 2 = 1 := inversions_adj_swap a7 a6 (fun he => absurd (congrArg Fin.val (@hinj_c ⟨7, by simp⟩ ⟨6, by simp⟩ he)) (by simp)) [a1, a2, a3, a4, a5] [a0]
      have sc7 : (inversions ([a1, a2, a3, a4, a5, a6, a7, a0] : List Nat) + inversions ([a1, a2, a3, a4, a5, a6, a0, a7] : List Nat)) % 2 = 1 := inversions_adj_swap a7 a0 (fun he => absurd (congrArg Fin.val (@hinj_c ⟨7, by simp⟩ ⟨0, by simp⟩ he)) (by simp)) [a1, a2, a3, a4, a5, a6] []
      have sc8 : (inversions ([a1, a2, a3, a4, a5, a6, a0, a7] : List Nat) + inversions ([a1, a2, a3, a4, a5, a0, a6, a7] : List Nat)) % 2 = 1 := inversions_adj_swap a6 a0 (fun he => absurd (congrArg Fin.val (@hinj_c ⟨6, by simp⟩ ⟨0, by simp⟩ he)) (by simp)) [a1, a2, a3, a4, a5] [a7]
      have sc9 : (inversions ([a1, a2, a3, a4, a5, a0, a6, a7] : List Nat) + inversions ([a1, a2, a3, a4, a0, a5, a6, a7] : List Nat)) % 2 = 1 := inversions_adj_swap a5 a0 (fun he => absurd (congrArg Fin.val (@hinj_c ⟨5, by simp⟩ ⟨0, by simp⟩ he)) (by simp)) [a1, a2, a3, a4] [a6, a7]
      have sc10 : (inversions ([a1, a2, a3, a4, a0, a5, a6, a7] : List Nat) + inversions ([a1, a2, a3, a0, a4, a5, a6, a7] : List Nat)) % 2 = 1 := inversions_adj_swap a4 a0 (fun he => absurd (congrArg Fin.val (@hinj_c ⟨4, by simp⟩ ⟨0, by simp⟩ he)) (by simp)) [a1, a2, a3] [a5, a6, a7]
      have sc11 : (inversions ([a1, a2, a3, a0, a4, a5, a6, a7] : List Nat) + inversions ([a1, a2, a0, a3, a4, a5, a6, a7] : List Nat)) % 2 = 1 := inversions_adj_swap a3 a0 (fun he => absurd (congrArg Fin.val (@hinj_c ⟨3, by simp⟩ ⟨0, by simp⟩ he)) (by simp)) [a1, a2] [a4, a5, a6, a7]
      have sc12 : (inversions ([a1, a2, a0, a3, a4, a5, a6, a7] : List Nat) + inversions ([a1, a0, a2, a3, a4, a5, a6, a7] : List Nat)) % 2 = 1 := inversions_adj_swap a2 a0 (fun he => absurd (congrArg Fin.val (@hinj_c ⟨2, by simp⟩ ⟨0, by simp⟩ he)) (by simp)) [a1] [a3, a4, a5, a6, a7]
      have sc13 : (inversions ([a1, a0, a2, a3, a4, a5, a6, a7] : List Nat) + inversions ([a0, a1, a2, a3, a4, a5, a6, a7] : List Nat)) % 2 = 1 := inversions_adj_swap a1 a0 (fun he => absurd (congrArg Fin.val (@hinj_c ⟨1, by simp⟩ ⟨0, by simp⟩ he)) (by simp)) [] [a2, a3, a4, a5, a6, a7]
      have se0 : (inversions ([e0, e1, e2, e3, e7, e5, e6, e4, e11, e9, e10, e8] : List Nat) + inversions ([e0, e1, e2, e3, e5, e7, e6, e4, e11, e9, e10, e8] : List Nat)) % 2 = 1 := inversions_adj_swap e7 e5 (fun he => absurd (congrArg Fin.val (@hinj_e ⟨7, by simp⟩ ⟨5, by simp⟩ he)) (by simp)) [e0, e1, e2, e3] [e6, e4, e11, e9, e10, e8]
      have se1 : (inversions ([e0, e1, e2, e3, e5, e7, e6, e4, e11, e9, e10, e8] : List Nat) + inversions ([e0, e1, e2, e3, e5, e6, e7, e4, e11, e9, e10, e8] : List Nat)) % 2 = 1 := inversions_adj_swap e7 e6 (fun he => absurd (congrArg Fin.val (@hinj_e ⟨7, by simp⟩ ⟨6, by simp⟩ he)) (by simp)) [e0, e1, e2, e3, e5] [e4, e11, e9, e10, e8]
      have se2 : (inversions ([e0, e1, e2, e3, e5, e6, e7, e4, e11, e9, e10, e8] : List Nat) + inversions ([e0, e1, e2, e3, e5, e6, e4, e7, e11, e9, e10, e8] : List Nat)) % 2 = 1 := inversions_adj_swap e7 e4 (fun he => absurd (congrArg Fin.val (@hinj_e ⟨7, by simp⟩ ⟨4, by simp⟩ he)) (by simp)) [e0, e1, e2, e3, e5, e6] [e11, e9, e10, e8]
      have se3 : (inversions ([e0, e1, e2, e3, e5, e6, e4, e7, e11, e9, e10, e8] : List Nat) + inversions ([e0, e1, e2, e3, e5, e4, e6, e7, e11, e9, e10, e8] : List Nat)) % 2 = 1 := inversions_adj_swap e6 e4 (fun he => absurd (congrArg Fin.val (@hinj_e ⟨6, by simp⟩ ⟨4, by simp⟩ he)) (by simp)) [e0, e1, e2, e3, e5] [e7, e11, e9, e10, e8]
      have se4 : (inversions ([e0, e1, e2, e3, e5, e4, e6, e7, e11, e9, e10, e8] : List Nat) + inversions ([e0, e1, e2, e3, e4, e5, e6, e7, e11, e9, e10, e8] : List Nat)) % 2 = 1 := inversions_adj_swap e5 e4 (fun he => absurd (congrArg Fin.val (@hinj_e ⟨5, by simp⟩ ⟨4, by simp⟩ he)) (by simp)) [e0, e1, e2, e3] [e6, e7, e11, e9, e10, e8]
      have se5 : (inversions ([e0, e1, e2, e3, e4, e5, e6, e7, e11, e9, e10, e8] : List Nat) + inversions ([e0, e1, e2, e3, e4, e5, e6, e7, e9, e11, e10, e8] : List Nat)) % 2 = 1 := inversions_adj_swap e11 e9 (fun he => absurd (congrArg Fin.val (@hinj_e ⟨11, by simp⟩ ⟨9, by simp⟩ he)) (by simp)) [e0, e1, e2, e3, e4, e5, e6, e7] [e10, e8]
      have se6 : (inversions ([e0, e1, e2, e3, e4, e5, e6, e7, e9, e11, e10, e8] : List Nat) + inversions ([e0, e1, e2, e3, e4, e5, e6, e7, e9, e10, e11, e8] : List Nat)) % 2 = 1 := inversions_adj_swap e11 e10 (fun he => absurd (congrArg Fin.val (@hinj_e ⟨11, by simp⟩ ⟨10, by simp⟩ he)) (by simp)) [e0, e1, e2, e3, e4, e5, e6, e7, e9] [e8]
      have se7 : (inversions ([e0, e1, e2, e3, e4, e5, e6, e7, e9, e10, e11, e8] : List Nat) + inversions ([e0, e1, e2, e3, e4, e5, e6, e7, e9, e10, e8, e11] : List Nat)) % 2 = 1 := inversions_adj_swap e11 e8 (fun he => absurd (congrArg Fin.val (@hinj_e ⟨11, by simp⟩ ⟨8, by simp⟩ he)) (by simp)) [e0, e1, e2, e3, e4, e5, e6, e7, e9, e10] []
      have se8 : (inversions ([e0, e1, e2, e3, e4, e5, e6, e7, e9, e10, e8, e11] : List Nat) + inversions ([e0, e1, e2, e3, e4, e5, e6, e7, e9, e8, e10, e11] : List Nat)) % 2 = 1 := inversions_adj_swap e10 e8 (fun he => absurd (congrArg Fin.val (@hinj_e ⟨10, by simp⟩ ⟨8, by simp⟩ he)) (by simp)) [e0, e1, e2, e3, e4, e5, e6, e7, e9] [e11]
      have se9 : (inversions ([e0, e1, e2, e3, e4, e5, e6, e7, e9, e8, e10, e11] : List Nat) + inversions ([e0, e1, e2, e3, e4, e5, e6, e7, e8, e9, e10, e11] : List Nat)) % 2 = 1 := inversions_adj_swap e9 e8 (fun he => absurd (congrArg Fin.val (@hinj_e ⟨9, by simp⟩ ⟨8, by simp⟩ he)) (by simp)) [e0, e1, e2, e3, e4, e5, e6, e7] [e10, e11]
      omega
  · -- move RP
    simp only [step_RP]
    have pc : List.Perm [a3, a1, a2, a7, a0, a5, a6, a4]
        [a0, a1, a2, a3, a4, a5, a6, a7] :=
      (List.Perm.trans (List.Perm.trans (List.Perm.trans (List.Perm.trans (List.Perm.trans (List.Perm.trans (List.Perm.trans (List.Perm.trans (List.Perm.trans (List.Perm.trans (List.Perm.swap a1 a3 [a2, a7, a0, a5, a6, a4]) (List.Perm.cons a1 (List.Perm.swap a2 a3 [a7, a0, a5, a6, a4]))) (List.Perm.cons a1 (List.Perm.cons a2 (List.Perm.cons a3 (List.Perm.swap a0 a7 [a5, a6, a4]))))) (List.Perm.cons a1 (List.Perm.cons a2 (List.Perm.swap a0 a3 [a7, a5, a6, a4])))) (List.Perm.cons a1 (List.Perm.swap a0 a2 [a3, a7, a5, a6, a4]))) (List.Perm.swap a0 a1 [a2, a3, a7, a5, a6, a4])) (List.Perm.cons a0 (List.Perm.cons a1 (List.Perm.cons a2 (List.Perm.cons a3 (List.Perm.swap a5 a7 [a6, a4])))))) (List.Perm.cons a0 (List.Perm.cons a1 (List.Perm.cons a2 (List.Perm.cons a3 (List.Perm.cons a5 (List.Perm.swap a6 a7 [a4]))))))) (List.Perm.cons a0 (List.Perm.cons a1 (List.Perm.cons a2 (List.Perm.cons a3 (List.Perm.cons a5 (List.Perm.cons a6 (List.Perm.swap a4 a7 [])))))))) (List.Perm.cons a0 (List.Perm.cons a1 (List.Perm.cons a2 (List.Perm.cons a3 (List.Perm.cons a5 (List.Perm.swap a4 a6 [a7]))))))) (List.Perm.cons a0 (List.Perm.cons a1 (List.Perm.cons a2 (List.Perm.cons a3 (List.Perm.swap a4 a5 [a6, a7]))))))
    have pe : List.Perm [e0, e1, e2, e3, e11, e5, e6, e8, e4, e9, e10, e7]
        [e0, e1, e2, e3, e4, e5, e6, e7, e8, e9, e10, e11] :=
      (List.Perm.trans (List.Perm.trans (List.Perm.trans (List.Perm.trans (List.Perm.trans (List.Perm.trans (List.Perm.trans (List.Perm.trans (List.Perm.trans (List.Perm.trans (List.Perm.trans (List.Perm.trans (List.Perm.cons e0 (List.Perm.cons e1 (List.Perm.cons e2 (List.Perm.cons e3 (List.Perm.swap e5 e11 [e6, e8, e4, e9, e10, e7]))))) (List.Perm.cons e0 (List.Perm.cons e1 (List.Perm.cons e2 (List.Perm.cons e3 (List.Perm.cons e5 (List.Perm.swap e6 e11 [e8, e4, e9, e10, e7]))))))) (List.Perm.cons e0 (List.Perm.cons e1 (List.Perm.cons e2 (List.Perm.cons e3 (List.Perm.cons e5 (List.Perm.cons e6 (List.Perm.swap e8 e11 [e4, e9, e10, e7])))))))) (List.Perm.cons e0 (List.Perm.cons e1 (List.Perm.cons e2 (List.Perm.cons e3 (List.Perm.cons e5 (List.Perm.cons e6 (List.Perm.cons e8 (List.Perm.swap e4 e11 [e9, e10, e7]))))))))) (List.Perm.cons e0 (List.Perm.cons e1 (List.Perm.cons e2 (List.Perm.cons e3 (List.Perm.cons e5 (List.Perm.cons e6 (List.Perm.swap e4 e8 [e11, e9, e10, e7])))))))) (List.Perm.cons e0 (List.Perm.cons e1 (List.Perm.cons e2 (List.Perm.cons e3 (List.Perm.cons e5 (List.Perm.swap e4 e6 [e8, e11, e9, e10, e7]))))))) (List.Perm.cons e0 (List.Perm.cons e1 (List.Perm.cons e2 (List.Perm.cons e3 (List.Perm.swap e4 e5 [e6, e8, e11, e9, e10, e7])))))) (List.Perm.cons e0 (List.Perm.cons e1 (List.Perm.cons e2 (List.Perm.cons e3 (List.Perm.cons e4 (List.Perm.cons e5 (List.Perm.cons e6 (List.Perm.cons e8 (List.Perm.swap e9 e11 [e10, e7])))))))))) (List.Perm.cons e0 (List.Perm.cons e1 (List.Perm.cons e2 (List.Perm.cons e3 (List.Perm.cons e4 (List.Perm.cons e5 (List.Perm.cons e6 (List.Perm.cons e8 (List.Perm.cons e9 (List.Perm.swap e10 e11 [e7]))))))))))) (List.Perm.cons e0 (List.Perm.cons e1 (List.Perm.cons e2 (List.Perm.cons e3 (List.Perm.cons e4 (List.Perm.cons e5 (List.Perm.cons e6 (List.Perm.cons e8 (List.Perm.cons e9 (List.Perm.cons e10 (List.Perm.swap e7 e11 [])))))))))))) (List.Perm.cons e0 (List.Perm.cons e1 (List.Perm.cons e2 (List.Perm.cons e3 (List.Perm.cons e4 (List.Perm.cons e5 (List.Perm.cons e6 (List.Perm.cons e8 (List.Perm.cons e9 (List.Perm.swap e7 e10 [e11]))))))))))) (List.Perm.cons e0 (List.Perm.cons e1 (List.Perm.cons e2 (List.Perm.cons e3 (List.Perm.cons e4 (List.Perm.cons e5 (List.Perm.cons e6 (List.Perm.cons e8 (List.Perm.swap e7 e9 [e10, e11])))))))))) (List.Perm.cons e0 (List.Perm.cons e1 (List.Perm.cons e2 (List.Perm.cons e3 (List.Perm.cons e4 (List.Perm.cons e5 (List.Perm.cons e6 (List.Perm.swap e7 e8 [e9, e10, e11])))))))))
    unfold Valid WellFormed
    refine ⟨⟨rfl, rfl, rfl, rfl, ?_, ?_⟩,
      pc.trans hpc, pe.trans hpe, ?_, ?_, ?_⟩
    · simp only [List.mem_cons, List.not_mem_nil, or_false, forall_eq_or_imp,
        forall_eq]
      omega
    · simp only [List.mem_cons, List.not_mem_nil, or_false, forall_eq_or_imp,
        forall_eq]
      omega
    · simp only [List.sum_cons, List.sum_nil] at hsc ⊢
      omega
    · simp only [List.sum_cons, List.sum_nil] at hse ⊢
      omega
    · -- parity: chain of adjacent transpositions (11 corner, 13 edge)
      show (inversions [a3, a1, a2, a7, a0, a5, a6, a4] +
        inversions [e0, e1, e2, e3, e11, e5, e6, e8, e4, e9, e10, e7]) % 2 = 0
      have sc0 : (inversions ([a3, a1, a2, a7, a0, a5, a6, a4] : List Nat) + inversions ([a1, a3, a2, a7, a0, a5, a6, a4] : List Nat)) % 2 = 1 := inversions_adj_swap a3 a1 (fun he => absurd (congrArg Fin.val (@hinj_c ⟨3, by simp⟩ ⟨1, by simp⟩ he)) (by simp)) [] [a2, a7, a0, a5, a6, a4]
      have sc1 : (inversions ([a1, a3, a2, a7, a0, a5, a6, a4] : List Nat) + inversions ([a1, a2, a3, a7, a0, a5, a6, a4] : List Nat)) % 2 = 1 := inversions_adj_swap a3 a2 (fun he => absurd (congrArg Fin.val (@hinj_c ⟨3, by simp⟩ ⟨2, by simp⟩ he)) (by simp)) [a1] [a7, a0, a5, a6, a4]
      have sc2 : (inversions ([a1, a2, a3, a7, a0, a5, a6, a4] : List Nat) + inversions ([a1, a2, a3, a0, a7, a5, a6, a4] : List Nat)) % 2 = 1 := inversions_adj_swap a7 a0 (fun he => absurd (congrArg Fin.val (@hinj_c ⟨7, by simp⟩ ⟨0, by simp⟩ he)) (by simp)) [a1, a2, a3] [a5, a6, a4]
      have sc3 : (inversions ([a1, a2, a3, a0, a7, a5, a6, a4] : List Nat) + inversions ([a1, a2, a0, a3, a7, a5, a6, a4] : List Nat)) % 2 = 1 := inversions_adj_swap a3 a0 (fun he => absurd (congrArg Fin.val (@hinj_c ⟨3, by simp⟩ ⟨0, by simp⟩ he)) (by simp)) [a1, a2] [a7, a5, a6, a4]
      have sc4 : (inversions ([a1, a2, a0, a3, a7, a5, a6, a4] : List Nat) + inversions ([a1, a0, a2, a3, a7, a5, a6, a4] : List Nat)) % 2 = 1 := inversions_adj_swap a2 a0 (fun he => absurd (congrArg Fin.val (@hinj_c ⟨2, by simp⟩ ⟨0, by simp⟩ he)) (by simp)) [a1] [a3, a7, a5, a6, a4]
      have sc5 : (inversions ([a1, a0, a2, a3, a7, a5, a6, a4] : List Nat) + inversions ([a0, a1, a2, a3, a7, a5, a6, a4] : List Nat)) % 2 = 1 := inversions_adj_swap a1 a0 (fun he => absurd (congrArg Fin.val (@hinj_c ⟨1, by simp⟩ ⟨0, by simp⟩ he)) (by simp)) [] [a2, a3, a7, a5, a6, a4]
      have sc6 : (inversions ([a0, a1, a2, a3, a7, a5, a6, a4] : List Nat) + inversions ([a0, a1, a2, a3, a5, a7, a6, a4] : List Nat)) % 2 = 1 := inversions_adj_swap a7 a5 (fun he => absurd (congrArg Fin.val (@hinj_c ⟨7, by simp⟩ ⟨5, by simp⟩ he)) (by simp)) [a0, a1, a2, a3] [a6, a4]
      have sc7 : (inversions ([a0, a1, a2, a3, a5, a7, a6, a4] : List Nat) + inversions ([a0, a1, a2, a3, a5, a6, a7, a4] : List Nat)) % 2 = 1 := inversions_adj_swap a7 a6 (fun he => absurd (congrArg Fin.val (@hinj_c ⟨7, by simp⟩ ⟨6, by simp⟩ he)) (by simp)) [a0, a1, a2, a3, a5] [a4]
      have sc8 : (inversions ([a0, a1, a2, a3, a5, a6, a7, a4] : List Nat) + inversions ([a0, a1, a2, a3, a5, a6, a4, a7] : List Nat)) % 2 = 1 := inversions_adj_swap a7 a4 (fun he => absurd (congrArg Fin.val (@hinj_c ⟨7, by simp⟩ ⟨4, by simp⟩ he)) (by simp)) [a0, a1, a2, a3, a5, a6] []
      have sc9 : (inversions ([a0, a1, a2, a3, a5, a6, a4, a7] : List Nat) + inversions ([a0, a1, a2, a3, a5, a4, a6, a7] : List Nat)) % 2 = 1 := inversions_adj_swap a6 a4 (fun he => absurd (congrArg Fin.val (@hinj_c ⟨6, by simp⟩ ⟨4, by simp⟩ he)) (by simp)) [a0, a1, a2, a3, a5] [a7]
      have sc10 : (inversions ([a0, a1, a2, a3, a5, a4, a6, a7] : List Nat) + inversions ([a0, a1, a2, a3, a4, a5, a6, a7] : List Nat)) % 2 = 1 := inversions_adj_swap a5 a4 (fun he => absurd (congrArg Fin.val (@hinj_c ⟨5, by simp⟩ ⟨4, by simp⟩ he)) (by simp)) [a0, a1, a2, a3] [a6, a7]
      have se0 : (inversions ([e0, e1, e2, e3, e11, e5, e6, e8, e4, e9, e10, e7] : List Nat) + inversions ([e0, e1, e2, e3, e5, e11, e6, e8, e4, e9, e10, e7] : List Nat)) % 2 = 1 := inversions_adj_swap e11 e5 (fun he => absurd (congrArg Fin.val (@hinj_e ⟨11, by simp⟩ ⟨5, by simp⟩ he)) (by simp)) [e0, e1, e2, e3] [e6, e8, e4, e9, e10, e7]
      have se1 : (inversions ([e0, e1, e2, e3, e5, e11, e6, e8, e4, e9, e10, e7] : List Nat) + inversions ([e0, e1, e2, e3, e5, e6, e11, e8, e4, e9, e10, e7] : List Nat)) % 2 = 1 := inversions_adj_swap e11 e6 (fun he => absurd (congrArg Fin.val (@hinj_e ⟨11, by simp⟩ ⟨6, by simp⟩ he)) (by simp)) [e0, e1, e2, e3, e5] [e8, e4, e9, e10, e7]
      have se2 : (inversions ([e0, e1, e2, e3, e5, e6, e11, e8, e4, e9, e10, e7] : List Nat) + inversions ([e0, e1, e2, e3, e5, e6, e8, e11, e4, e9, e10, e7] : List Nat)) % 2 = 1 := inversions_adj_swap e11 e8 (fun he => absurd (congrArg Fin.val (@hinj_e ⟨11, by simp⟩ ⟨8, by simp⟩ he)) (by simp)) [e0, e1, e2, e3, e5, e6] [e4, e9, e10, e7]
      have se3 : (inversions ([e0, e1, e2, e3, e5, e6, e8, e11, e4, e9, e10, e7] : List Nat) + inversions ([e0, e1, e2, e3, e5, e6, e8, e4, e11, e9, e10, e7] : List Nat)) % 2 = 1 := inversions_adj_swap e11 e4 (fun he => absurd (congrArg Fin.val (@hinj_e ⟨11, by simp⟩ ⟨4, by simp⟩ he)) (by simp)) [e0, e1, e2, e3, e5, e6, e8] [e9, e10, e7]
      have se4 : (inversions ([e0, e1, e2, e3, e5, e6, e8, e4, e11, e9, e10, e7] : List Nat) + inversions ([e0, e1, e2, e3, e5, e6, e4, e8, e11, e9, e10, e7] : List Nat)) % 2 = 1 := inversions_adj_swap e8 e4 (fun he => absurd (congrArg Fin.val (@hinj_e ⟨8, by simp⟩ ⟨4, by simp⟩ he)) (by simp)) [e0, e1, e2, e3, e5, e6] [e11, e9, e10, e7]
      have se5 : (inversions ([e0, e1, e2, e3, e5, e6, e4, e8, e11, e9, e10, e7] : List Nat) + inversions ([e0, e1, e2, e3, e5, e4, e6, e8, e11, e9, e10, e7] : List Nat)) % 2 = 1 := inversions_adj_swap e6 e4 (fun he => absurd (congrArg Fin.val (@hinj_e ⟨6, by simp⟩ ⟨4, by simp⟩ he)) (by simp)) [e0, e1, e2, e3, e5] [e8, e11, e9, e10, e7]
      have se6 : (inversions ([e0, e1, e2, e3, e5, e4, e6, e8, e11, e9, e10, e7] : List Nat) + inversions ([e0, e1, e2, e3, e4, e5, e6, e8, e11, e9, e10, e7] : List Nat)) % 2 = 1 := inversions_adj_swap e5 e4 (fun he => absurd (congrArg Fin.val (@hinj_e ⟨5, by simp⟩ ⟨4, by simp⟩ he)) (by simp)) [e0, e1, e2, e3] [e6, e8, e11, e9, e10, e7]
      have se7 : (inversions ([e0, e1, e2, e3, e4, e5, e6, e8, e11, e9, e10, e7] : List Nat) + inversions ([e0, e1, e2, e3, e4, e5, e6, e8, e9, e11, e10, e7] : List Nat)) % 2 = 1 := inversions_adj_swap e11 e9 (fun he => absurd (congrArg Fin.val (@hinj_e ⟨11, by simp⟩ ⟨9, by simp⟩ he)) (by simp)) [e0, e1, e2, e3, e4, e5, e6, e8] [e10, e7]
      have se8 : (inversions ([e0, e1, e2, e3, e4, e5, e6, e8, e9, e11, e10, e7] : List Nat) + inversions ([e0, e1, e2, e3, e4, e5, e6, e8, e9, e10, e11, e7] : List Nat)) % 2 = 1 := inversions_adj_swap e11 e10 (fun he => absurd (congrArg Fin.val (@hinj_e ⟨11, by simp⟩ ⟨10, by simp⟩ he)) (by simp)) [e0, e1, e2, e3, e4, e5, e6, e8, e9] [e7]
      have se9 : (inversions ([e0, e1, e2, e3, e4, e5, e6, e8, e9, e10, e11, e7] : List Nat) + inversions ([e0, e1, e2, e3, e4, e5, e6, e8, e9, e10, e7, e11] : List Nat)) % 2 = 1 := inversions_adj_swap e11 e7 (fun he => absurd (congrArg Fin.val (@hinj_e ⟨11, by simp⟩ ⟨7, by simp⟩ he)) (by simp)) [e0, e1, e2, e3, e4, e5, e6, e8, e9, e10] []
      have se10 : (inversions ([e0, e1, e2, e3, e4, e5, e6, e8, e9, e10, e7, e11] : List Nat) + inversions ([e0, e1, e2, e3, e4, e5, e6, e8, e9, e7, e10, e11] : List Nat)) % 2 = 1 := inversions_adj_swap e10 e7 (fun he => absurd (congrArg Fin.val (@hinj_e ⟨10, by simp⟩ ⟨7, by simp⟩ he)) (by simp)) [e0, e1, e2, e3, e4, e5, e6, e8, e9] [e11]
      have se11 : (inversions ([e0, e1, e2, e3, e4, e5, e6, e8, e9, e7, e10, e11] : List Nat) + inversions ([e0, e1, e2, e3, e4, e5, e6, e8, e7, e9, e10, e11] : List Nat)) % 2 = 1 := inversions_adj_swap e9 e7 (fun he => absurd (congrArg Fin.val (@hinj_e ⟨9, by simp⟩ ⟨7, by simp⟩ he)) (by simp)) [e0, e1, e2, e3, e4, e5, e6, e8] [e10, e11]
      have se12 : (inversions ([e0, e1, e2, e3, e4, e5, e6, e8, e7, e9, e10, e11] : List Nat) + inversions ([e0, e1, e2, e3, e4, e5, e6, e7, e8, e9, e10, e11] : List Nat)) % 2 = 1 := inversions_adj_swap e8 e7 (fun he => absurd (congrArg Fin.val (@hinj_e ⟨8, by simp⟩ ⟨7, by simp⟩ he)) (by simp)) [e0, e1, e2, e3, e4, e5, e6] [e9, e10, e11]
      omega
  · -- move B
    simp only [step_B]
    have pc : List.Perm [a0, a1, a3, a7, a4, a5, a2, a6]
        [a0, a1, a2, a3, a4, a5, a6, a7] :=
      (List.Perm.trans (List.Perm.trans (List.Perm.trans (List.Perm.trans (List.Perm.trans (List.Perm.trans (List.Perm.cons a0 (List.Perm.cons a1 (List.Perm.cons a3 (List.Perm.swap a4 a7 [a5, a2, a6])))) (List.Perm.cons a0 (List.Perm.cons a1 (List.Perm.cons a3 (List.Perm.cons a4 (List.Perm.swap a5 a7 [a2, a6])))))) (List.Perm.cons a0 (List.Perm.cons a1 (List.Perm.cons a3 (List.Perm.cons a4 (List.Perm.cons a5 (List.Perm.swap a2 a7 [a6]))))))) (List.Perm.cons a0 (List.Perm.cons a1 (List.Perm.cons a3 (List.Perm.cons a4 (List.Perm.swap a2 a5 [a7, a6])))))) (List.Perm.cons a0 (List.Perm.cons a1 (List.Perm.cons a3 (List.Perm.swap a2 a4 [a5, a7, a6]))))) (List.Perm.cons a0 (List.Perm.cons a1 (List.Perm.swap a2 a3 [a4, a5, a7, a6])))) (List.Perm.cons a0 (List.Perm.cons a1 (List.Perm.cons a2 (List.Perm.cons a3 (List.Perm.cons a4 (List.Perm.cons a5 (List.Perm.swap a6 a7 []))))))))
    have pe : List.Perm [e0, e11, e10, e3, e4, e5, e6, e7, e8, e9, e1, e2]
        [e0, e1, e2, e3, e4, e5, e6, e7, e8, e9, e10, e11] :=
      (List.Perm.trans (List.Perm.trans (List.Perm.trans (List.Perm.trans (List.Perm.trans (List.Perm.trans (List.Perm.trans (List.Perm.trans (List.Perm.trans (List.Perm.trans (List.Perm.trans (List.Perm.trans (List.Perm.trans (List.Perm.trans (List.Perm.trans (List.Perm.trans (List.Perm.trans (List.Perm.trans (List.Perm.trans (List.Perm.trans (List.Perm.trans (List.Perm.trans (List.Perm.trans (List.Perm.trans (List.Perm.trans (List.Perm.trans (List.Perm.trans (List.Perm.trans (List.Perm.trans (List.Perm.trans (List.Perm.trans (List.Perm.trans (List.Perm.cons e0 (List.Perm.swap e10 e11 [e3, e4, e5, e6, e7, e8, e9, e1, e2])) (List.Perm.cons e0 (List.Perm.cons e10 (List.Perm.swap e3 e11 [e4, e5, e6, e7, e8, e9, e1, e2])))) (List.Perm.cons e0 (List.Perm.swap e3 e10 [e11, e4, e5, e6, e7, e8, e9, e1, e2]))) (List.Perm.cons e0 (List.Perm.cons e3 (List.Perm.cons e10 (List.Perm.swap e4 e11 [e5, e6, e7, e8, e9, e1, e2]))))) (List.Perm.cons e0 (List.Perm.cons e3 (List.Perm.swap e4 e10 [e11, e5, e6, e7, e8, e9, e1, e2])))) (List.Perm.cons e0 (List.Perm.cons e3 (List.Perm.cons e4 (List.Perm.cons e10 (List.Perm.swap e5 e11 [e6, e7, e8, e9, e1, e2])))))) (List.Perm.cons e0 (List.Perm.cons e3 (List.Perm.cons e4 (List.Perm.swap e5 e10 [e11, e6, e7, e8, e9, e1, e2]))))) (List.Perm.cons e0 (List.Perm.cons e3 (List.Perm.cons e4 (List.Perm.cons e5 (List.Perm.cons e10 (List.Perm.swap e6 e11 [e7, e8, e9, e1, e2]))))))) (List.Perm.cons e0 (List.Perm.cons e3 (List.Perm.cons e4 (List.Perm.cons e5 (List.Perm.swap e6 e10 [e11, e7, e8, e9, e1, e2])))))) (List.Perm.cons e0 (List.Perm.cons e3 (List.Perm.cons e4 (List.Perm.cons e5 (List.Perm.cons e6 (List.Perm.cons e10 (List.Perm.swap e7 e11 [e8, e9, e1, e2])))))))) (List.Perm.cons e0 (List.Perm.cons e3 (List.Perm.cons e4 (List.Perm.cons e5 (List.Perm.cons e6 (List.Perm.swap e7 e10 [e11, e8, e9, e1, e2]))))))) (List.Perm.cons e0 (List.Perm.cons e3 (List.Perm.cons e4 (List.Perm.cons e5 (List.Perm.cons e6 (List.Perm.cons e7 (List.Perm.cons e10 (List.Perm.swap e8 e11 [e9, e1, e2]))))))))) (List.Perm.cons e0 (List.Perm.cons e3 (List.Perm.cons e4 (List.Perm.cons e5 (List.Perm.cons e6 (List.Perm.cons e7 (List.Perm.swap e8 e10 [e11, e9, e1, e2])))))))) (List.Perm.cons e0 (List.Perm.cons e3 (List.Perm.cons e4 (List.Perm.cons e5 (List.Perm.cons e6 (List.Perm.cons e7 (List.Perm.cons e8 (List.Perm.cons e10 (List.Perm.swap e9 e11 [e1, e2])))))))))) (List.Perm.cons e0 (List.Perm.cons e3 (List.Perm.cons e4 (List.Perm.cons e5 (List.Perm.cons e6 (List.Perm.cons e7 (List.Perm.cons e8 (List.Perm.swap e9 e10 [e11, e1, e2]))))))))) (List.Perm.cons e0 (List.Perm.cons e3 (List.Perm.cons e4 (List.Perm.cons e5 (List.Perm.cons e6 (List.Perm.cons e7 (List.Perm.cons e8 (List.Perm.cons e9 (List.Perm.cons e10 (List.Perm.swap e1 e11 [e2]))))))))))) (List.Perm.cons e0 (List.Perm.cons e3 (List.Perm.cons e4 (List.Perm.cons e5 (List.Perm.cons e6 (List.Perm.cons e7 (List.Perm.cons e8 (List.Perm.cons e9 (List.Perm.swap e1 e10 [e11, e2])))))))))) (List.Perm.cons e0 (List.Perm.cons e3 (List.Perm.cons e4 (List.Perm.cons e5 (List.Perm.cons e6 (List.Perm.cons e7 (List.Perm.cons e8 (List.Perm.swap e1 e9 [e10, e11, e2]))))))))) (List.Perm.cons e0 (List.Perm.cons e3 (List.Perm.cons e4 (List.Perm.cons e5 (List.Perm.cons e6 (List.Perm.cons e7 (List.Perm.swap e1 e8 [e9, e10, e11, e2])))))))) (List.Perm.cons e0 (List.Perm.cons e3 (List.Perm.cons e4 (List.Perm.cons e5 (List.Perm.cons e6 (List.Perm.swap e1 e7 [e8, e9, e10, e11, e2]))))))) (List.Perm.cons e0 (List.Perm.cons e3 (List.Perm.cons e4 (List.Perm.cons e5 (List.Perm.swap e1 e6 [e7, e8, e9, e10, e11, e2])))))) (List.Perm.cons e0 (List.Perm.cons e3 (List.Perm.cons e4 (List.Perm.swap e1 e5 [e6, e7, e8, e9, e10, e11, e2]))))) (List.Perm.cons e0 (List.Perm.cons e3 (List.Perm.swap e1 e4 [e5, e6, e7, e8, e9, e10, e11, e2])))) (List.Perm.cons e0 (List.Perm.swap e1 e3 [e4, e5, e6, e7, e8, e9, e10, e11, e2]))) (List.Perm.cons e0 (List.Perm.cons e1 (List.Perm.cons e3 (List.Perm.cons e4 (List.Perm.cons e5 (List.Perm.cons e6 (List.Perm.cons e7 (List.Perm.cons e8 (List.Perm.cons e9 (List.Perm.cons e10 (List.Perm.swap e2 e11 [])))))))))))) (List.Perm.cons e0 (List.Perm.cons e1 (List.Perm.cons e3 (List.Perm.cons e4 (List.Perm.cons e5 (List.Perm.cons e6 (List.Perm.cons e7 (List.Perm.cons e8 (List.Perm.cons e9 (List.Perm.swap e2 e10 [e11]))))))))))) (List.Perm.cons e0 (List.Perm.cons e1 (List.Perm.cons e3 (List.Perm.cons e4 (List.Perm.cons e5 (List.Perm.cons e6 (List.Perm.cons e7 (List.Perm.cons e8 (List.Perm.swap e2 e9 [e10, e11])))))))))) (List.Perm.cons e0 (List.Perm.cons e1 (List.Perm.cons e3 (List.Perm.cons e4 (List.Perm.cons e5 (List.Perm.cons e6 (List.Perm.cons e7 (List.Perm.swap e2 e8 [e9, e10, e11]))))))))) (List.Perm.cons e0 (List.Perm.cons e1 (List.Perm.cons e3 (List.Perm.cons e4 (List.Perm.cons e5 (List.Perm.cons e6 (List.Perm.swap e2 e7 [e8, e9, e10, e11])))))))) (List.Perm.cons e0 (List.Perm.cons e1 (List.Perm.cons e3 (List.Perm.cons e4 (List.Perm.cons e5 (List.Perm.swap e2 e6 [e7, e8, e9, e10, e11]))))))) (List.Perm.cons e0 (List.Perm.cons e1 (List.Perm.cons e3 (List.Perm.cons e4 (List.Perm.swap e2 e5 [e6, e7, e8, e9, e10, e11])))))) (List.Perm.cons e0 (List.Perm.cons e1 (List.Perm.cons e3 (List.Perm.swap e2 e4 [e5, e6, e7, e8, e9, e10, e11]))))) (List.Perm.cons e0 (List.Perm.cons e1 (List.Perm.swap e2 e3 [e4, e5, e6, e7, e8, e9, e10, e11]))))
    unfold Valid WellFormed
    refine ⟨⟨rfl, rfl, rfl, rfl, ?_, ?_⟩,
      pc.trans hpc, pe.trans hpe, ?_, ?_, ?_⟩
    · simp only [List.mem_cons, List.not_mem_nil, or_false, forall_eq_or_imp,
        forall_eq]
      omega
    · simp only [List.mem_cons, List.not_mem_nil, or_false, forall_eq_or_imp,
        forall_eq]
      omega
    · simp only [List.sum_cons, List.sum_nil] at hsc ⊢
      omega
    · simp only [List.sum_cons, List.sum_nil] at hse ⊢
      omega
    · -- parity: chain of adjacent transpositions (7 corner, 33 edge)
      show (inversions [a0, a1, a3, a7, a4, a5, a2, a6] +
        inversions [e0, e11, e10, e3, e4, e5, e6, e7, e8, e9, e1, e2]) % 2 = 0
      have sc0 : (inversions ([a0, a1, a3, a7, a4, a5, a2, a6] : List Nat) + inversions ([a0, a1, a3, a4, a7, a5, a2, a6] : List Nat)) % 2 = 1 := inversions_adj_swap a7 a4 (fun he => absurd (congrArg Fin.val (@hinj_c ⟨7, by simp⟩ ⟨4, by simp⟩ he)) (by simp)) [a0, a1, a3] [a5, a2, a6]
      have sc1 : (inversions ([a0, a1, a3, a4, a7, a5, a2, a6] : List Nat) + inversions ([a0, a1, a3, a4, a5, a7, a2, a6] : List Nat)) % 2 = 1 := inversions_adj_swap a7 a5 (fun he => absurd (congrArg Fin.val (@hinj_c ⟨7, by simp⟩ ⟨5, by simp⟩ he)) (by simp)) [a0, a1, a3, a4] [a2, a6]
      have sc2 : (inversions ([a0, a1, a3, a4, a5, a7, a2, a6] : List Nat) + inversions ([a0, a1, a3, a4, a5, a2, a7, a6] : List Nat)) % 2 = 1 := inversions_adj_swap a7 a2 (fun he => absurd (congrArg Fin.val (@hinj_c ⟨7, by simp⟩ ⟨2, by simp⟩ he)) (by simp)) [a0, a1, a3, a4, a5] [a6]
      have sc3 : (inversions ([a0, a1, a3, a4, a5, a2, a7, a6] : List Nat) + inversions ([a0, a1, a3, a4, a2, a5, a7, a6] : List Nat)) % 2 = 1 := inversions_adj_swap a5 a2 (fun he => absurd (congrArg Fin.val (@hinj_c ⟨5, by simp⟩ ⟨2, by simp⟩ he)) (by simp)) [a0, a1, a3, a4] [a7, a6]
      have sc4 : (inversions ([a0, a1, a3, a4, a2, a5, a7, a6] : List Nat) + inversions ([a0, a1, a3, a2, a4, a5, a7, a6] : List Nat)) % 2 = 1 := inversions_adj_swap a4 a2 (fun he => absurd (congrArg Fin.val (@hinj_c ⟨4, by simp⟩ ⟨2, by simp⟩ he)) (by simp)) [a0, a1, a3] [a5, a7, a6]
      have sc5 : (inversions ([a0, a1, a3, a2, a4, a5, a7, a6] : List Nat) + inversions ([a0, a1, a2, a3, a4, a5, a7, a6] : List Nat)) % 2 = 1 := inversions_adj_swap a3 a2 (fun he => absurd (congrArg Fin.val (@hinj_c ⟨3, by simp⟩ ⟨2, by simp⟩ he)) (by simp)) [a0, a1] [a4, a5, a7, a6]
      have sc6 : (inversions ([a0, a1, a2, a3, a4, a5, a7, a6] : List Nat) + inversions ([a0, a1, a2, a3, a4, a5, a6, a7] : List Nat)) % 2 = 1 := inversions_adj_swap a7 a6 (fun he => absurd (congrArg Fin.val (@hinj_c ⟨7, by simp⟩ ⟨6, by simp⟩ he)) (by simp)) [a0, a1, a2, a3, a4, a5] []
      have se0 : (inversions ([e0, e11, e10, e3, e4, e5, e6, e7, e8, e9, e1, e2] : List Nat) + inversions ([e0, e10, e11, e3, e4, e5, e6, e7, e8, e9, e1, e2] : List Nat)) % 2 = 1 := inversions_adj_swap e11 e10 (fun he => absurd (congrArg Fin.val (@hinj_e ⟨11, by simp⟩ ⟨10, by simp⟩ he)) (by simp)) [e0] [e3, e4, e5, e6, e7, e8, e9, e1, e2]
      have se1 : (inversions ([e0, e10, e11, e3, e4, e5, e6, e7, e8, e9, e1, e2] : List Nat) + inversions ([e0, e10, e3, e11, e4, e5, e6, e7, e8, e9, e1, e2] : List Nat)) % 2 = 1 := inversions_adj_swap e11 e3 (fun he => absurd (congrArg Fin.val (@hinj_e ⟨11, by simp⟩ ⟨3, by simp⟩ he)) (by simp)) [e0, e10] [e4, e5, e6, e7, e8, e9, e1, e2]
      have se2 : (inversions ([e0, e10, e3, e11, e4, e5, e6, e7, e8, e9, e1, e2] : List Nat) + inversions ([e0, e3, e10, e11, e4, e5, e6, e7, e8, e9, e1, e2] : List Nat)) % 2 = 1 := inversions_adj_swap e10 e3 (fun he => absurd (congrArg Fin.val (@hinj_e ⟨10, by simp⟩ ⟨3, by simp⟩ he)) (by simp)) [e0] [e11, e4, e5, e6, e7, e8, e9, e1, e2]
      have se3 : (inversions ([e0, e3, e10, e11, e4, e5, e6, e7, e8, e9, e1, e2] : List Nat) + inversions ([e0, e3, e10, e4, e11, e5, e6, e7, e8, e9, e1, e2] : List Nat)) % 2 = 1 := inversions_adj_swap e11 e4 (fun he => absurd (congrArg Fin.val (@hinj_e ⟨11, by simp⟩ ⟨4, by simp⟩ he)) (by simp)) [e0, e3, e10] [e5, e6, e7, e8, e9, e1, e2]
      have se4 : (inversions ([e0, e3, e10, e4, e11, e5, e6, e7, e8, e9, e1, e2] : List Nat) + inversions ([e0, e3, e4, e10, e11, e5, e6, e7, e8, e9, e1, e2] : List Nat)) % 2 = 1 := inversions_adj_swap e10 e4 (fun he => absurd (congrArg Fin.val (@hinj_e ⟨10, by simp⟩ ⟨4, by simp⟩ he)) (by simp)) [e0, e3] [e11, e5, e6, e7, e8, e9, e1, e2]
      have se5 : (inversions ([e0, e3, e4, e10, e11, e5, e6, e7, e8, e9, e1, e2] : List Nat) + inversions ([e0, e3, e4, e10, e5, e11, e6, e7, e8, e9, e1, e2] : List Nat)) % 2 = 1 := inversions_adj_swap e11 e5 (fun he => absurd (congrArg Fin.val (@hinj_e ⟨11, by simp⟩ ⟨5, by simp⟩ he)) (by simp)) [e0, e3, e4, e10] [e6, e7, e8, e9, e1, e2]
      have se6 : (inversions ([e0, e3, e4, e10, e5, e11, e6, e7, e8, e9, e1, e2] : List Nat) + inversions ([e0, e3, e4, e5, e10, e11, e6, e7, e8, e9, e1, e2] : List Nat)) % 2 = 1 := inversions_adj_swap e10 e5 (fun he => absurd (congrArg Fin.val (@hinj_e ⟨10, by simp⟩ ⟨5, by simp⟩ he)) (by simp)) [e0, e3, e4] [e11, e6, e7, e8, e9, e1, e2]
      have se7 : (inversions ([e0, e3, e4, e5, e10, e11, e6, e7, e8, e9, e1, e2] : List Nat) + inversions ([e0, e3, e4, e5, e10, e6, e11, e7, e8, e9, e1, e2] : List Nat)) % 2 = 1 := inversions_adj_swap e11 e6 (fun he => absurd (congrArg Fin.val (@hinj_e ⟨11, by simp⟩ ⟨6, by simp⟩ he)) (by simp)) [e0, e3, e4, e5, e10] [e7, e8, e9, e1, e2]
      have se8 : (inversions ([e0, e3, e4, e5, e10, e6, e11, e7, e8, e9, e1, e2] : List Nat) + inversions ([e0, e3, e4, e5, e6, e10, e11, e7, e8, e9, e1, e2] : List Nat)) % 2 = 1 := inversions_adj_swap e10 e6 (fun he => absurd (congrArg Fin.val (@hinj_e ⟨10, by simp⟩ ⟨6, by simp⟩ he)) (by simp)) [e0, e3, e4, e5] [e11, e7, e8, e9, e1, e2]
      have se9 : (inversions ([e0, e3, e4, e5, e6, e10, e11, e7, e8, e9, e1, e2] : List Nat) + inversions ([e0, e3, e4, e5, e6, e10, e7, e11, e8, e9, e1, e2] : List Nat)) % 2 = 1 := inversions_adj_swap e11 e7 (fun he => absurd (congrArg Fin.val (@hinj_e ⟨11, by simp⟩ ⟨7, by simp⟩ he)) (by simp)) [e0, e3, e4, e5, e6, e10] [e8, e9, e1, e2]
      have se10 : (inversions ([e0, e3, e4, e5, e6, e10, e7, e11, e8, e9, e1, e2] : List Nat) + inversions ([e0, e3, e4, e5, e6, e7, e10, e11, e8, e9, e1, e2] : List Nat)) % 2 = 1 := inversions_adj_swap e10 e7 (fun he => absurd (congrArg Fin.val (@hinj_e ⟨10, by simp⟩ ⟨7, by simp⟩ he)) (by simp)) [e0, e3, e4, e5, e6] [e11, e8, e9, e1, e2]
      have se11 : (inversions ([e0, e3, e4, e5, e6, e7, e10, e11, e8, e9, e1, e2] : List Nat) + inversions ([e0, e3, e4, e5, e6, e7, e10, e8, e11, e9, e1, e2] : List Nat)) % 2 = 1 := inversions_adj_swap e11 e8 (fun he => absurd (congrArg Fin.val (@hinj_e ⟨11, by simp⟩ ⟨8, by simp⟩ he)) (by simp)) [e0, e3, e4, e5, e6, e7, e10] [e9, e1, e2]
      have se12 : (inversions ([e0, e3, e4, e5, e6, e7, e10, e8, e11, e9, e1, e2] : List Nat) + inversions ([e0, e3, e4, e5, e6, e7, e8, e10, e11, e9, e1, e2] : List Nat)) % 2 = 1 := inversions_adj_swap e10 e8 (fun he => absurd (congrArg Fin.val (@hinj_e ⟨10, by simp⟩ ⟨8, by simp⟩ he)) (by simp)) [e0, e3, e4, e5, e6, e7] [e11, e9, e1, e2]
      have se13 : (inversions ([e0, e3, e4, e5, e6, e7, e8, e10, e11, e9, e1, e2] : List Nat) + inversions ([e0, e3, e4, e5, e6, e7, e8, e10, e9, e11, e1, e2] : List Nat)) % 2 = 1 := inversions_adj_swap e11 e9 (fun he => absurd (congrArg Fin.val (@hinj_e ⟨11, by simp⟩ ⟨9, by simp⟩ he)) (by simp)) [e0, e3, e4, e5, e6, e7, e8, e10] [e1, e2]
      have se14 : (inversions ([e0, e3, e4, e5, e6, e7, e8, e10, e9, e11, e1, e2] : List Nat) + inversions ([e0, e3, e4, e5, e6, e7, e8, e9, e10, e11, e1, e2] : List Nat)) % 2 = 1 := inversions_adj_swap e10 e9 (fun he => absurd (congrArg Fin.val (@hinj_e ⟨10, by simp⟩ ⟨9, by simp⟩ he)) (by simp)) [e0, e3, e4, e5, e6, e7, e8] [e11, e1, e2]
      have se15 : (inversions ([e0, e3, e4, e5, e6, e7, e8, e9, e10, e11, e1, e2] : List Nat) + inversions ([e0, e3, e4, e5, e6, e7, e8, e9, e10, e1, e11, e2] : List Nat)) % 2 = 1 := inversions_adj_swap e11 e1 (fun he => absurd (congrArg Fin.val (@hinj_e ⟨11, by simp⟩ ⟨1, by simp⟩ he)) (by simp)) [e0, e3, e4, e5, e6, e7, e8, e9, e10] [e2]
      have se16 : (inversions ([e0, e3, e4, e5, e6, e7, e8, e9, e10, e1, e11, e2] : List Nat) + inversions ([e0, e3, e4, e5, e6, e7, e8, e9, e1, e10, e11, e2] : List Nat)) % 2 = 1 := inversions_adj_swap e10 e1 (fun he => absurd (congrArg Fin.val (@hinj_e ⟨10, by simp⟩ ⟨1, by simp⟩ he)) (by simp)) [e0, e3, e4, e5, e6, e7, e8, e9] [e11, e2]
      have se17 : (inversions ([e0, e3, e4, e5, e6, e7, e8, e9, e1, e10, e11, e2] : List Nat) + inversions ([e0, e3, e4, e5, e6, e7, e8, e1, e9, e10, e11, e2] : List Nat)) % 2 = 1 := inversions_adj_swap e9 e1 (fun he => absurd (congrArg Fin.val (@hinj_e ⟨9, by simp⟩ ⟨1, by simp⟩ he)) (by simp)) [e0, e3, e4, e5, e6, e7, e8] [e10, e11, e2]
      have se18 : (inversions ([e0, e3, e4, e5, e6, e7, e8, e1, e9, e10, e11, e2] : List Nat) + inversions ([e0, e3, e4, e5, e6, e7, e1, e8, e9, e10, e11, e2] : List Nat)) % 2 = 1 := inversions_adj_swap e8 e1 (fun he => absurd (congrArg Fin.val (@hinj_e ⟨8, by simp⟩ ⟨1, by simp⟩ he)) (by simp)) [e0, e3, e4, e5, e6, e7] [e9, e10, e11, e2]
      have se19 : (inversions ([e0, e3, e4, e5, e6, e7, e1, e8, e9, e10, e11, e2] : List Nat) + inversions ([e0, e3, e4, e5, e6, e1, e7, e8, e9, e10, e11, e2] : List Nat)) % 2 = 1 := inversions_adj_swap e7 e1 (fun he => absurd (congrArg Fin.val (@hinj_e ⟨7, by simp⟩ ⟨1, by simp⟩ he)) (by simp)) [e0, e3, e4, e5, e6] [e8, e9, e10, e11, e2]
      have se20 : (inversions ([e0, e3, e4, e5, e6, e1, e7, e8, e9, e10, e11, e2] : List Nat) + inversions ([e0, e3, e4, e5, e1, e6, e7, e8, e9, e10, e11, e2] : List Nat)) % 2 = 1 := inversions_adj_swap e6 e1 (fun he => absurd (congrArg Fin.val (@hinj_e ⟨6, by simp⟩ ⟨1, by simp⟩ he)) (by simp)) [e0, e3, e4, e5] [e7, e8, e9, e10, e11, e2]
      have se21 : (inversions ([e0, e3, e4, e5, e1, e6, e7, e8, e9, e10, e11, e2] : List Nat) + inversions ([e0, e3, e4, e1, e5, e6, e7, e8, e9, e10, e11, e2] : List Nat)) % 2 = 1 := inversions_adj_swap e5 e1 (fun he => absurd (congrArg Fin.val (@hinj_e ⟨5, by simp⟩ ⟨1, by simp⟩ he)) (by simp)) [e0, e3, e4] [e6, e7, e8, e9, e10, e11, e2]
      have se22 : (inversions ([e0, e3, e4, e1, e5, e6, e7, e8, e9, e10, e11, e2] : List Nat) + inversions ([e0, e3, e1, e4, e5, e6, e7, e8, e9, e10, e11, e2] : List Nat)) % 2 = 1 := inversions_adj_swap e4 e1 (fun he => absurd (congrArg Fin.val (@hinj_e ⟨4, by simp⟩ ⟨1, by simp⟩ he)) (by simp)) [e0, e3] [e5, e6, e7, e8, e9, e10, e11, e2]
      have se23 : (inversions ([e0, e3, e1, e4, e5, e6, e7, e8, e9, e10, e11, e2] : List Nat) + inversions ([e0, e1, e3, e4, e5, e6, e7, e8, e9, e10, e11, e2] : List Nat)) % 2 = 1 := inversions_adj_swap e3 e1 (fun he => absurd (congrArg Fin.val (@hinj_e ⟨3, by simp⟩ ⟨1, by simp⟩ he)) (by simp)) [e0] [e4, e5, e6, e7, e8, e9, e10, e11, e2]
      have se24 : (inversions ([e0, e1, e3, e4, e5, e6, e7, e8, e9, e10, e11, e2] : List Nat) + inversions ([e0, e1, e3, e4, e5, e6, e7, e8, e9, e10, e2, e11] : List Nat)) % 2 = 1 := inversions_adj_swap e11 e2 (fun he => absurd (congrArg Fin.val (@hinj_e ⟨11, by simp⟩ ⟨2, by simp⟩ he)) (by simp)) [e0, e1, e3, e4, e5, e6, e7, e8, e9, e10] []
      have se25 : (inversions ([e0, e1, e3, e4, e5, e6, e7, e8, e9, e10, e2, e11] : List Nat) + inversions ([e0, e1, e3, e4, e5, e6, e7, e8, e9, e2, e10, e11] : List Nat)) % 2 = 1 := inversions_adj_swap e10 e2 (fun he => absurd (congrArg Fin.val (@hinj_e ⟨10, by simp⟩ ⟨2, by simp⟩ he)) (by simp)) [e0, e1, e3, e4, e5, e6, e7, e8, e9] [e11]
      have se26 : (inversions ([e0, e1, e3, e4, e5, e6, e7, e8, e9, e2, e10, e11] : List Nat) + inversions ([e0, e1, e3, e4, e5, e6, e7, e8, e2, e9, e10, e11] : List Nat)) % 2 = 1 := inversions_adj_swap e9 e2 (fun he => absurd (congrArg Fin.val (@hinj_e ⟨9, by simp⟩ ⟨2, by simp⟩ he)) (by simp)) [e0, e1, e3, e4, e5, e6, e7, e8] [e10, e11]
      have se27 : (inversions ([e0, e1, e3, e4, e5, e6, e7, e8, e2, e9, e10, e11] : List Nat) + inversions ([e0, e1, e3, e4, e5, e6, e7, e2, e8, e9, e10, e11] : List Nat)) % 2 = 1 := inversions_adj_swap e8 e2 (fun he => absurd (congrArg Fin.val (@hinj_e ⟨8, by simp⟩ ⟨2, by simp⟩ he)) (by simp)) [e0, e1, e3, e4, e5, e6, e7] [e9, e10, e11]
      have se28 : (inversions ([e0, e1, e3, e4, e5, e6, e7, e2, e8, e9, e10, e11] : List Nat) + inversions ([e0, e1, e3, e4, e5, e6, e2, e7, e8, e9, e10, e11] : List Nat)) % 2 = 1 := inversions_adj_swap e7 e2 (fun he => absurd (congrArg Fin.val (@hinj_e ⟨7, by simp⟩ ⟨2, by simp⟩ he)) (by simp)) [e0, e1, e3, e4, e5, e6] [e8, e9, e10, e11]
      have se29 : (inversions ([e0, e1, e3, e4, e5, e6, e2, e7, e8, e9, e10, e11] : List Nat) + inversions ([e0, e1, e3, e4, e5, e2, e6, e7, e8, e9, e10, e11] : List Nat)) % 2 = 1 := inversions_adj_swap e6 e2 (fun he => absurd (congrArg Fin.val (@hinj_e ⟨6, by simp⟩ ⟨2, by simp⟩ he)) (by simp)) [e0, e1, e3, e4, e5] [e7, e8, e9, e10, e11]
      have se30 : (inversions ([e0, e1, e3, e4, e5, e2, e6, e7, e8, e9, e10, e11] : List Nat) + inversions ([e0, e1, e3, e4, e2, e5, e6, e7, e8, e9, e10, e11] : List Nat)) % 2 = 1 := inversions_adj_swap e5 e2 (fun he => absurd (congrArg Fin.val (@hinj_e ⟨5, by simp⟩ ⟨2, by simp⟩ he)) (by simp)) [e0, e1, e3, e4] [e6, e7, e8, e9, e10, e11]
      have se31 : (inversions ([e0, e1, e3, e4, e2, e5, e6, e7, e8, e9, e10, e11] : List Nat) + inversions ([e0, e1, e3, e2, e4, e5, e6, e7, e8, e9, e10, e11] : List Nat)) % 2 = 1 := inversions_adj_swap e4 e2 (fun he => absurd (congrArg Fin.val (@hinj_e ⟨4, by simp⟩ ⟨2, by simp⟩ he)) (by simp)) [e0, e1, e3] [e5, e6, e7, e8, e9, e10, e11]
      have se32 : (inversions ([e0, e1, e3, e2, e4, e5, e6, e7, e8, e9, e10, e11] : List Nat) + inversions ([e0, e1, e2, e3, e4, e5, e6, e7, e8, e9, e10, e11] : List Nat)) % 2 = 1 := inversions_adj_swap e3 e2 (fun he => absurd (congrArg Fin.val (@hinj_e ⟨3, by simp⟩ ⟨2, by simp⟩ he)) (by simp)) [e0, e1] [e4, e5, e6, e7, e8, e9, e10, e11]
      omega
  · -- move B2
    simp only [step_B2]
    have pc : List.Perm [a0, a1, a7, a6, a4, a5, a3, a2]
        [a0, a1, a2, a3, a4, a5, a6, a7] :=
      (List.Perm.trans (List.Perm.trans (List.Perm.trans (List.Perm.trans (List.Perm.trans (List.Perm.trans (List.Perm.trans (List.Perm.trans (List.Perm.trans (List.Perm.trans (List.Perm.trans (List.Perm.trans (List.Perm.trans (List.Perm.cons a0 (List.Perm.cons a1 (List.Perm.swap a6 a7 [a4, a5, a3, a2]))) (List.Perm.cons a0 (List.Perm.cons a1 (List.Perm.cons a6 (List.Perm.swap a4 a7 [a5, a3, a2]))))) (List.Perm.cons a0 (List.Perm.cons a1 (List.Perm.swap a4 a6 [a7, a5, a3, a2])))) (List.Perm.cons a0 (List.Perm.cons a1 (List.Perm.cons a4 (List.Perm.cons a6 (List.Perm.swap a5 a7 [a3, a2])))))) (List.Perm.cons a0 (List.Perm.cons a1 (List.Perm.cons a4 (List.Perm.swap a5 a6 [a7, a3, a2]))))) (List.Perm.cons a0 (List.Perm.cons a1 (List.Perm.cons a4 (List.Perm.cons a5 (List.Perm.cons a6 (List.Perm.swap a3 a7 [a2]))))))) (List.Perm.cons a0 (List.Perm.cons a1 (List.Perm.cons a4 (List.Perm.cons a5 (List.Perm.swap a3 a6 [a7, a2])))))) (List.Perm.cons a0 (List.Perm.cons a1 (List.Perm.cons a4 (List.Perm.swap a3 a5 [a6, a7, a2]))))) (List.Perm.cons a0 (List.Perm.cons a1 (List.Perm.swap a3 a4 [a5, a6, a7, a2])))) (List.Perm.cons a0 (List.Perm.cons a1 (List.Perm.cons a3 (List.Perm.cons a4 (List.Perm.cons a5 (List.Perm.cons a6 (List.Perm.swap a2 a7 [])))))))) (List.Perm.cons a0 (List.Perm.cons a1 (List.Perm.cons a3 (List.Perm.cons a4 (List.Perm.cons a5 (List.Perm.swap a2 a6 [a7]))))))) (List.Perm.cons a0 (List.Perm.cons a1 (List.Perm.cons a3 (List.Perm.cons a4 (List.Perm.swap a2 a5 [a6, a7])))))) (List.Perm.cons a0 (List.Perm.cons a1 (List.Perm.cons a3 (List.Perm.swap a2 a4 [a5, a6, a7]))))) (List.Perm.cons a0 (List.Perm.cons a1 (List.Perm.swap a2 a3 [a4, a5, a6, a7]))))
    have pe : List.Perm [e0, e2, e1, e3, e4, e5, e6, e7, e8, e9, e11, e10]
        [e0, e1, e2, e3, e4, e5, e6, e7, e8, e9, e10, e11] :=
      (List.Perm.trans (List.Perm.cons e0 (List.Perm.swap e1 e2 [e3, e4, e5, e6, e7, e8, e9, e11, e10])) (List.Perm.cons e0 (List.Perm.cons e1 (List.Perm.cons e2 (List.Perm.cons e3 (List.Perm.cons e4 (List.Perm.cons e5 (List.Perm.cons e6 (List.Perm.cons e7 (List.Perm.cons e8 (List.Perm.cons e9 (List.Perm.swap e10 e11 []))))))))))))
    unfold Valid WellFormed
    refine ⟨⟨rfl, rfl, rfl, rfl, ?_, ?_⟩,
      pc.trans hpc, pe.trans hpe, ?_, ?_, ?_⟩
    · simp only [List.mem_cons, List.not_mem_nil, or_false, forall_eq_or_imp,
        forall_eq]
      omega
    · simp only [List.mem_cons, List.not_mem_nil, or_false, forall_eq_or_imp,
        forall_eq]
      omega
    · simp only [List.sum_cons, List.sum_nil] at hsc ⊢
      omega
    · simp only [List.sum_cons, List.sum_nil] at hse ⊢
      omega
    · -- parity: chain of adjacent transpositions (14 corner, 2 edge)
      show (inversions [a0, a1, a7, a6, a4, a5, a3, a2] +
        inversions [e0, e2, e1, e3, e4, e5, e6, e7, e8, e9, e11, e10]) % 2 = 0
      have sc0 : (inversions ([a0, a1, a7, a6, a4, a5, a3, a2] : List Nat) + inversions ([a0, a1, a6, a7, a4, a5, a3, a2] : List Nat)) % 2 = 1 := inversions_adj_swap a7 a6 (fun he => absurd (congrArg Fin.val (@hinj_c ⟨7, by simp⟩ ⟨6, by simp⟩ he)) (by simp)) [a0, a1] [a4, a5, a3, a2]
      have sc1 : (inversions ([a0, a1, a6, a7, a4, a5, a3, a2] : List Nat) + inversions ([a0, a1, a6, a4, a7, a5, a3, a2] : List Nat)) % 2 = 1 := inversions_adj_swap a7 a4 (fun he => absurd (congrArg Fin.val (@hinj_c ⟨7, by simp⟩ ⟨4, by simp⟩ he)) (by simp)) [a0, a1, a6] [a5, a3, a2]
      have sc2 : (inversions ([a0, a1, a6, a4, a7, a5, a3, a2] : List Nat) + inversions ([a0, a1, a4, a6, a7, a5, a3, a2] : List Nat)) % 2 = 1 := inversions_adj_swap a6 a4 (fun he => absurd (congrArg Fin.val (@hinj_c ⟨6, by simp⟩ ⟨4, by simp⟩ he)) (by simp)) [a0, a1] [a7, a5, a3, a2]
      have sc3 : (inversions ([a0, a1, a4, a6, a7, a5, a3, a2] : List Nat) + inversions ([a0, a1, a4, a6, a5, a7, a3, a2] : List Nat)) % 2 = 1 := inversions_adj_swap a7 a5 (fun he => absurd (congrArg Fin.val (@hinj_c ⟨7, by simp⟩ ⟨5, by simp⟩ he)) (by simp)) [a0, a1, a4, a6] [a3, a2]
      have sc4 : (inversions ([a0, a1, a4, a6, a5, a7, a3, a2] : List Nat) + inversions ([a0, a1, a4, a5, a6, a7, a3, a2] : List Nat)) % 2 = 1 := inversions_adj_swap a6 a5 (fun he => absurd (congrArg Fin.val (@hinj_c ⟨6, by simp⟩ ⟨5, by simp⟩ he)) (by simp)) [a0, a1, a4] [a7, a3, a2]
      have sc5 : (inversions ([a0, a1, a4, a5, a6, a7, a3, a2] : List Nat) + inversions ([a0, a1, a4, a5, a6, a3, a7, a2] : List Nat)) % 2 = 1 := inversions_adj_swap a7 a3 (fun he => absurd (congrArg Fin.val (@hinj_c ⟨7, by simp⟩ ⟨3, by simp⟩ he)) (by simp)) [a0, a1, a4, a5, a6] [a2]
      have sc6 : (inversions ([a0, a1, a4, a5, a6, a3, a7, a2] : List Nat) + inversions ([a0, a1, a4, a5, a3, a6, a7, a2] : List Nat)) % 2 = 1 := inversions_adj_swap a6 a3 (fun he => absurd (congrArg Fin.val (@hinj_c ⟨6, by simp⟩ ⟨3, by simp⟩ he)) (by simp)) [a0, a1, a4, a5] [a7, a2]
      have sc7 : (inversions ([a0, a1, a4, a5, a3, a6, a7, a2] : List Nat) + inversions ([a0, a1, a4, a3, a5, a6, a7, a2] : List Nat)) % 2 = 1 := inversions_adj_swap a5 a3 (fun he => absurd (congrArg Fin.val (@hinj_c ⟨5, by simp⟩ ⟨3, by simp⟩ he)) (by simp)) [a0, a1, a4] [a6, a7, a2]
      have sc8 : (inversions ([a0, a1, a4, a3, a5, a6, a7, a2] : List Nat) + inversions ([a0, a1, a3, a4, a5, a6, a7, a2] : List Nat)) % 2 = 1 := inversions_adj_swap a4 a3 (fun he => absurd (congrArg Fin.val (@hinj_c ⟨4, by simp⟩ ⟨3, by simp⟩ he)) (by simp)) [a0, a1] [a5, a6, a7, a2]
      have sc9 : (inversions ([a0, a1, a3, a4, a5, a6, a7, a2] : List Nat) + inversions ([a0, a1, a3, a4, a5, a6, a2, a7] : List Nat)) % 2 = 1 := inversions_adj_swap a7 a2 (fun he => absurd (congrArg Fin.val (@hinj_c ⟨7, by simp⟩ ⟨2, by simp⟩ he)) (by simp)) [a0, a1, a3, a4, a5, a6] []
      have sc10 : (inversions ([a0, a1, a3, a4, a5, a6, a2, a7] : List Nat) + inversions ([a0, a1, a3, a4, a5, a2, a6, a7] : List Nat)) % 2 = 1 := inversions_adj_swap a6 a2 (fun he => absurd (congrArg Fin.val (@hinj_c ⟨6, by simp⟩ ⟨2, by simp⟩ he)) (by simp)) [a0, a1, a3, a4, a5] [a7]
      have sc11 : (inversions ([a0, a1, a3, a4, a5, a2, a6, a7] : List Nat) + inversions ([a0, a1, a3, a4, a2, a5, a6, a7] : List Nat)) % 2 = 1 := inversions_adj_swap a5 a2 (fun he => absurd (congrArg Fin.val (@hinj_c ⟨5, by simp⟩ ⟨2, by simp⟩ he)) (by simp)) [a0, a1, a3, a4] [a6, a7]
      have sc12 : (inversions ([a0, a1, a3, a4, a2, a5, a6, a7] : List Nat) + inversions ([a0, a1, a3, a2, a4, a5, a6, a7] : List Nat)) % 2 = 1 := inversions_adj_swap a4 a2 (fun he => absurd (congrArg Fin.val (@hinj_c ⟨4, by simp⟩ ⟨2, by simp⟩ he)) (by simp)) [a0, a1, a3] [a5, a6, a7]
      have sc13 : (inversions ([a0, a1, a3, a2, a4, a5, a6, a7] : List Nat) + inversions ([a0, a1, a2, a3, a4, a5, a6, a7] : List Nat)) % 2 = 1 := inversions_adj_swap a3 a2 (fun he => absurd (congrArg Fin.val (@hinj_c ⟨3, by simp⟩ ⟨2, by simp⟩ he)) (by simp)) [a0, a1] [a4, a5, a6, a7]
      have se0 : (inversions ([e0, e2, e1, e3, e4, e5, e6, e7, e8, e9, e11, e10] : List Nat) + inversions ([e0, e1, e2, e3, e4, e5, e6, e7, e8, e9, e11, e10] : List Nat)) % 2 = 1 := inversions_adj_swap e2 e1 (fun he => absurd (congrArg Fin.val (@hinj_e ⟨2, by simp⟩ ⟨1, by simp⟩ he)) (by simp)) [e0] [e3, e4, e5, e6, e7, e8, e9, e11, e10]
      have se1 : (inversions ([e0, e1, e2, e3, e4, e5, e6, e7, e8, e9, e11, e10] : List Nat) + inversions ([e0, e1, e2, e3, e4, e5, e6, e7, e8, e9, e10, e11] : List Nat)) % 2 = 1 := inversions_adj_swap e11 e10 (fun he => absurd (congrArg Fin.val (@hinj_e ⟨11, by simp⟩ ⟨10, by simp⟩ he)) (by simp)) [e0, e1, e2, e3, e4, e5, e6, e7, e8, e9] []
      omega
  · -- move BP
    simp only [step_BP]
    have pc : List.Perm [a0, a1, a6, a2, a4, a5, a7, a3]
        [a0, a1, a2, a3, a4, a5, a6, a7] :=
      (List.Perm.trans (List.Perm.trans (List.Perm.trans (List.Perm.trans (List.Perm.trans (List.Perm.trans (List.Perm.cons a0 (List.Perm.cons a1 (List.Perm.swap a2 a6 [a4, a5, a7, a3]))) (List.Perm.cons a0 (List.Perm.cons a1 (List.Perm.cons a2 (List.Perm.swap a4 a6 [a5, a7, a3]))))) (List.Perm.cons a0 (List.Perm.cons a1 (List.Perm.cons a2 (List.Perm.cons a4 (List.Perm.swap a5 a6 [a7, a3])))))) (List.Perm.cons a0 (List.Perm.cons a1 (List.Perm.cons a2 (List.Perm.cons a4 (List.Perm.cons a5 (List.Perm.cons a6 (List.Perm.swap a3 a7 [])))))))) (List.Perm.cons a0 (List.Perm.cons a1 (List.Perm.cons a2 (List.Perm.cons a4 (List.Perm.cons a5 (List.Perm.swap a3 a6 [a7]))))))) (List.Perm.cons a0 (List.Perm.cons a1 (List.Perm.cons a2 (List.Perm.cons a4 (List.Perm.swap a3 a5 [a6, a7])))))) (List.Perm.cons a0 (List.Perm.cons a1 (List.Perm.cons a2 (List.Perm.swap a3 a4 [a5, a6, a7])))))
    have pe : List.Perm [e0, e10, e11, e3, e4, e5, e6, e7, e8, e9, e2, e1]
        [e0, e1, e2, e3, e4, e5, e6, e7, e8, e9, e10, e11] :=
      (List.Perm.trans (List.Perm.trans (List.Perm.trans (List.Perm.trans (List.Perm.trans (List.Perm.trans (List.Perm.trans (List.Perm.trans (List.Perm.trans (List.Perm.trans (List.Perm.trans (List.Perm.trans (List.Perm.trans (List.Perm.trans (List.Perm.trans (List.Perm.trans (List.Perm.trans (List.Perm.trans (List.Perm.trans (List.Perm.trans (List.Perm.trans (List.Perm.trans (List.Perm.trans (List.Perm.trans (List.Perm.trans (List.Perm.trans (List.Perm.trans (List.Perm.trans (List.Perm.trans (List.Perm.trans (List.Perm.trans (List.Perm.trans (List.Perm.cons e0 (List.Perm.cons e10 (List.Perm.swap e3 e11 [e4, e5, e6, e7, e8, e9, e2, e1]))) (List.Perm.cons e0 (List.Perm.swap e3 e10 [e11, e4, e5, e6, e7, e8, e9, e2, e1]))) (List.Perm.cons e0 (List.Perm.cons e3 (List.Perm.cons e10 (List.Perm.swap e4 e11 [e5, e6, e7, e8, e9, e2, e1]))))) (List.Perm.cons e0 (List.Perm.cons e3 (List.Perm.swap e4 e10 [e11, e5, e6, e7, e8, e9, e2, e1])))) (List.Perm.cons e0 (List.Perm.cons e3 (List.Perm.cons e4 (List.Perm.cons e10 (List.Perm.swap e5 e11 [e6, e7, e8, e9, e2, e1])))))) (List.Perm.cons e0 (List.Perm.cons e3 (List.Perm.cons e4 (List.Perm.swap e5 e10 [e11, e6, e7, e8, e9, e2, e1]))))) (List.Perm.cons e0 (List.Perm.cons e3 (List.Perm.cons e4 (List.Perm.cons e5 (List.Perm.cons e10 (List.Perm.swap e6 e11 [e7, e8, e9, e2, e1]))))))) (List.Perm.cons e0 (List.Perm.cons e3 (List.Perm.cons e4 (List.Perm.cons e5 (List.Perm.swap e6 e10 [e11, e7, e8, e9, e2, e1])))))) (List.Perm.cons e0 (List.Perm.cons e3 (List.Perm.cons e4 (List.Perm.cons e5 (List.Perm.cons e6 (List.Perm.cons e10 (List.Perm.swap e7 e11 [e8, e9, e2, e1])))))))) (List.Perm.cons e0 (List.Perm.cons e3 (List.Perm.cons e4 (List.Perm.cons e5 (List.Perm.cons e6 (List.Perm.swap e7 e10 [e11, e8, e9, e2, e1]))))))) (List.Perm.cons e0 (List.Perm.cons e3 (List.Perm.cons e4 (List.Perm.cons e5 (List.Perm.cons e6 (List.Perm.cons e7 (List.Perm.cons e10 (List.Perm.swap e8 e11 [e9, e2, e1]))))))))) (List.Perm.cons e0 (List.Perm.cons e3 (List.Perm.cons e4 (List.Perm.cons e5 (List.Perm.cons e6 (List.Perm.cons e7 (List.Perm.swap e8 e10 [e11, e9, e2, e1])))))))) (List.Perm.cons e0 (List.Perm.cons e3 (List.Perm.cons e4 (List.Perm.cons e5 (List.Perm.cons e6 (List.Perm.cons e7 (List.Perm.cons e8 (List.Perm.cons e10 (List.Perm.swap e9 e11 [e2, e1])))))))))) (List.Perm.cons e0 (List.Perm.cons e3 (List.Perm.cons e4 (List.Perm.cons e5 (List.Perm.cons e6 (List.Perm.cons e7 (List.Perm.cons e8 (List.Perm.swap e9 e10 [e11, e2, e1]))))))))) (List.Perm.cons e0 (List.Perm.cons e3 (List.Perm.cons e4 (List.Perm.cons e5 (List.Perm.cons e6 (List.Perm.cons e7 (List.Perm.cons e8 (List.Perm.cons e9 (List.Perm.cons e10 (List.Perm.swap e2 e11 [e1]))))))))))) (List.Perm.cons e0 (List.Perm.cons e3 (List.Perm.cons e4 (List.Perm.cons e5 (List.Perm.cons e6 (List.Perm.cons e7 (List.Perm.cons e8 (List.Perm.cons e9 (List.Perm.swap e2 e10 [e11, e1])))))))))) (List.Perm.cons e0 (List.Perm.cons e3 (List.Perm.cons e4 (List.Perm.cons e5 (List.Perm.cons e6 (List.Perm.cons e7 (List.Perm.cons e8 (List.Perm.swap e2 e9 [e10, e11, e1]))))))))) (List.Perm.cons e0 (List.Perm.cons e3 (List.Perm.cons e4 (List.Perm.cons e5 (List.Perm.cons e6 (List.Perm.cons e7 (List.Perm.swap e2 e8 [e9, e10, e11, e1])))))))) (List.Perm.cons e0 (List.Perm.cons e3 (List.Perm.cons e4 (List.Perm.cons e5 (List.Perm.cons e6 (List.Perm.swap e2 e7 [e8, e9, e10, e11, e1]))))))) (List.Perm.cons e0 (List.Perm.cons e3 (List.Perm.cons e4 (List.Perm.cons e5 (List.Perm.swap e2 e6 [e7, e8, e9, e10, e11, e1])))))) (List.Perm.cons e0 (List.Perm.cons e3 (List.Perm.cons e4 (List.Perm.swap e2 e5 [e6, e7, e8, e9, e10, e11, e1]))))) (List.Perm.cons e0 (List.Perm.cons e3 (List.Perm.swap e2 e4 [e5, e6, e7, e8, e9, e10, e11, e1])))) (List.Perm.cons e0 (List.Perm.swap e2 e3 [e4, e5, e6, e7, e8, e9, e10, e11, e1]))) (List.Perm.cons e0 (List.Perm.cons e2 (List.Perm.cons e3 (List.Perm.cons e4 (List.Perm.cons e5 (List.Perm.cons e6 (List.Perm.cons e7 (List.Perm.cons e8 (List.Perm.cons e9 (List.Perm.cons e10 (List.Perm.swap e1 e11 [])))))))))))) (List.Perm.cons e0 (List.Perm.cons e2 (List.Perm.cons e3 (List.Perm.cons e4 (List.Perm.cons e5 (List.Perm.cons e6 (List.Perm.cons e7 (List.Perm.cons e8 (List.Perm.cons e9 (List.Perm.swap e1 e10 [e11]))))))))))) (List.Perm.cons e0 (List.Perm.cons e2 (List.Perm.cons e3 (List.Perm.cons e4 (List.Perm.cons e5 (List.Perm.cons e6 (List.Perm.cons e7 (List.Perm.cons e8 (List.Perm.swap e1 e9 [e10, e11])))))))))) (List.Perm.cons e0 (List.Perm.cons e2 (List.Perm.cons e3 (List.Perm.cons e4 (List.Perm.cons e5 (List.Perm.cons e6 (List.Perm.cons e7 (List.Perm.swap e1 e8 [e9, e10, e11]))))))))) (List.Perm.cons e0 (List.Perm.cons e2 (List.Perm.cons e3 (List.Perm.cons e4 (List.Perm.cons e5 (List.Perm.cons e6 (List.Perm.swap e1 e7 [e8, e9, e10, e11])))))))) (List.Perm.cons e0 (List.Perm.cons e2 (List.Perm.cons e3 (List.Perm.cons e4 (List.Perm.cons e5 (List.Perm.swap e1 e6 [e7, e8, e9, e10, e11]))))))) (List.Perm.cons e0 (List.Perm.cons e2 (List.Perm.cons e3 (List.Perm.cons e4 (List.Perm.swap e1 e5 [e6, e7, e8, e9, e10, e11])))))) (List.Perm.cons e0 (List.Perm.cons e2 (List.Perm.cons e3 (List.Perm.swap e1 e4 [e5, e6, e7, e8, e9, e10, e11]))))) (List.Perm.cons e0 (List.Perm.cons e2 (List.Perm.swap e1 e3 [e4, e5, e6, e7, e8, e9, e10, e11])))) (List.Perm.cons e0 (List.Perm.swap e1 e2 [e3, e4, e5, e6, e7, e8, e9, e10, e11])))
    unfold Valid WellFormed
    refine ⟨⟨rfl, rfl, rfl, rfl, ?_, ?_⟩,
      pc.trans hpc, pe.trans hpe, ?_, ?_, ?_⟩
    · simp only [List.mem_cons, List.not_mem_nil, or_false, forall_eq_or_imp,
        forall_eq]
      omega
    · simp only [List.mem_cons, List.not_mem_nil, or_false, forall_eq_or_imp,
        forall_eq]
      omega
    · simp only [List.sum_cons, List.sum_nil] at hsc ⊢
      omega
    · simp only [List.sum_cons, List.sum_nil] at hse ⊢
      omega
    · -- parity: chain of adjacent transpositions (7 corner, 33 edge)
      show (inversions [a0, a1, a6, a2, a4, a5, a7, a3] +
        inversions [e0, e10, e11, e3, e4, e5, e6, e7, e8, e9, e2, e1]) % 2 = 0
      have sc0 : (inversions ([a0, a1, a6, a2, a4, a5, a7, a3] : List Nat) + inversions ([a0, a1, a2, a6, a4, a5, a7, a3] : List Nat)) % 2 = 1 := inversions_adj_swap a6 a2 (fun he => absurd (congrArg Fin.val (@hinj_c ⟨6, by simp⟩ ⟨2, by simp⟩ he)) (by simp)) [a0, a1] [a4, a5, a7, a3]
      have sc1 : (inversions ([a0, a1, a2, a6, a4, a5, a7, a3] : List Nat) + inversions ([a0, a1, a2, a4, a6, a5, a7, a3] : List Nat)) % 2 = 1 := inversions_adj_swap a6 a4 (fun he => absurd (congrArg Fin.val (@hinj_c ⟨6, by simp⟩ ⟨4, by simp⟩ he)) (by simp)) [a0, a1, a2] [a5, a7, a3]
      have sc2 : (inversions ([a0, a1, a2, a4, a6, a5, a7, a3] : List Nat) + inversions ([a0, a1, a2, a4, a5, a6, a7, a3] : List Nat)) % 2 = 1 := inversions_adj_swap a6 a5 (fun he => absurd (congrArg Fin.val (@hinj_c ⟨6, by simp⟩ ⟨5, by simp⟩ he)) (by simp)) [a0, a1, a2, a4] [a7, a3]
      have sc3 : (inversions ([a0, a1, a2, a4, a5, a6, a7, a3] : List Nat) + inversions ([a0, a1, a2, a4, a5, a6, a3, a7] : List Nat)) % 2 = 1 := inversions_adj_swap a7 a3 (fun he => absurd (congrArg Fin.val (@hinj_c ⟨7, by simp⟩ ⟨3, by simp⟩ he)) (by simp)) [a0, a1, a2, a4, a5, a6] []
      have sc4 : (inversions ([a0, a1, a2, a4, a5, a6, a3, a7] : List Nat) + inversions ([a0, a1, a2, a4, a5, a3, a6, a7] : List Nat)) % 2 = 1 := inversions_adj_swap a6 a3 (fun he => absurd (congrArg Fin.val (@hinj_c ⟨6, by simp⟩ ⟨3, by simp⟩ he)) (by simp)) [a0, a1, a2, a4, a5] [a7]
      have sc5 : (inversions ([a0, a1, a2, a4, a5, a3, a6, a7] : List Nat) + inversions ([a0, a1, a2, a4, a3, a5, a6, a7] : List Nat)) % 2 = 1 := inversions_adj_swap a5 a3 (fun he => absurd (congrArg Fin.val (@hinj_c ⟨5, by simp⟩ ⟨3, by simp⟩ he)) (by simp)) [a0, a1, a2, a4] [a6, a7]
      have sc6 : (inversions ([a0, a1, a2, a4, a3, a5, a6, a7] : List Nat) + inversions ([a0, a1, a2, a3, a4, a5, a6, a7] : List Nat)) % 2 = 1 := inversions_adj_swap a4 a3 (fun he => absurd (congrArg Fin.val (@hinj_c ⟨4, by simp⟩ ⟨3, by simp⟩ he)) (by simp)) [a0, a1, a2] [a5, a6, a7]
      have se0 : (inversions ([e0, e10, e11, e3, e4, e5, e6, e7, e8, e9, e2, e1] : List Nat) + inversions ([e0, e10, e3, e11, e4, e5, e6, e7, e8, e9, e2, e1] : List Nat)) % 2 = 1 := inversions_adj_swap e11 e3 (fun he => absurd (congrArg Fin.val (@hinj_e ⟨11, by simp⟩ ⟨3, by simp⟩ he)) (by simp)) [e0, e10] [e4, e5, e6, e7, e8, e9, e2, e1]
      have se1 : (inversions ([e0, e10, e3, e11, e4, e5, e6, e7, e8, e9, e2, e1] : List Nat) + inversions ([e0, e3, e10, e11, e4, e5, e6, e7, e8, e9, e2, e1] : List Nat)) % 2 = 1 := inversions_adj_swap e10 e3 (fun he => absurd (congrArg Fin.val (@hinj_e ⟨10, by simp⟩ ⟨3, by simp⟩ he)) (by simp)) [e0] [e11, e4, e5, e6, e7, e8, e9, e2, e1]
      have se2 : (inversions ([e0, e3, e10, e11, e4, e5, e6, e7, e8, e9, e2, e1] : List Nat) + inversions ([e0, e3, e10, e4, e11, e5, e6, e7, e8, e9, e2, e1] : List Nat)) % 2 = 1 := inversions_adj_swap e11 e4 (fun he => absurd (congrArg Fin.val (@hinj_e ⟨11, by simp⟩ ⟨4, by simp⟩ he)) (by simp)) [e0, e3, e10] [e5, e6, e7, e8, e9, e2, e1]
      have se3 : (inversions ([e0, e3, e10, e4, e11, e5, e6, e7, e8, e9, e2, e1] : List Nat) + inversions ([e0, e3, e4, e10, e11, e5, e6, e7, e8, e9, e2, e1] : List Nat)) % 2 = 1 := inversions_adj_swap e10 e4 (fun he => absurd (congrArg Fin.val (@hinj_e ⟨10, by simp⟩ ⟨4, by simp⟩ he)) (by simp)) [e0, e3] [e11, e5, e6, e7, e8, e9, e2, e1]
      have se4 : (inversions ([e0, e3, e4, e10, e11, e5, e6, e7, e8, e9, e2, e1] : List Nat) + inversions ([e0, e3, e4, e10, e5, e11, e6, e7, e8, e9, e2, e1] : List Nat)) % 2 = 1 := inversions_adj_swap e11 e5 (fun he => absurd (congrArg Fin.val (@hinj_e ⟨11, by simp⟩ ⟨5, by simp⟩ he)) (by simp)) [e0, e3, e4, e10] [e6, e7, e8, e9, e2, e1]
      have se5 : (inversions ([e0, e3, e4, e10, e5, e11, e6, e7, e8, e9, e2, e1] : List Nat) + inversions ([e0, e3, e4, e5, e10, e11, e6, e7, e8, e9, e2, e1] : List Nat)) % 2 = 1 := inversions_adj_swap e10 e5 (fun he => absurd (congrArg Fin.val (@hinj_e ⟨10, by simp⟩ ⟨5, by simp⟩ he)) (by simp)) [e0, e3, e4] [e11, e6, e7, e8, e9, e2, e1]
      have se6 : (inversions ([e0, e3, e4, e5, e10, e11, e6, e7, e8, e9, e2, e1] : List Nat) + inversions ([e0, e3, e4, e5, e10, e6, e11, e7, e8, e9, e2, e1] : List Nat)) % 2 = 1 := inversions_adj_swap e11 e6 (fun he => absurd (congrArg Fin.val (@hinj_e ⟨11, by simp⟩ ⟨6, by simp⟩ he)) (by simp)) [e0, e3, e4, e5, e10] [e7, e8, e9, e2, e1]
      have se7 : (inversions ([e0, e3, e4, e5, e10, e6, e11, e7, e8, e9, e2, e1] : List Nat) + inversions ([e0, e3, e4, e5, e6, e10, e11, e7, e8, e9, e2, e1] : List Nat)) % 2 = 1 := inversions_adj_swap e10 e6 (fun he => absurd (congrArg Fin.val (@hinj_e ⟨10, by simp⟩ ⟨6, by simp⟩ he)) (by simp)) [e0, e3, e4, e5] [e11, e7, e8, e9, e2, e1]
      have se8 : (inversions ([e0, e3, e4, e5, e6, e10, e11, e7, e8, e9, e2, e1] : List Nat) + inversions ([e0, e3, e4, e5, e6, e10, e7, e11, e8, e9, e2, e1] : List Nat)) % 2 = 1 := inversions_adj_swap e11 e7 (fun he => absurd (congrArg Fin.val (@hinj_e ⟨11, by simp⟩ ⟨7, by simp⟩ he)) (by simp)) [e0, e3, e4, e5, e6, e10] [e8, e9, e2, e1]
      have se9 : (inversions ([e0, e3, e4, e5, e6, e10, e7, e11, e8, e9, e2, e1] : List Nat) + inversions ([e0, e3, e4, e5, e6, e7, e10, e11, e8, e9, e2, e1] : List Nat)) % 2 = 1 := inversions_adj_swap e10 e7 (fun he => absurd (congrArg Fin.val (@hinj_e ⟨10, by simp⟩ ⟨7, by simp⟩ he)) (by simp)) [e0, e3, e4, e5, e6] [e11, e8, e9, e2, e1]
      have se10 : (inversions ([e0, e3, e4, e5, e6, e7, e10, e11, e8, e9, e2, e1] : List Nat) + inversions ([e0, e3, e4, e5, e6, e7, e10, e8, e11, e9, e2, e1] : List Nat)) % 2 = 1 := inversions_adj_swap e11 e8 (fun he => absurd (congrArg Fin.val (@hinj_e ⟨11, by simp⟩ ⟨8, by simp⟩ he)) (by simp)) [e0, e3, e4, e5, e6, e7, e10] [e9, e2, e1]
      have se11 : (inversions ([e0, e3, e4, e5, e6, e7, e10, e8, e11, e9, e2, e1] : List Nat) + inversions ([e0, e3, e4, e5, e6, e7, e8, e10, e11, e9, e2, e1] : List Nat)) % 2 = 1 := inversions_adj_swap e10 e8 (fun he => absurd (congrArg Fin.val (@hinj_e ⟨10, by simp⟩ ⟨8, by simp⟩ he)) (by simp)) [e0, e3, e4, e5, e6, e7] [e11, e9, e2, e1]
      have se12 : (inversions ([e0, e3, e4, e5, e6, e7, e8, e10, e11, e9, e2, e1] : List Nat) + inversions ([e0, e3, e4, e5, e6, e7, e8, e10, e9, e11, e2, e1] : List Nat)) % 2 = 1 := inversions_adj_swap e11 e9 (fun he => absurd (congrArg Fin.val (@hinj_e ⟨11, by simp⟩ ⟨9, by simp⟩ he)) (by simp)) [e0, e3, e4, e5, e6, e7, e8, e10] [e2, e1]
      have se13 : (inversions ([e0, e3, e4, e5, e6, e7, e8, e10, e9, e11, e2, e1] : List Nat) + inversions ([e0, e3, e4, e5, e6, e7, e8, e9, e10, e11, e2, e1] : List Nat)) % 2 = 1 := inversions_adj_swap e10 e9 (fun he => absurd (congrArg Fin.val (@hinj_e ⟨10, by simp⟩ ⟨9, by simp⟩ he)) (by simp)) [e0, e3, e4, e5, e6, e7, e8] [e11, e2, e1]
      have se14 : (inversions ([e0, e3, e4, e5, e6, e7, e8, e9, e10, e11, e2, e1] : List Nat) + inversions ([e0, e3, e4, e5, e6, e7, e8, e9, e10, e2, e11, e1] : List Nat)) % 2 = 1 := inversions_adj_swap e11 e2 (fun he => absurd (congrArg Fin.val (@hinj_e ⟨11, by simp⟩ ⟨2, by simp⟩ he)) (by simp)) [e0, e3, e4, e5, e6, e7, e8, e9, e10] [e1]
      have se15 : (inversions ([e0, e3, e4, e5, e6, e7, e8, e9, e10, e2, e11, e1] : List Nat) + inversions ([e0, e3, e4, e5, e6, e7, e8, e9, e2, e10, e11, e1] : List Nat)) % 2 = 1 := inversions_adj_swap e10 e2 (fun he => absurd (congrArg Fin.val (@hinj_e ⟨10, by simp⟩ ⟨2, by simp⟩ he)) (by simp)) [e0, e3, e4, e5, e6, e7, e8, e9] [e11, e1]
      have se16 : (inversions ([e0, e3, e4, e5, e6, e7, e8, e9, e2, e10, e11, e1] : List Nat) + inversions ([e0, e3, e4, e5, e6, e7, e8, e2, e9, e10, e11, e1] : List Nat)) % 2 = 1 := inversions_adj_swap e9 e2 (fun he => absurd (congrArg Fin.val (@hinj_e ⟨9, by simp⟩ ⟨2, by simp⟩ he)) (by simp)) [e0, e3, e4, e5, e6, e7, e8] [e10, e11, e1]
      have se17 : (inversions ([e0, e3, e4, e5, e6, e7, e8, e2, e9, e10, e11, e1] : List Nat) + inversions ([e0, e3, e4, e5, e6, e7, e2, e8, e9, e10, e11, e1] : List Nat)) % 2 = 1 := inversions_adj_swap e8 e2 (fun he => absurd (congrArg Fin.val (@hinj_e ⟨8, by simp⟩ ⟨2, by simp⟩ he)) (by simp)) [e0, e3, e4, e5, e6, e7] [e9, e10, e11, e1]
      have se18 : (inversions ([e0, e3, e4, e5, e6, e7, e2, e8, e9, e10, e11, e1] : List Nat) + inversions ([e0, e3, e4, e5, e6, e2, e7, e8, e9, e10, e11, e1] : List Nat)) % 2 = 1 := inversions_adj_swap e7 e2 (fun he => absurd (congrArg Fin.val (@hinj_e ⟨7, by simp⟩ ⟨2, by simp⟩ he)) (by simp)) [e0, e3, e4, e5, e6] [e8, e9, e10, e11, e1]
      have se19 : (inversions ([e0, e3, e4, e5, e6, e2, e7, e8, e9, e10, e11, e1] : List Nat) + inversions ([e0, e3, e4, e5, e2, e6, e7, e8, e9, e10, e11, e1] : List Nat)) % 2 = 1 := inversions_adj_swap e6 e2 (fun he => absurd (congrArg Fin.val (@hinj_e ⟨6, by simp⟩ ⟨2, by simp⟩ he)) (by simp)) [e0, e3, e4, e5] [e7, e8, e9, e10, e11, e1]
      have se20 : (inversions ([e0, e3, e4, e5, e2, e6, e7, e8, e9, e10, e11, e1] : List Nat) + inversions ([e0, e3, e4, e2, e5, e6, e7, e8, e9, e10, e11, e1] : List Nat)) % 2 = 1 := inversions_adj_swap e5 e2 (fun he => absurd (congrArg Fin.val (@hinj_e ⟨5, by simp⟩ ⟨2, by simp⟩ he)) (by simp)) [e0, e3, e4] [e6, e7, e8, e9, e10, e11, e1]
      have se21 : (inversions ([e0, e3, e4, e2, e5, e6, e7, e8, e9, e10, e11, e1] : List Nat) + inversions ([e0, e3, e2, e4, e5, e6, e7, e8, e9, e10, e11, e1] : List Nat)) % 2 = 1 := inversions_adj_swap e4 e2 (fun he => absurd (congrArg Fin.val (@hinj_e ⟨4, by simp⟩ ⟨2, by simp⟩ he)) (by simp)) [e0, e3] [e5, e6, e7, e8, e9, e10, e11, e1]
      have se22 : (inversions ([e0, e3, e2, e4, e5, e6, e7, e8, e9, e10, e11, e1] : List Nat) + inversions ([e0, e2, e3, e4, e5, e6, e7, e8, e9, e10, e11, e1] : List Nat)) % 2 = 1 := inversions_adj_swap e3 e2 (fun he => absurd (congrArg Fin.val (@hinj_e ⟨3, by simp⟩ ⟨2, by simp⟩ he)) (by simp)) [e0] [e4, e5, e6, e7, e8, e9, e10, e11, e1]
      have se23 : (inversions ([e0, e2, e3, e4, e5, e6, e7, e8, e9, e10, e11, e1] : List Nat) + inversions ([e0, e2, e3, e4, e5, e6, e7, e8, e9, e10, e1, e11] : List Nat)) % 2 = 1 := inversions_adj_swap e11 e1 (fun he => absurd (congrArg Fin.val (@hinj_e ⟨11, by simp⟩ ⟨1, by simp⟩ he)) (by simp)) [e0, e2, e3, e4, e5, e6, e7, e8, e9, e10] []
      have se24 : (inversions ([e0, e2, e3, e4, e5, e6, e7, e8, e9, e10, e1, e11] : List Nat) + inversions ([e0, e2, e3, e4, e5, e6, e7, e8, e9, e1, e10, e11] : List Nat)) % 2 = 1 := inversions_adj_swap e10 e1 (fun he => absurd (congrArg Fin.val (@hinj_e ⟨10, by simp⟩ ⟨1, by simp⟩ he)) (by simp)) [e0, e2, e3, e4, e5, e6, e7, e8, e9] [e11]
      have se25 : (inversions ([e0, e2, e3, e4, e5, e6, e7, e8, e9, e1, e10, e11] : List Nat) + inversions ([e0, e2, e3, e4, e5, e6, e7, e8, e1, e9, e10, e11] : List Nat)) % 2 = 1 := inversions_adj_swap e9 e1 (fun he => absurd (congrArg Fin.val (@hinj_e ⟨9, by simp⟩ ⟨1, by simp⟩ he)) (by simp)) [e0, e2, e3, e4, e5, e6, e7, e8] [e10, e11]
      have se26 : (inversions ([e0, e2, e3, e4, e5, e6, e7, e8, e1, e9, e10, e11] : List Nat) + inversions ([e0, e2, e3, e4, e5, e6, e7, e1, e8, e9, e10, e11] : List Nat)) % 2 = 1 := inversions_adj_swap e8 e1 (fun he => absurd (congrArg Fin.val (@hinj_e ⟨8, by simp⟩ ⟨1, by simp⟩ he)) (by simp)) [e0, e2, e3, e4, e5, e6, e7] [e9, e10, e11]
      have se27 : (inversions ([e0, e2, e3, e4, e5, e6, e7, e1, e8, e9, e10, e11] : List Nat) + inversions ([e0, e2, e3, e4, e5, e6, e1, e7, e8, e9, e10, e11] : List Nat)) % 2 = 1 := inversions_adj_swap e7 e1 (fun he => absurd (congrArg Fin.val (@hinj_e ⟨7, by simp⟩ ⟨1, by simp⟩ he)) (by simp)) [e0, e2, e3, e4, e5, e6] [e8, e9, e10, e11]
      have se28 : (inversions ([e0, e2, e3, e4, e5, e6, e1, e7, e8, e9, e10, e11] : List Nat) + inversions ([e0, e2, e3, e4, e5, e1, e6, e7, e8, e9, e10, e11] : List Nat)) % 2 = 1 := inversions_adj_swap e6 e1 (fun he => absurd (congrArg Fin.val (@hinj_e ⟨6, by simp⟩ ⟨1, by simp⟩ he)) (by simp)) [e0, e2, e3, e4, e5] [e7, e8, e9, e10, e11]
      have se29 : (inversions ([e0, e2, e3, e4, e5, e1, e6, e7, e8, e9, e10, e11] : List Nat) + inversions ([e0, e2, e3, e4, e1, e5, e6, e7, e8, e9, e10, e11] : List Nat)) % 2 = 1 := inversions_adj_swap e5 e1 (fun he => absurd (congrArg Fin.val (@hinj_e ⟨5, by simp⟩ ⟨1, by simp⟩ he)) (by simp)) [e0, e2, e3, e4] [e6, e7, e8, e9, e10, e11]
      have se30 : (inversions ([e0, e2, e3, e4, e1, e5, e6, e7, e8, e9, e10, e11] : List Nat) + inversions ([e0, e2, e3, e1, e4, e5, e6, e7, e8, e9, e10, e11] : List Nat)) % 2 = 1 := inversions_adj_swap e4 e1 (fun he => absurd (congrArg Fin.val (@hinj_e ⟨4, by simp⟩ ⟨1, by simp⟩ he)) (by simp)) [e0, e2, e3] [e5, e6, e7, e8, e9, e10, e11]
      have se31 : (inversions ([e0, e2, e3, e1, e4, e5, e6, e7, e8, e9, e10, e11] : List Nat) + inversions ([e0, e2, e1, e3, e4, e5, e6, e7, e8, e9, e10, e11] : List Nat)) % 2 = 1 := inversions_adj_swap e3 e1 (fun he => absurd (congrArg Fin.val (@hinj_e ⟨3, by simp⟩ ⟨1, by simp⟩ he)) (by simp)) [e0, e2] [e4, e5, e6, e7, e8, e9, e10, e11]
      have se32 : (inversions ([e0, e2, e1, e3, e4, e5, e6, e7, e8, e9, e10, e11] : List Nat) + inversions ([e0, e1, e2, e3, e4, e5, e6, e7, e8, e9, e10, e11] : List Nat)) % 2 = 1 := inversions_adj_swap e2 e1 (fun he => absurd (congrArg Fin.val (@hinj_e ⟨2, by simp⟩ ⟨1, by simp⟩ he)) (by simp)) [e0] [e3, e4, e5, e6, e7, e8, e9, e10, e11]
      omega
  · -- move D
    simp only [step_D]
    have pc : List.Perm [a0, a1, a2, a3, a5, a6, a7, a4]
        [a0, a1, a2, a3, a4, a5, a6, a7] :=
      (List.Perm.trans (List.Perm.trans (List.Perm.cons a0 (List.Perm.cons a1 (List.Perm.cons a2 (List.Perm.cons a3 (List.Perm.cons a5 (List.Perm.cons a6 (List.Perm.swap a4 a7 []))))))) (List.Perm.cons a0 (List.Perm.cons a1 (List.Perm.cons a2 (List.Perm.cons a3 (List.Perm.cons a5 (List.Perm.swap a4 a6 [a7]))))))) (List.Perm.cons a0 (List.Perm.cons a1 (List.Perm.cons a2 (List.Perm.cons a3 (List.Perm.swap a4 a5 [a6, a7]))))))
    have pe : List.Perm [e0, e1, e7, e6, e4, e5, e2, e3, e8, e9, e10, e11]
        [e0, e1, e2, e3, e4, e5, e6, e7, e8, e9, e10, e11] :=
      (List.Perm.trans (List.Perm.trans (List.Perm.trans (List.Perm.trans (List.Perm.trans (List.Perm.trans (List.Perm.trans (List.Perm.trans (List.Perm.trans (List.Perm.trans (List.Perm.trans (List.Perm.trans (List.Perm.cons e0 (List.Perm.cons e1 (List.Perm.swap e6 e7 [e4, e5, e2, e3, e8, e9, e10, e11]))) (List.Perm.cons e0 (List.Perm.cons e1 (List.Perm.cons e6 (List.Perm.swap e4 e7 [e5, e2, e3, e8, e9, e10, e11]))))) (List.Perm.cons e0 (List.Perm.cons e1 (List.Perm.swap e4 e6 [e7, e5, e2, e3, e8, e9, e10, e11])))) (List.Perm.cons e0 (List.Perm.cons e1 (List.Perm.cons e4 (List.Perm.cons e6 (List.Perm.swap e5 e7 [e2, e3, e8, e9, e10, e11])))))) (List.Perm.cons e0 (List.Perm.cons e1 (List.Perm.cons e4 (List.Perm.swap e5 e6 [e7, e2, e3, e8, e9, e10, e11]))))) (List.Perm.cons e0 (List.Perm.cons e1 (List.Perm.cons e4 (List.Perm.cons e5 (List.Perm.cons e6 (List.Perm.swap e2 e7 [e3, e8, e9, e10, e11]))))))) (List.Perm.cons e0 (List.Perm.cons e1 (List.Perm.cons e4 (List.Perm.cons e5 (List.Perm.swap e2 e6 [e7, e3, e8, e9, e10, e11])))))) (List.Perm.cons e0 (List.Perm.cons e1 (List.Perm.cons e4 (List.Perm.swap e2 e5 [e6, e7, e3, e8, e9, e10, e11]))))) (List.Perm.cons e0 (List.Perm.cons e1 (List.Perm.swap e2 e4 [e5, e6, e7, e3, e8, e9, e10, e11])))) (List.Perm.cons e0 (List.Perm.cons e1 (List.Perm.cons e2 (List.Perm.cons e4 (List.Perm.cons e5 (List.Perm.cons e6 (List.Perm.swap e3 e7 [e8, e9, e10, e11])))))))) (List.Perm.cons e0 (List.Perm.cons e1 (List.Perm.cons e2 (List.Perm.cons e4 (List.Perm.cons e5 (List.Perm.swap e3 e6 [e7, e8, e9, e10, e11]))))))) (List.Perm.cons e0 (List.Perm.cons e1 (List.Perm.cons e2 (List.Perm.cons e4 (List.Perm.swap e3 e5 [e6, e7, e8, e9, e10, e11])))))) (List.Perm.cons e0 (List.Perm.cons e1 (List.Perm.cons e2 (List.Perm.swap e3 e4 [e5, e6, e7, e8, e9, e10, e11])))))
    unfold Valid WellFormed
    refine ⟨⟨rfl, rfl, rfl, rfl, ?_, ?_⟩,
      pc.trans hpc, pe.trans hpe, ?_, ?_, ?_⟩
    · simp only [List.mem_cons, List.not_mem_nil, or_false, forall_eq_or_imp,
        forall_eq]
      omega
    · simp only [List.mem_cons, List.not_mem_nil, or_false, forall_eq_or_imp,
        forall_eq]
      omega
    · simp only [List.sum_cons, List.sum_nil] at hsc ⊢
      omega
    · simp only [List.sum_cons, List.sum_nil] at hse ⊢
      omega
    · -- parity: chain of adjacent transpositions (3 corner, 13 edge)
      show (inversions [a0, a1, a2, a3, a5, a6, a7, a4] +
        inversions [e0, e1, e7, e6, e4, e5, e2, e3, e8, e9, e10, e11]) % 2 = 0
      have sc0 : (inversions ([a0, a1, a2, a3, a5, a6, a7, a4] : List Nat) + inversions ([a0, a1, a2, a3, a5, a6, a4, a7] : List Nat)) % 2 = 1 := inversions_adj_swap a7 a4 (fun he => absurd (congrArg Fin.val (@hinj_c ⟨7, by simp⟩ ⟨4, by simp⟩ he)) (by simp)) [a0, a1, a2, a3, a5, a6] []
      have sc1 : (inversions ([a0, a1, a2, a3, a5, a6, a4, a7] : List Nat) + inversions ([a0, a1, a2, a3, a5, a4, a6, a7] : List Nat)) % 2 = 1 := inversions_adj_swap a6 a4 (fun he => absurd (congrArg Fin.val (@hinj_c ⟨6, by simp⟩ ⟨4, by simp⟩ he)) (by simp)) [a0, a1, a2, a3, a5] [a7]
      have sc2 : (inversions ([a0, a1, a2, a3, a5, a4, a6, a7] : List Nat) + inversions ([a0, a1, a2, a3, a4, a5, a6, a7] : List Nat)) % 2 = 1 := inversions_adj_swap a5 a4 (fun he => absurd (congrArg Fin.val (@hinj_c ⟨5, by simp⟩ ⟨4, by simp⟩ he)) (by simp)) [a0, a1, a2, a3] [a6, a7]
      have se0 : (inversions ([e0, e1, e7, e6, e4, e5, e2, e3, e8, e9, e10, e11] : List Nat) + inversions ([e0, e1, e6, e7, e4, e5, e2, e3, e8, e9, e10, e11] : List Nat)) % 2 = 1 := inversions_adj_swap e7 e6 (fun he => absurd (congrArg Fin.val (@hinj_e ⟨7, by simp⟩ ⟨6, by simp⟩ he)) (by simp)) [e0, e1] [e4, e5, e2, e3, e8, e9, e10, e11]
      have se1 : (inversions ([e0, e1, e6, e7, e4, e5, e2, e3, e8, e9, e10, e11] : List Nat) + inversions ([e0, e1, e6, e4, e7, e5, e2, e3, e8, e9, e10, e11] : List Nat)) % 2 = 1 := inversions_adj_swap e7 e4 (fun he => absurd (congrArg Fin.val (@hinj_e ⟨7, by simp⟩ ⟨4, by simp⟩ he)) (by simp)) [e0, e1, e6] [e5, e2, e3, e8, e9, e10, e11]
      have se2 : (inversions ([e0, e1, e6, e4, e7, e5, e2, e3, e8, e9, e10, e11] : List Nat) + inversions ([e0, e1, e4, e6, e7, e5, e2, e3, e8, e9, e10, e11] : List Nat)) % 2 = 1 := inversions_adj_swap e6 e4 (fun he => absurd (congrArg Fin.val (@hinj_e ⟨6, by simp⟩ ⟨4, by simp⟩ he)) (by simp)) [e0, e1] [e7, e5, e2, e3, e8, e9, e10, e11]
      have se3 : (inversions ([e0, e1, e4, e6, e7, e5, e2, e3, e8, e9, e10, e11] : List Nat) + inversions ([e0, e1, e4, e6, e5, e7, e2, e3, e8, e9, e10, e11] : List Nat)) % 2 = 1 := inversions_adj_swap e7 e5 (fun he => absurd (congrArg Fin.val (@hinj_e ⟨7, by simp⟩ ⟨5, by simp⟩ he)) (by simp)) [e0, e1, e4, e6] [e2, e3, e8, e9, e10, e11]
      have se4 : (inversions ([e0, e1, e4, e6, e5, e7, e2, e3, e8, e9, e10, e11] : List Nat) + inversions ([e0, e1, e4, e5, e6, e7, e2, e3, e8, e9, e10, e11] : List Nat)) % 2 = 1 := inversions_adj_swap e6 e5 (fun he => absurd (congrArg Fin.val (@hinj_e ⟨6, by simp⟩ ⟨5, by simp⟩ he)) (by simp)) [e0, e1, e4] [e7, e2, e3, e8, e9, e10, e11]
      have se5 : (inversions ([e0, e1, e4, e5, e6, e7, e2, e3, e8, e9, e10, e11] : List Nat) + inversions ([e0, e1, e4, e5, e6, e2, e7, e3, e8, e9, e10, e11] : List Nat)) % 2 = 1 := inversions_adj_swap e7 e2 (fun he => absurd (congrArg Fin.val (@hinj_e ⟨7, by simp⟩ ⟨2, by simp⟩ he)) (by simp)) [e0, e1, e4, e5, e6] [e3, e8, e9, e10, e11]
      have se6 : (inversions ([e0, e1, e4, e5, e6, e2, e7, e3, e8, e9, e10, e11] : List Nat) + inversions ([e0, e1, e4, e5, e2, e6, e7, e3, e8, e9, e10, e11] : List Nat)) % 2 = 1 := inversions_adj_swap e6 e2 (fun he => absurd (congrArg Fin.val (@hinj_e ⟨6, by simp⟩ ⟨2, by simp⟩ he)) (by simp)) [e0, e1, e4, e5] [e7, e3, e8, e9, e10, e11]
      have se7 : (inversions ([e0, e1, e4, e5, e2, e6, e7, e3, e8, e9, e10, e11] : List Nat) + inversions ([e0, e1, e4, e2, e5, e6, e7, e3, e8, e9, e10, e11] : List Nat)) % 2 = 1 := inversions_adj_swap e5 e2 (fun he => absurd (congrArg Fin.val (@hinj_e ⟨5, by simp⟩ ⟨2, by simp⟩ he)) (by simp)) [e0, e1, e4] [e6, e7, e3, e8, e9, e10, e11]
      have se8 : (inversions ([e0, e1, e4, e2, e5, e6, e7, e3, e8, e9, e10, e11] : List Nat) + inversions ([e0, e1, e2, e4, e5, e6, e7, e3, e8, e9, e10, e11] : List Nat)) % 2 = 1 := inversions_adj_swap e4 e2 (fun he => absurd (congrArg Fin.val (@hinj_e ⟨4, by simp⟩ ⟨2, by simp⟩ he)) (by simp)) [e0, e1] [e5, e6, e7, e3, e8, e9, e10, e11]
      have se9 : (inversions ([e0, e1, e2, e4, e5, e6, e7, e3, e8, e9, e10, e11] : List Nat) + inversions ([e0, e1, e2, e4, e5, e6, e3, e7, e8, e9, e10, e11] : List Nat)) % 2 = 1 := inversions_adj_swap e7 e3 (fun he => absurd (congrArg Fin.val (@hinj_e ⟨7, by simp⟩ ⟨3, by simp⟩ he)) (by simp)) [e0, e1, e2, e4, e5, e6] [e8, e9, e10, e11]
      have se10 : (inversions ([e0, e1, e2, e4, e5, e6, e3, e7, e8, e9, e10, e11] : List Nat) + inversions ([e0, e1, e2, e4, e5, e3, e6, e7, e8, e9, e10, e11] : List Nat)) % 2 = 1 := inversions_adj_swap e6 e3 (fun he => absurd (congrArg Fin.val (@hinj_e ⟨6, by simp⟩ ⟨3, by simp⟩ he)) (by simp)) [e0, e1, e2, e4, e5] [e7, e8, e9, e10, e11]
      have se11 : (inversions ([e0, e1, e2, e4, e5, e3, e6, e7, e8, e9, e10, e11] : List Nat) + inversions ([e0, e1, e2, e4, e3, e5, e6, e7, e8, e9, e10, e11] : List Nat)) % 2 = 1 := inversions_adj_swap e5 e3 (fun he => absurd (congrArg Fin.val (@hinj_e ⟨5, by simp⟩ ⟨3, by simp⟩ he)) (by simp)) [e0, e1, e2, e4] [e6, e7, e8, e9, e10, e11]
      have se12 : (inversions ([e0, e1, e2, e4, e3, e5, e6, e7, e8, e9, e10, e11] : List Nat) + inversions ([e0, e1, e2, e3, e4, e5, e6, e7, e8, e9, e10, e11] : List Nat)) % 2 = 1 := inversions_adj_swap e4 e3 (fun he => absurd (congrArg Fin.val (@hinj_e ⟨4, by simp⟩ ⟨3, by simp⟩ he)) (by simp)) [e0, e1, e2] [e5, e6, e7, e8, e9, e10, e11]
      omega
  · -- move D2
    simp only [step_D2]
    have pc : List.Perm [a0, a1, a2, a3, a6, a7, a4, a5]
        [a0, a1, a2, a3, a4, a5, a6, a7] :=
      (List.Perm.trans (List.Perm.trans (List.Perm.trans (List.Perm.cons a0 (List.Perm.cons a1 (List.Perm.cons a2 (List.Perm.cons a3 (List.Perm.cons a6 (List.Perm.swap a4 a7 [a5])))))) (List.Perm.cons a0 (List.Perm.cons a1 (List.Perm.cons a2 (List.Perm.cons a3 (List.Perm.swap a4 a6 [a7, a5])))))) (List.Perm.cons a0 (List.Perm.cons a1 (List.Perm.cons a2 (List.Perm.cons a3 (List.Perm.cons a4 (List.Perm.cons a6 (List.Perm.swap a5 a7 [])))))))) (List.Perm.cons a0 (List.Perm.cons a1 (List.Perm.cons a2 (List.Perm.cons a3 (List.Perm.cons a4 (List.Perm.swap a5 a6 [a7])))))))
    have pe : List.Perm [e0, e1, e3, e2, e4, e5, e7, e6, e8, e9, e10, e11]
        [e0, e1, e2, e3, e4, e5, e6, e7, e8, e9, e10, e11] :=
      (List.Perm.trans (List.Perm.cons e0 (List.Perm.cons e1 (List.Perm.swap e2 e3 [e4, e5, e7, e6, e8, e9, e10, e11]))) (List.Perm.cons e0 (List.Perm.cons e1 (List.Perm.cons e2 (List.Perm.cons e3 (List.Perm.cons e4 (List.Perm.cons e5 (List.Perm.swap e6 e7 [e8, e9, e10, e11]))))))))
    unfold Valid WellFormed
    refine ⟨⟨rfl, rfl, rfl, rfl, ?_, ?_⟩,
      pc.trans hpc, pe.trans hpe, ?_, ?_, ?_⟩
    · simp only [List.mem_cons, List.not_mem_nil, or_false, forall_eq_or_imp,
        forall_eq]
      omega
    · simp only [List.mem_cons, List.not_mem_nil, or_false, forall_eq_or_imp,
        forall_eq]
      omega
    · simp only [List.sum_cons, List.sum_nil] at hsc ⊢
      omega
    · simp only [List.sum_cons, List.sum_nil] at hse ⊢
      omega
    · -- parity: chain of adjacent transpositions (4 corner, 2 edge)
      show (inversions [a0, a1, a2, a3, a6, a7, a4, a5] +
        inversions [e0, e1, e3, e2, e4, e5, e7, e6, e8, e9, e10, e11]) % 2 = 0
      have sc0 : (inversions ([a0, a1, a2, a3, a6, a7, a4, a5] : List Nat) + inversions ([a0, a1, a2, a3, a6, a4, a7, a5] : List Nat)) % 2 = 1 := inversions_adj_swap a7 a4 (fun he => absurd (congrArg Fin.val (@hinj_c ⟨7, by simp⟩ ⟨4, by simp⟩ he)) (by simp)) [a0, a1, a2, a3, a6] [a5]
      have sc1 : (inversions ([a0, a1, a2, a3, a6, a4, a7, a5] : List Nat) + inversions ([a0, a1, a2, a3, a4, a6, a7, a5] : List Nat)) % 2 = 1 := inversions_adj_swap a6 a4 (fun he => absurd (congrArg Fin.val (@hinj_c ⟨6, by simp⟩ ⟨4, by simp⟩ he)) (by simp)) [a0, a1, a2, a3] [a7, a5]
      have sc2 : (inversions ([a0, a1, a2, a3, a4, a6, a7, a5] : List Nat) + inversions ([a0, a1, a2, a3, a4, a6, a5, a7] : List Nat)) % 2 = 1 := inversions_adj_swap a7 a5 (fun he => absurd (congrArg Fin.val (@hinj_c ⟨7, by simp⟩ ⟨5, by simp⟩ he)) (by simp)) [a0, a1, a2, a3, a4, a6] []
      have sc3 : (inversions ([a0, a1, a2, a3, a4, a6, a5, a7] : List Nat) + inversions ([a0, a1, a2, a3, a4, a5, a6, a7] : List Nat)) % 2 = 1 := inversions_adj_swap a6 a5 (fun he => absurd (congrArg Fin.val (@hinj_c ⟨6, by simp⟩ ⟨5, by simp⟩ he)) (by simp)) [a0, a1, a2, a3, a4] [a7]
      have se0 : (inversions ([e0, e1, e3, e2, e4, e5, e7, e6, e8, e9, e10, e11] : List Nat) + inversions ([e0, e1, e2, e3, e4, e5, e7, e6, e8, e9, e10, e11] : List Nat)) % 2 = 1 := inversions_adj_swap e3 e2 (fun he => absurd (congrArg Fin.val (@hinj_e ⟨3, by simp⟩ ⟨2, by simp⟩ he)) (by simp)) [e0, e1] [e4, e5, e7, e6, e8, e9, e10, e11]
      have se1 : (inversions ([e0, e1, e2, e3, e4, e5, e7, e6, e8, e9, e10, e11] : List Nat) + inversions ([e0, e1, e2, e3, e4, e5, e6, e7, e8, e9, e10, e11] : List Nat)) % 2 = 1 := inversions_adj_swap e7 e6 (fun he => absurd (congrArg Fin.val (@hinj_e ⟨7, by simp⟩ ⟨6, by simp⟩ he)) (by simp)) [e0, e1, e2, e3, e4, e5] [e8, e9, e10, e11]
      omega
  · -- move DP
    simp only [step_DP]
    have pc : List.Perm [a0, a1, a2, a3, a7, a4, a5, a6]
        [a0, a1, a2, a3, a4, a5, a6, a7] :=
      (List.Perm.trans (List.Perm.trans (List.Perm.cons a0 (List.Perm.cons a1 (List.Perm.cons a2 (List.Perm.cons a3 (List.Perm.swap a4 a7 [a5, a6]))))) (List.Perm.cons a0 (List.Perm.cons a1 (List.Perm.cons a2 (List.Perm.cons a3 (List.Perm.cons a4 (List.Perm.swap a5 a7 [a6]))))))) (List.Perm.cons a0 (List.Perm.cons a1 (List.Perm.cons a2 (List.Perm.cons a3 (List.Perm.cons a4 (List.Perm.cons a5 (List.Perm.swap a6 a7 []))))))))
    have pe : List.Perm [e0, e1, e6, e7, e4, e5, e3, e2, e8, e9, e10, e11]
        [e0, e1, e2, e3, e4, e5, e6, e7, e8, e9, e10, e11] :=
      (List.Perm.trans (List.Perm.trans (List.Perm.trans (List.Perm.trans (List.Perm.trans (List.Perm.trans (List.Perm.trans (List.Perm.trans (List.Perm.trans (List.Perm.trans (List.Perm.trans (List.Perm.trans (List.Perm.cons e0 (List.Perm.cons e1 (List.Perm.cons e6 (List.Perm.swap e4 e7 [e5, e3, e2, e8, e9, e10, e11])))) (List.Perm.cons e0 (List.Perm.cons e1 (List.Perm.swap e4 e6 [e7, e5, e3, e2, e8, e9, e10, e11])))) (List.Perm.cons e0 (List.Perm.cons e1 (List.Perm.cons e4 (List.Perm.cons e6 (List.Perm.swap e5 e7 [e3, e2, e8, e9, e10, e11])))))) (List.Perm.cons e0 (List.Perm.cons e1 (List.Perm.cons e4 (List.Perm.swap e5 e6 [e7, e3, e2, e8, e9, e10, e11]))))) (List.Perm.cons e0 (List.Perm.cons e1 (List.Perm.cons e4 (List.Perm.cons e5 (List.Perm.cons e6 (List.Perm.swap e3 e7 [e2, e8, e9, e10, e11]))))))) (List.Perm.cons e0 (List.Perm.cons e1 (List.Perm.cons e4 (List.Perm.cons e5 (List.Perm.swap e3 e6 [e7, e2, e8, e9, e10, e11])))))) (List.Perm.cons e0 (List.Perm.cons e1 (List.Perm.cons e4 (List.Perm.swap e3 e5 [e6, e7, e2, e8, e9, e10, e11]))))) (List.Perm.cons e0 (List.Perm.cons e1 (List.Perm.swap e3 e4 [e5, e6, e7, e2, e8, e9, e10, e11])))) (List.Perm.cons e0 (List.Perm.cons e1 (List.Perm.cons e3 (List.Perm.cons e4 (List.Perm.cons e5 (List.Perm.cons e6 (List.Perm.swap e2 e7 [e8, e9, e10, e11])))))))) (List.Perm.cons e0 (List.Perm.cons e1 (List.Perm.cons e3 (List.Perm.cons e4 (List.Perm.cons e5 (List.Perm.swap e2 e6 [e7, e8, e9, e10, e11]))))))) (List.Perm.cons e0 (List.Perm.cons e1 (List.Perm.cons e3 (List.Perm.cons e4 (List.Perm.swap e2 e5 [e6, e7, e8, e9, e10, e11])))))) (List.Perm.cons e0 (List.Perm.cons e1 (List.Perm.cons e3 (List.Perm.swap e2 e4 [e5, e6, e7, e8, e9, e10, e11]))))) (List.Perm.cons e0 (List.Perm.cons e1 (List.Perm.swap e2 e3 [e4, e5, e6, e7, e8, e9, e10, e11]))))
    unfold Valid WellFormed
    refine ⟨⟨rfl, rfl, rfl, rfl, ?_, ?_⟩,
      pc.trans hpc, pe.trans hpe, ?_, ?_, ?_⟩
    · simp only [List.mem_cons, List.not_mem_nil, or_false, forall_eq_or_imp,
        forall_eq]
      omega
    · simp only [List.mem_cons, List.not_mem_nil, or_false, forall_eq_or_imp,
        forall_eq]
      omega
    · simp only [List.sum_cons, List.sum_nil] at hsc ⊢
      omega
    · simp only [List.sum_cons, List.sum_nil] at hse ⊢
      omega
    · -- parity: chain of adjacent transpositions (3 corner, 13 edge)
      show (inversions [a0, a1, a2, a3, a7, a4, a5, a6] +
        inversions [e0, e1, e6, e7, e4, e5, e3, e2, e8, e9, e10, e11]) % 2 = 0
      have sc0 : (inversions ([a0, a1, a2, a3, a7, a4, a5, a6] : List Nat) + inversions ([a0, a1, a2, a3, a4, a7, a5, a6] : List Nat)) % 2 = 1 := inversions_adj_swap a7 a4 (fun he => absurd (congrArg Fin.val (@hinj_c ⟨7, by simp⟩ ⟨4, by simp⟩ he)) (by simp)) [a0, a1, a2, a3] [a5, a6]
      have sc1 : (inversions ([a0, a1, a2, a3, a4, a7, a5, a6] : List Nat) + inversions ([a0, a1, a2, a3, a4, a5, a7, a6] : List Nat)) % 2 = 1 := inversions_adj_swap a7 a5 (fun he => absurd (congrArg Fin.val (@hinj_c ⟨7, by simp⟩ ⟨5, by simp⟩ he)) (by simp)) [a0, a1, a2, a3, a4] [a6]
      have sc2 : (inversions ([a0, a1, a2, a3, a4, a5, a7, a6] : List Nat) + inversions ([a0, a1, a2, a3, a4, a5, a6, a7] : List Nat)) % 2 = 1 := inversions_adj_swap a7 a6 (fun he => absurd (congrArg Fin.val (@hinj_c ⟨7, by simp⟩ ⟨6, by simp⟩ he)) (by simp)) [a0, a1, a2, a3, a4, a5] []
      have se0 : (inversions ([e0, e1, e6, e7, e4, e5, e3, e2, e8, e9, e10, e11] : List Nat) + inversions ([e0, e1, e6, e4, e7, e5, e3, e2, e8, e9, e10, e11] : List Nat)) % 2 = 1 := inversions_adj_swap e7 e4 (fun he => absurd (congrArg Fin.val (@hinj_e ⟨7, by simp⟩ ⟨4, by simp⟩ he)) (by simp)) [e0, e1, e6] [e5, e3, e2, e8, e9, e10, e11]
      have se1 : (inversions ([e0, e1, e6, e4, e7, e5, e3, e2, e8, e9, e10, e11] : List Nat) + inversions ([e0, e1, e4, e6, e7, e5, e3, e2, e8, e9, e10, e11] : List Nat)) % 2 = 1 := inversions_adj_swap e6 e4 (fun he => absurd (congrArg Fin.val (@hinj_e ⟨6, by simp⟩ ⟨4, by simp⟩ he)) (by simp)) [e0, e1] [e7, e5, e3, e2, e8, e9, e10, e11]
      have se2 : (inversions ([e0, e1, e4, e6, e7, e5, e3, e2, e8, e9, e10, e11] : List Nat) + inversions ([e0, e1, e4, e6, e5, e7, e3, e2, e8, e9, e10, e11] : List Nat)) % 2 = 1 := inversions_adj_swap e7 e5 (fun he => absurd (congrArg Fin.val (@hinj_e ⟨7, by simp⟩ ⟨5, by simp⟩ he)) (by simp)) [e0, e1, e4, e6] [e3, e2, e8, e9, e10, e11]
      have se3 : (inversions ([e0, e1, e4, e6, e5, e7, e3, e2, e8, e9, e10, e11] : List Nat) + inversions ([e0, e1, e4, e5, e6, e7, e3, e2, e8, e9, e10, e11] : List Nat)) % 2 = 1 := inversions_adj_swap e6 e5 (fun he => absurd (congrArg Fin.val (@hinj_e ⟨6, by simp⟩ ⟨5, by simp⟩ he)) (by simp)) [e0, e1, e4] [e7, e3, e2, e8, e9, e10, e11]
      have se4 : (inversions ([e0, e1, e4, e5, e6, e7, e3, e2, e8, e9, e10, e11] : List Nat) + inversions ([e0, e1, e4, e5, e6, e3, e7, e2, e8, e9, e10, e11] : List Nat)) % 2 = 1 := inversions_adj_swap e7 e3 (fun he => absurd (congrArg Fin.val (@hinj_e ⟨7, by simp⟩ ⟨3, by simp⟩ he)) (by simp)) [e0, e1, e4, e5, e6] [e2, e8, e9, e10, e11]
      have se5 : (inversions ([e0, e1, e4, e5, e6, e3, e7, e2, e8, e9, e10, e11] : List Nat) + inversions ([e0, e1, e4, e5, e3, e6, e7, e2, e8, e9, e10, e11] : List Nat)) % 2 = 1 := inversions_adj_swap e6 e3 (fun he => absurd (congrArg Fin.val (@hinj_e ⟨6, by simp⟩ ⟨3, by simp⟩ he)) (by simp)) [e0, e1, e4, e5] [e7, e2, e8, e9, e10, e11]
      have se6 : (inversions ([e0, e1, e4, e5, e3, e6, e7, e2, e8, e9, e10, e11] : List Nat) + inversions ([e0, e1, e4, e3, e5, e6, e7, e2, e8, e9, e10, e11] : List Nat)) % 2 = 1 := inversions_adj_swap e5 e3 (fun he => absurd (congrArg Fin.val (@hinj_e ⟨5, by simp⟩ ⟨3, by simp⟩ he)) (by simp)) [e0, e1, e4] [e6, e7, e2, e8, e9, e10, e11]
      have se7 : (inversions ([e0, e1, e4, e3, e5, e6, e7, e2, e8, e9, e10, e11] : List Nat) + inversions ([e0, e1, e3, e4, e5, e6, e7, e2, e8, e9, e10, e11] : List Nat)) % 2 = 1 := inversions_adj_swap e4 e3 (fun he => absurd (congrArg Fin.val (@hinj_e ⟨4, by simp⟩ ⟨3, by simp⟩ he)) (by simp)) [e0, e1] [e5, e6, e7, e2, e8, e9, e10, e11]
      have se8 : (inversions ([e0, e1, e3, e4, e5, e6, e7, e2, e8, e9, e10, e11] : List Nat) + inversions ([e0, e1, e3, e4, e5, e6, e2, e7, e8, e9, e10, e11] : List Nat)) % 2 = 1 := inversions_adj_swap e7 e2 (fun he => absurd (congrArg Fin.val (@hinj_e ⟨7, by simp⟩ ⟨2, by simp⟩ he)) (by simp)) [e0, e1, e3, e4, e5, e6] [e8, e9, e10, e11]
      have se9 : (inversions ([e0, e1, e3, e4, e5, e6, e2, e7, e8, e9, e10, e11] : List Nat) + inversions ([e0, e1, e3, e4, e5, e2, e6, e7, e8, e9, e10, e11] : List Nat)) % 2 = 1 := inversions_adj_swap e6 e2 (fun he => absurd (congrArg Fin.val (@hinj_e ⟨6, by simp⟩ ⟨2, by simp⟩ he)) (by simp)) [e0, e1, e3, e4, e5] [e7, e8, e9, e10, e11]
      have se10 : (inversions ([e0, e1, e3, e4, e5, e2, e6, e7, e8, e9, e10, e11] : List Nat) + inversions ([e0, e1, e3, e4, e2, e5, e6, e7, e8, e9, e10, e11] : List Nat)) % 2 = 1 := inversions_adj_swap e5 e2 (fun he => absurd (congrArg Fin.val (@hinj_e ⟨5, by simp⟩ ⟨2, by simp⟩ he)) (by simp)) [e0, e1, e3, e4] [e6, e7, e8, e9, e10, e11]
      have se11 : (inversions ([e0, e1, e3, e4, e2, e5, e6, e7, e8, e9, e10, e11] : List Nat) + inversions ([e0, e1, e3, e2, e4, e5, e6, e7, e8, e9, e10, e11] : List Nat)) % 2 = 1 := inversions_adj_swap e4 e2 (fun he => absurd (congrArg Fin.val (@hinj_e ⟨4, by simp⟩ ⟨2, by simp⟩ he)) (by simp)) [e0, e1, e3] [e5, e6, e7, e8, e9, e10, e11]
      have se12 : (inversions ([e0, e1, e3, e2, e4, e5, e6, e7, e8, e9, e10, e11] : List Nat) + inversions ([e0, e1, e2, e3, e4, e5, e6, e7, e8, e9, e10, e11] : List Nat)) % 2 = 1 := inversions_adj_swap e3 e2 (fun he => absurd (congrArg Fin.val (@hinj_e ⟨3, by simp⟩ ⟨2, by simp⟩ he)) (by simp)) [e0, e1] [e4, e5, e6, e7, e8, e9, e10, e11]
      omega
/-! Reachability invariants (C8) -/

/-- The solved state satisfies the full invariant. -/
theorem valid_solved : Valid Cube.solved := by
  refine ⟨by unfold WellFormed; decide, List.Perm.refl _, List.Perm.refl _,
    by decide, by decide, by decide⟩

/-- Every reachable state satisfies the full invariant. -/
theorem reachable_valid (c : Cube) (h : Reachable c) : Valid c := by
  induction h with
  | solved => exact valid_solved
  | step c m hm h ih => exact valid_step c ih m hm

/-- C8: every state reachable from the solved state by legal moves has a
corner permutation that is a bijection on 0..7 and an edge permutation that
is a bijection on 0..11 (each is a rearrangement of the full index range),
a corner orientation sum divisible by 3, an edge orientation sum divisible
by 2, and corner and edge permutations of equal parity; perform_move with
each legal move preserves this set of predicates (valid_step). -/
theorem reachable_state_invariants (c : Cube) (h : Reachable c) :
    List.Perm c.corner_permutation (List.range 8) ∧
    List.Perm c.edge_permutation (List.range 12) ∧
    c.corner_orientation.sum % 3 = 0 ∧
    c.edge_orientation.sum % 2 = 0 ∧
    inversions c.corner_permutation % 2 =
      inversions c.edge_permutation % 2 := by
  obtain ⟨hwf, hpermc, hperme, hsumc, hsume, hpar⟩ := reachable_valid c h
  exact ⟨hpermc, hperme, hsumc, hsume, by omega⟩

/-- C8 witness: the invariants evaluated on the solved state. -/
theorem reachable_state_invariants_witness :
    List.Perm Cube.solved.corner_permutation (List.range 8) ∧
    List.Perm Cube.solved.edge_permutation (List.range 12) ∧
    Cube.solved.corner_orientation.sum % 3 = 0 ∧
    Cube.solved.edge_orientation.sum % 2 = 0 ∧
    inversions Cube.solved.corner_permutation % 2 =
      inversions Cube.solved.edge_permutation % 2 :=
  reachable_state_invariants Cube.solved Reachable.solved
/-! Coordinate range bounds (C2) -/

/-- The numerator loop of binom computes the descending factorial. -/
theorem descfac_fold (n k : Nat) :
    (List.range k).foldl (fun acc ii => acc * (n - ii)) 1 =
      Nat.descFactorial n k := by
  induction k with
  | zero => simp [Nat.descFactorial]
  | succ j ih =>
    rw [List.range_succ, List.foldl_append, ih]
    simp only [List.foldl_cons, List.foldl_nil, Nat.descFactorial_succ]
    exact Nat.mul_comm _ _

/-- The denominator loop of binom computes a factorial. -/
theorem fact_fold (k : Nat) :
    (List.range k).foldl (fun acc ii => acc * (ii + 2)) 1 =
      Nat.factorial (k + 1) := by
  induction k with
  | zero => simp [Nat.factorial]
  | succ j ih =>
    rw [List.range_succ, List.foldl_append, ih]
    simp only [List.foldl_cons, List.foldl_nil, Nat.factorial_succ]
    exact Nat.mul_comm _ _

/-- The source's binom agrees with the binomial coefficient everywhere. -/
theorem binom_eq_choose (n k : Nat) : binom n k = Nat.choose n k := by
  rcases k with _ | j
  · simp [binom, Nat.choose_zero_right]
  · unfold binom
    rw [descfac_fold, show j + 1 - 1 = j from rfl, fact_fold]
    exact (Nat.choose_eq_descFactorial_div_factorial n (j + 1)).symm

/-- Binomial coefficients grow along the diagonal. -/
theorem choose_le_choose_add (a b h : Nat) :
    Nat.choose a b ≤ Nat.choose (a + h) (b + h) := by
  induction h with
  | zero => exact Nat.le_refl _
  | succ j ih =>
    have hs : Nat.choose (a + j + 1) (b + j + 1) =
        Nat.choose (a + j) (b + j) + Nat.choose (a + j) (b + j + 1) :=
      Nat.choose_succ_succ _ _
    have e1 : a + (j + 1) = a + j + 1 := by omega
    have e2 : b + (j + 1) = b + j + 1 := by omega
    rw [e1, e2, hs]
    omega

/-- Unfolding the slice scan at a position holding a slice edge. -/
theorem sliceLoop_succ_hit (ep edges : List Nat) (n k p : Nat) (o : List Nat)
    (hh : ep.getD n 0 ∈ edges) :
    sliceLoop ep edges (n + 1) k p o =
      sliceLoop ep edges n (k - 1) (p + binom n k) (o ++ [ep.getD n 0]) := by
  rw [show sliceLoop ep edges (n + 1) k p o =
      if ep.getD n 0 ∈ edges then
        sliceLoop ep edges n (k - 1) (p + binom n k) (o ++ [ep.getD n 0])
      else sliceLoop ep edges n k p o from rfl, if_pos hh]

/-- Unfolding the slice scan at a position with no slice edge. -/
theorem sliceLoop_succ_miss (ep edges : List Nat) (n k p : Nat) (o : List Nat)
    (hh : ep.getD n 0 ∉ edges) :
    sliceLoop ep edges (n + 1) k p o = sliceLoop ep edges n k p o := by
  rw [show sliceLoop ep edges (n + 1) k p o =
      if ep.getD n 0 ∈ edges then
        sliceLoop ep edges n (k - 1) (p + binom n k) (o ++ [ep.getD n 0])
      else sliceLoop ep edges n k p o from rfl, if_neg hh]

/-- The number of slice-edge positions below n is at most n. -/
theorem hitsBelow_le (ep edges : List Nat) :
    ∀ n, hitsBelow ep edges n ≤ n := by
  intro n
  induction n with
  | zero => simp [hitsBelow]
  | succ j ih =>
    simp only [hitsBelow]
    split <;> omega

/-- A position holding a slice edge bumps the hit count. -/
theorem hitsBelow_succ_hit (ep edges : List Nat) (n : Nat)
    (hh : ep.getD n 0 ∈ edges) :
    hitsBelow ep edges (n + 1) = hitsBelow ep edges n + 1 := by
  rw [show hitsBelow ep edges (n + 1) = hitsBelow ep edges n +
      (if ep.getD n 0 ∈ edges then 1 else 0) from rfl, if_pos hh]

/-- Skipping a position with no slice edge leaves the hit count alone. -/
theorem hitsBelow_succ_miss (ep edges : List Nat) (n : Nat)
    (hh : ep.getD n 0 ∉ edges) :
    hitsBelow ep edges (n + 1) = hitsBelow ep edges n := by
  rw [show hitsBelow ep edges (n + 1) = hitsBelow ep edges n +
      (if ep.getD n 0 ∈ edges then 1 else 0) from rfl, if_neg hh]
  exact rfl

/-- The scan appends exactly one edge to order per hit position. -/
theorem sliceLoop_snd_length (ep edges : List Nat) :
    ∀ n k p o, ((sliceLoop ep edges n k p o).2).length =
      o.length + hitsBelow ep edges n := by
  intro n
  induction n with
  | zero =>
    intro k p o
    simp [sliceLoop, hitsBelow]
  | succ j ih =>
    intro k p o
    by_cases hcur : ep.getD j 0 ∈ edges
    · rw [sliceLoop_succ_hit _ _ _ _ _ _ hcur, ih,
        hitsBelow_succ_hit _ _ _ hcur]
      simp only [List.length_append, List.length_cons, List.length_nil]
      omega
    · rw [sliceLoop_succ_miss _ _ _ _ _ _ hcur, ih,
        hitsBelow_succ_miss _ _ _ hcur]

/-- Position-rank bound for the slice scan: as long as the positions still
to be scanned contain no more than k slice edges, the accumulated rank can
grow by at most choose n k - choose (n - hits) (k - hits). -/
theorem sliceLoop_fst_bound (ep edges : List Nat) :
    ∀ n k p o, hitsBelow ep edges n ≤ k →
      (sliceLoop ep edges n k p o).1 +
        Nat.choose (n - hitsBelow ep edges n) (k - hitsBelow ep edges n) ≤
      p + Nat.choose n k := by
  intro n
  induction n with
  | zero =>
    intro k p o h
    simp [sliceLoop, hitsBelow]
  | succ j ih =>
    intro k p o h
    by_cases hcur : ep.getD j 0 ∈ edges
    · have hh : hitsBelow ep edges (j + 1) = hitsBelow ep edges j + 1 :=
        hitsBelow_succ_hit _ _ _ hcur
      rw [hh] at h ⊢
      rcases k with _ | k2
      · omega
      · rw [sliceLoop_succ_hit _ _ _ _ _ _ hcur,
          show k2 + 1 - 1 = k2 from rfl, binom_eq_choose]
        have hb := ih k2 (p + Nat.choose j (k2 + 1))
          (o ++ [ep.getD j 0]) (by omega)
        have hsplit : Nat.choose (j + 1) (k2 + 1) =
            Nat.choose j k2 + Nat.choose j (k2 + 1) :=
          Nat.choose_succ_succ _ _
        have hjh : hitsBelow ep edges j ≤ j := hitsBelow_le _ _ _
        have e1 : j + 1 - (hitsBelow ep edges j + 1) =
            j - hitsBelow ep edges j := by omega
        have e2 : k2 + 1 - (hitsBelow ep edges j + 1) =
            k2 - hitsBelow ep edges j := by omega
        rw [e1, e2]
        omega
    · have hh : hitsBelow ep edges (j + 1) = hitsBelow ep edges j :=
        hitsBelow_succ_miss _ _ _ hcur
      rw [hh] at h ⊢
      rw [sliceLoop_succ_miss _ _ _ _ _ _ hcur]
      have hb := ih k p o h
      have hjh : hitsBelow ep edges j ≤ j := hitsBelow_le _ _ _
      rcases Nat.lt_or_ge (hitsBelow ep edges j) k with hlt | hge
      · obtain ⟨k2, rfl⟩ : ∃ k2, k = k2 + 1 := ⟨k - 1, by omega⟩
        have e3 : j + 1 - hitsBelow ep edges j =
            (j - hitsBelow ep edges j) + 1 := by omega
        have e4 : k2 + 1 - hitsBelow ep edges j =
            (k2 - hitsBelow ep edges j) + 1 := by omega
        rw [e3, e4]
        rw [e4] at hb
        have hs1 : Nat.choose ((j - hitsBelow ep edges j) + 1)
            ((k2 - hitsBelow ep edges j) + 1) =
            Nat.choose (j - hitsBelow ep edges j) (k2 - hitsBelow ep edges j) +
            Nat.choose (j - hitsBelow ep edges j)
              ((k2 - hitsBelow ep edges j) + 1) :=
          Nat.choose_succ_succ _ _
        have hs2 : Nat.choose (j + 1) (k2 + 1) =
            Nat.choose j k2 + Nat.choose j (k2 + 1) :=
          Nat.choose_succ_succ _ _
        have hdiag : Nat.choose (j - hitsBelow ep edges j)
            (k2 - hitsBelow ep edges j) ≤ Nat.choose j k2 := by
          have hd := choose_le_choose_add (j - hitsBelow ep edges j)
            (k2 - hitsBelow ep edges j) (hitsBelow ep edges j)
          rw [show j - hitsBelow ep edges j + hitsBelow ep edges j = j
              from by omega,
            show k2 - hitsBelow ep edges j + hitsBelow ep edges j = k2
              from by omega] at hd
          exact hd
        rw [hs1, hs2]
        omega
      · have e5 : k - hitsBelow ep edges j = 0 := by omega
        rw [e5] at hb ⊢
        simp only [Nat.choose_zero_right] at hb ⊢
        have hmono : Nat.choose j k ≤ Nat.choose (j + 1) k :=
          Nat.choose_le_choose k (by omega)
        omega

/-- The hit counter agrees with counting slice edges among the first n
positions. -/
theorem hitsBelow_take (ep edges : List Nat) :
    ∀ n, n ≤ ep.length →
      hitsBelow ep edges n =
        (ep.take n).countP (fun x => decide (x ∈ edges)) := by
  intro n
  induction n with
  | zero =>
    intro h
    simp [hitsBelow]
  | succ j ih =>
    intro h
    have hj : j < ep.length := by omega
    have hgd : ep.getD j 0 = ep[j] := by
      rw [List.getD_eq_getElem?_getD, List.getElem?_eq_getElem hj]
      exact rfl
    simp only [hitsBelow, List.take_succ, List.countP_append,
      List.getElem?_eq_getElem hj, Option.toList_some, List.countP_cons,
      List.countP_nil, decide_eq_true_eq, hgd, ih (by omega)]
    omega

/-- The rank of order, counting larger later entries, is below the
factorial of its length. -/
theorem permRankGreater_lt (l : List Nat) :
    permRankGreater l < Nat.factorial l.length := by
  induction l with
  | nil => simp [permRankGreater, Nat.factorial]
  | cons x xs ih =>
    have hc : xs.countP (fun y => decide (x < y)) ≤ xs.length :=
      List.countP_le_length _
    have hm := mul_le_mul_right' hc (Nat.factorial xs.length)
    have hfs : Nat.factorial (xs.length + 1) =
        (xs.length + 1) * Nat.factorial xs.length := Nat.factorial_succ _
    have hrw : (xs.length + 1) * Nat.factorial xs.length =
        xs.length * Nat.factorial xs.length + Nat.factorial xs.length := by
      ring
    simp only [permRankGreater, List.length_cons]
    omega

/-- The Lehmer rank, counting smaller later entries, is below the
factorial of the length. -/
theorem permRankLess_lt (l : List Nat) :
    permRankLess l < Nat.factorial l.length := by
  induction l with
  | nil => simp [permRankLess, Nat.factorial]
  | cons x xs ih =>
    have hc : xs.countP (fun y => decide (y < x)) ≤ xs.length :=
      List.countP_le_length _
    have hm := mul_le_mul_right' hc (Nat.factorial xs.length)
    have hfs : Nat.factorial (xs.length + 1) =
        (xs.length + 1) * Nat.factorial xs.length := Nat.factorial_succ _
    have hrw : (xs.length + 1) * Nat.factorial xs.length =
        xs.length * Nat.factorial xs.length + Nat.factorial xs.length := by
      ring
    simp only [permRankLess, List.length_cons]
    omega

/-- A positional base-b encoding of digits below b is bounded by a power
of b. -/
theorem foldl_base_bound (b : Nat) :
    ∀ (l : List Nat) (a : Nat), (∀ x ∈ l, x < b) →
      List.foldl (fun r d => b * r + d) a l < (a + 1) * b ^ l.length := by
  intro l
  induction l with
  | nil =>
    intro a h
    simp
  | cons x xs ih =>
    intro a h
    have hx : x < b := h x (List.mem_cons_self x xs)
    have hrec := ih (b * a + x) (fun y hy => h y (List.mem_cons_of_mem _ hy))
    have hstep : (b * a + x + 1) * b ^ xs.length ≤
        ((a + 1) * b) * b ^ xs.length := by
      have h1 : b * a + x + 1 ≤ (a + 1) * b := by
        have h2 : (a + 1) * b = a * b + b := by ring
        have h3 : b * a = a * b := Nat.mul_comm _ _
        omega
      exact mul_le_mul_right' h1 _
    have hpow : ((a + 1) * b) * b ^ xs.length = (a + 1) * b ^ (xs.length + 1) := by
      ring
    simp only [List.foldl_cons, List.length_cons]
    omega

/-- Any sorted slice coordinate of a length-12 edge permutation holding
exactly 4 slice edges is at most 11879. -/
theorem coord_slice_sorted_le (c : Cube) (edges : List Nat)
    (hlen : c.edge_permutation.length = 12) (helen : edges.length = 4)
    (hcnt : c.edge_permutation.countP (fun x => decide (x ∈ edges)) = 4) :
    c.coord_slice_sorted edges ≤ 11879 := by
  have hfull : hitsBelow c.edge_permutation edges
      c.edge_permutation.length = 4 := by
    rw [hitsBelow_take _ _ _ (Nat.le_refl _), List.take_length, hcnt]
  have hb := sliceLoop_fst_bound c.edge_permutation edges
    c.edge_permutation.length edges.length 0 [] (by simp [hfull, helen])
  rw [hfull, helen, hlen] at hb
  rw [show (12 : Nat) - 4 = 8 from rfl, show (4 : Nat) - 4 = 0 from rfl,
    Nat.choose_zero_right, show Nat.choose 12 4 = 495 from by decide] at hb
  have ho := sliceLoop_snd_length c.edge_permutation edges
    c.edge_permutation.length edges.length 0 []
  rw [hfull, List.length_nil] at ho
  have hp := permRankGreater_lt
    ((sliceLoop c.edge_permutation edges c.edge_permutation.length
      edges.length 0 []).2)
  rw [ho, show Nat.factorial (0 + 4) = 24 from by decide] at hp
  show 24 * (sliceLoop c.edge_permutation edges c.edge_permutation.length
      edges.length 0 []).1 +
    permRankGreater (sliceLoop c.edge_permutation edges
      c.edge_permutation.length edges.length 0 []).2 ≤ 11879
  rw [hlen, helen] at hp ⊢
  omega
/-- Corner orientation coordinate bound for length-8 orientation vectors
with entries below 3. -/
theorem coord_corner_orientation_le (c : Cube)
    (h8 : c.corner_orientation.length = 8)
    (hb : ∀ x ∈ c.corner_orientation, x < 3) :
    c.coord_corner_orientation ≤ 2186 := by
  have hbd := foldl_base_bound 3 (c.corner_orientation.take 7) 0
    (fun x hx => hb x (List.mem_of_mem_take hx))
  rw [List.length_take, h8, show (min 7 8 : Nat) = 7 from rfl] at hbd
  norm_num at hbd
  show (c.corner_orientation.take (c.corner_orientation.length - 1)).foldl
    (fun ret d => 3 * ret + d) 0 ≤ 2186
  rw [show c.corner_orientation.length - 1 = 7 from by rw [h8]]
  omega

/-- Edge orientation coordinate bound for length-12 orientation vectors
with entries below 2. -/
theorem coord_edge_orientation_le (c : Cube)
    (h12 : c.edge_orientation.length = 12)
    (hb : ∀ x ∈ c.edge_orientation, x < 2) :
    c.coord_edge_orientation ≤ 2047 := by
  have hbd := foldl_base_bound 2 (c.edge_orientation.take 11) 0
    (fun x hx => hb x (List.mem_of_mem_take hx))
  rw [List.length_take, h12, show (min 11 12 : Nat) = 11 from rfl] at hbd
  norm_num at hbd
  show (c.edge_orientation.take (c.edge_orientation.length - 1)).foldl
    (fun ret d => 2 * ret + d) 0 ≤ 2047
  rw [show c.edge_orientation.length - 1 = 11 from by rw [h12]]
  omega

/-- Corner permutation coordinate bound for length-8 permutation vectors. -/
theorem coord_corner_permutation_le (c : Cube)
    (h8 : c.corner_permutation.length = 8) :
    c.coord_corner_permutation ≤ 40319 := by
  have hlt := permRankLess_lt c.corner_permutation
  rw [h8, show Nat.factorial 8 = 40320 from by decide] at hlt
  show permRankLess c.corner_permutation ≤ 40319
  omega

/-- When the four UD-slice edges sit in positions 8..11, the sorted
RL-slice coordinate is at most 1679: the scan meets all four RL-slice
edges among the first 8 positions. -/
theorem rl_sorted_proviso_le (c : Cube)
    (hlen : c.edge_permutation.length = 12)
    (hcnt : c.edge_permutation.countP (fun x =>
      decide (x ∈ ([EDGE_UF, EDGE_UB, EDGE_DB, EDGE_DF] : List Nat))) = 4)
    (p8 : c.edge_permutation.getD 8 0 ∈
      ([EDGE_FR, EDGE_FL, EDGE_BL, EDGE_BR] : List Nat))
    (p9 : c.edge_permutation.getD 9 0 ∈
      ([EDGE_FR, EDGE_FL, EDGE_BL, EDGE_BR] : List Nat))
    (p10 : c.edge_permutation.getD 10 0 ∈
      ([EDGE_FR, EDGE_FL, EDGE_BL, EDGE_BR] : List Nat))
    (p11 : c.edge_permutation.getD 11 0 ∈
      ([EDGE_FR, EDGE_FL, EDGE_BL, EDGE_BR] : List Nat)) :
    c.coord_rl_sorted ≤ 1679 := by
  have m8 : c.edge_permutation.getD 8 0 ∉
      ([EDGE_UF, EDGE_UB, EDGE_DB, EDGE_DF] : List Nat) := by
    simp only [EDGE_UF, EDGE_UB, EDGE_DB, EDGE_DF, EDGE_FR, EDGE_FL, EDGE_BL,
      EDGE_BR, List.mem_cons, List.not_mem_nil, or_false] at p8 ⊢
    omega
  have m9 : c.edge_permutation.getD 9 0 ∉
      ([EDGE_UF, EDGE_UB, EDGE_DB, EDGE_DF] : List Nat) := by
    simp only [EDGE_UF, EDGE_UB, EDGE_DB, EDGE_DF, EDGE_FR, EDGE_FL, EDGE_BL,
      EDGE_BR, List.mem_cons, List.not_mem_nil, or_false] at p9 ⊢
    omega
  have m10 : c.edge_permutation.getD 10 0 ∉
      ([EDGE_UF, EDGE_UB, EDGE_DB, EDGE_DF] : List Nat) := by
    simp only [EDGE_UF, EDGE_UB, EDGE_DB, EDGE_DF, EDGE_FR, EDGE_FL, EDGE_BL,
      EDGE_BR, List.mem_cons, List.not_mem_nil, or_false] at p10 ⊢
    omega
  have m11 : c.edge_permutation.getD 11 0 ∉
      ([EDGE_UF, EDGE_UB, EDGE_DB, EDGE_DF] : List Nat) := by
    simp only [EDGE_UF, EDGE_UB, EDGE_DB, EDGE_DF, EDGE_FR, EDGE_FL, EDGE_BL,
      EDGE_BR, List.mem_cons, List.not_mem_nil, or_false] at p11 ⊢
    omega
  have hfull : hitsBelow c.edge_permutation
      [EDGE_UF, EDGE_UB, EDGE_DB, EDGE_DF] c.edge_permutation.length = 4 := by
    rw [hitsBelow_take _ _ _ (Nat.le_refl _), List.take_length, hcnt]
  rw [hlen] at hfull
  have h8s : hitsBelow c.edge_permutation
      [EDGE_UF, EDGE_UB, EDGE_DB, EDGE_DF] 8 = 4 := by
    rw [show (12 : Nat) = 11 + 1 from rfl, hitsBelow_succ_miss _ _ _ m11,
      show (11 : Nat) = 10 + 1 from rfl, hitsBelow_succ_miss _ _ _ m10,
      show (10 : Nat) = 9 + 1 from rfl, hitsBelow_succ_miss _ _ _ m9,
      show (9 : Nat) = 8 + 1 from rfl, hitsBelow_succ_miss _ _ _ m8] at hfull
    exact hfull
  show 24 * (sliceLoop c.edge_permutation
      [EDGE_UF, EDGE_UB, EDGE_DB, EDGE_DF] c.edge_permutation.length
      ([EDGE_UF, EDGE_UB, EDGE_DB, EDGE_DF] : List Nat).length 0 []).1 +
    permRankGreater (sliceLoop c.edge_permutation
      [EDGE_UF, EDGE_UB, EDGE_DB, EDGE_DF] c.edge_permutation.length
      ([EDGE_UF, EDGE_UB, EDGE_DB, EDGE_DF] : List Nat).length 0 []).2 ≤ 1679
  rw [hlen,
    show ([EDGE_UF, EDGE_UB, EDGE_DB, EDGE_DF] : List Nat).length = 4 from rfl,
    show (12 : Nat) = 11 + 1 from rfl, sliceLoop_succ_miss _ _ _ _ _ _ m11,
    show (11 : Nat) = 10 + 1 from rfl, sliceLoop_succ_miss _ _ _ _ _ _ m10,
    show (10 : Nat) = 9 + 1 from rfl, sliceLoop_succ_miss _ _ _ _ _ _ m9,
    show (9 : Nat) = 8 + 1 from rfl, sliceLoop_succ_miss _ _ _ _ _ _ m8]
  have hb := sliceLoop_fst_bound c.edge_permutation
    [EDGE_UF, EDGE_UB, EDGE_DB, EDGE_DF] 8 4 0 [] (by simp [h8s])
  rw [h8s, show (8 : Nat) - 4 = 4 from rfl, show (4 : Nat) - 4 = 0 from rfl,
    Nat.choose_zero_right, show Nat.choose 8 4 = 70 from by decide] at hb
  have ho := sliceLoop_snd_length c.edge_permutation
    [EDGE_UF, EDGE_UB, EDGE_DB, EDGE_DF] 8 4 0 []
  rw [h8s, List.length_nil] at ho
  have hp2 := permRankGreater_lt ((sliceLoop c.edge_permutation
    [EDGE_UF, EDGE_UB, EDGE_DB, EDGE_DF] 8 4 0 []).2)
  rw [ho, show Nat.factorial (0 + 4) = 24 from by decide] at hp2
  omega

/-- C2 fails as stated: one quarter turn of F from the solved state is
reachable, yet its edge permutation meta-coordinate is far above 40319,
because the UD-slice edges have left the UD slice. -/
theorem edge_permutation_range_counterexample :
    Reachable (Cube.solved.perform_move MOVE_F) ∧
    40319 < (Cube.solved.perform_move MOVE_F).coord_edge_permutation :=
  ⟨Reachable.step Cube.solved MOVE_F (by decide) Reachable.solved, by decide⟩

/-- C2 amended: on every reachable state the corner orientation coordinate
is at most 2186, edge orientation at most 2047, corner permutation at most
40319, each sorted slice coordinate at most 11879, unsorted UD-slice at
most 494 and UD-slice permutation at most 23; the edge permutation
meta-coordinate is at most 40319 whenever the four UD-slice edges all lie
in the UD slice (positions 8..11), and can exceed 40319 otherwise (see the
counterexample). -/
theorem reachable_coordinate_ranges (c : Cube) (h : Reachable c) :
    c.coord_corner_orientation ≤ 2186 ∧
    c.coord_edge_orientation ≤ 2047 ∧
    c.coord_corner_permutation ≤ 40319 ∧
    c.coord_ud_sorted ≤ 11879 ∧
    c.coord_rl_sorted ≤ 11879 ∧
    c.coord_fb_sorted ≤ 11879 ∧
    c.coord_ud_unsorted ≤ 494 ∧
    c.coord_ud_permutation ≤ 23 ∧
    ((c.edge_permutation.getD 8 0 ∈
        ([EDGE_FR, EDGE_FL, EDGE_BL, EDGE_BR] : List Nat) ∧
      c.edge_permutation.getD 9 0 ∈
        ([EDGE_FR, EDGE_FL, EDGE_BL, EDGE_BR] : List Nat) ∧
      c.edge_permutation.getD 10 0 ∈
        ([EDGE_FR, EDGE_FL, EDGE_BL, EDGE_BR] : List Nat) ∧
      c.edge_permutation.getD 11 0 ∈
        ([EDGE_FR, EDGE_FL, EDGE_BL, EDGE_BR] : List Nat)) →
      c.coord_edge_permutation ≤ 40319) := by
  obtain ⟨⟨h1, h2, h3, h4, h5, h6⟩, hpc, hpe, hsc, hse, hpar⟩ :=
    reachable_valid c h
  have cud : c.edge_permutation.countP (fun x =>
      decide (x ∈ ([EDGE_FR, EDGE_FL, EDGE_BL, EDGE_BR] : List Nat))) = 4 := by
    rw [hpe.countP_eq]
    decide
  have crl : c.edge_permutation.countP (fun x =>
      decide (x ∈ ([EDGE_UF, EDGE_UB, EDGE_DB, EDGE_DF] : List Nat))) = 4 := by
    rw [hpe.countP_eq]
    decide
  have cfb : c.edge_permutation.countP (fun x =>
      decide (x ∈ ([EDGE_UR, EDGE_UL, EDGE_DL, EDGE_DR] : List Nat))) = 4 := by
    rw [hpe.countP_eq]
    decide
  have hud : c.coord_ud_sorted ≤ 11879 :=
    coord_slice_sorted_le c _ h3 (by decide) cud
  have hrl : c.coord_rl_sorted ≤ 11879 :=
    coord_slice_sorted_le c _ h3 (by decide) crl
  have hfb : c.coord_fb_sorted ≤ 11879 :=
    coord_slice_sorted_le c _ h3 (by decide) cfb
  refine ⟨coord_corner_orientation_le c h2 h5,
    coord_edge_orientation_le c h4 h6,
    coord_corner_permutation_le c h1, hud, hrl, hfb, ?_, ?_, ?_⟩
  · show c.coord_ud_sorted / 24 ≤ 494
    omega
  · show c.coord_ud_sorted % 24 ≤ 23
    omega
  · rintro ⟨p8, p9, p10, p11⟩
    have hrlp : c.coord_rl_sorted ≤ 1679 :=
      rl_sorted_proviso_le c h3 crl p8 p9 p10 p11
    show 24 * c.coord_rl_sorted + c.coord_fb_sorted % 24 ≤ 40319
    omega

/-- C2 witness: the ranges evaluated on the solved state. -/
theorem reachable_coordinate_ranges_witness :
    Reachable Cube.solved ∧
    (Cube.solved.coord_corner_orientation ≤ 2186 ∧
    Cube.solved.coord_edge_orientation ≤ 2047 ∧
    Cube.solved.coord_corner_permutation ≤ 40319 ∧
    Cube.solved.coord_ud_sorted ≤ 11879 ∧
    Cube.solved.coord_rl_sorted ≤ 11879 ∧
    Cube.solved.coord_fb_sorted ≤ 11879 ∧
    Cube.solved.coord_ud_unsorted ≤ 494 ∧
    Cube.solved.coord_ud_permutation ≤ 23 ∧
    ((Cube.solved.edge_permutation.getD 8 0 ∈
        ([EDGE_FR, EDGE_FL, EDGE_BL, EDGE_BR] : List Nat) ∧
      Cube.solved.edge_permutation.getD 9 0 ∈
        ([EDGE_FR, EDGE_FL, EDGE_BL, EDGE_BR] : List Nat) ∧
      Cube.solved.edge_permutation.getD 10 0 ∈
        ([EDGE_FR, EDGE_FL, EDGE_BL, EDGE_BR] : List Nat) ∧
      Cube.solved.edge_permutation.getD 11 0 ∈
        ([EDGE_FR, EDGE_FL, EDGE_BL, EDGE_BR] : List Nat)) →
      Cube.solved.coord_edge_permutation ≤ 40319)) :=
  ⟨Reachable.solved, reachable_coordinate_ranges Cube.solved Reachable.solved⟩
/-! Claim theorems: move algebra (C1, C6, C7) -/

/-- C1: for every well-formed cube state and every one of the six faces,
applying that face's quarter-clockwise move (turn amount 1) four times
consecutively with perform_move returns exactly the original state, all
four sequences included. -/
theorem quarter_move_four_times_identity (c : Cube) (h : WellFormed c)
    (m : Int) (hm : m ∈ [MOVE_U, MOVE_L, MOVE_F, MOVE_R, MOVE_B, MOVE_D]) :
    (((c.perform_move m).perform_move m).perform_move m).perform_move m = c := by
  obtain ⟨cp, co, ep, eo⟩ := c
  obtain ⟨h1, h2, h3, h4, h5, h6⟩ := h
  obtain ⟨a0, a1, a2, a3, a4, a5, a6, a7, rfl⟩ := len8_explicit _ h1
  obtain ⟨b0, b1, b2, b3, b4, b5, b6, b7, rfl⟩ := len8_explicit _ h2
  obtain ⟨e0, e1, e2, e3, e4, e5, e6, e7, e8, e9, e10, e11, rfl⟩ :=
    len12_explicit _ h3
  obtain ⟨f0, f1, f2, f3, f4, f5, f6, f7, f8, f9, f10, f11, rfl⟩ :=
    len12_explicit _ h4
  simp only [List.mem_cons, List.not_mem_nil, or_false, forall_eq_or_imp,
    forall_eq] at h5 h6
  simp only [List.mem_cons, List.not_mem_nil, or_false] at hm
  rcases hm with rfl | rfl | rfl | rfl | rfl | rfl <;>
    simp only [step_U, step_L, step_F, step_R, step_B, step_D,
      Cube.mk.injEq, List.cons.injEq, and_true, true_and] <;>
    omega

/-- C1 witness: the law applied to the solved state for face U. -/
theorem quarter_move_four_times_identity_witness :
    WellFormed Cube.solved ∧
    MOVE_U ∈ [MOVE_U, MOVE_L, MOVE_F, MOVE_R, MOVE_B, MOVE_D] ∧
    (((Cube.solved.perform_move MOVE_U).perform_move MOVE_U).perform_move
      MOVE_U).perform_move MOVE_U = Cube.solved :=
  ⟨by unfold WellFormed; decide, by decide,
    quarter_move_four_times_identity Cube.solved
      (by unfold WellFormed; decide) MOVE_U (by decide)⟩

/-- C6: for each of the six faces and every well-formed cube state, the
quarter-clockwise and quarter-counter-clockwise moves of that face cancel
in either order. -/
theorem quarter_move_inverse_cancel (c : Cube) (h : WellFormed c)
    (m mp : Int)
    (hm : (m, mp) ∈ [(MOVE_U, MOVE_UP), (MOVE_L, MOVE_LP), (MOVE_F, MOVE_FP),
      (MOVE_R, MOVE_RP), (MOVE_B, MOVE_BP), (MOVE_D, MOVE_DP)]) :
    (c.perform_move m).perform_move mp = c ∧
    (c.perform_move mp).perform_move m = c := by
  obtain ⟨cp, co, ep, eo⟩ := c
  obtain ⟨h1, h2, h3, h4, h5, h6⟩ := h
  obtain ⟨a0, a1, a2, a3, a4, a5, a6, a7, rfl⟩ := len8_explicit _ h1
  obtain ⟨b0, b1, b2, b3, b4, b5, b6, b7, rfl⟩ := len8_explicit _ h2
  obtain ⟨e0, e1, e2, e3, e4, e5, e6, e7, e8, e9, e10, e11, rfl⟩ :=
    len12_explicit _ h3
  obtain ⟨f0, f1, f2, f3, f4, f5, f6, f7, f8, f9, f10, f11, rfl⟩ :=
    len12_explicit _ h4
  simp only [List.mem_cons, List.not_mem_nil, or_false, forall_eq_or_imp,
    forall_eq] at h5 h6
  simp only [List.mem_cons, List.not_mem_nil, or_false, Prod.mk.injEq] at hm
  rcases hm with ⟨rfl, rfl⟩ | ⟨rfl, rfl⟩ | ⟨rfl, rfl⟩ | ⟨rfl, rfl⟩ |
    ⟨rfl, rfl⟩ | ⟨rfl, rfl⟩ <;>
    constructor <;>
    simp only [step_U, step_UP, step_L, step_LP, step_F, step_FP,
      step_R, step_RP, step_B, step_BP, step_D, step_DP,
      Cube.mk.injEq, List.cons.injEq, and_true, true_and] <;>
    omega

/-- C6 witness: U then U-prime (and U-prime then U) on the solved state. -/
theorem quarter_move_inverse_cancel_witness :
    WellFormed Cube.solved ∧
    (MOVE_U, MOVE_UP) ∈ [(MOVE_U, MOVE_UP), (MOVE_L, MOVE_LP),
      (MOVE_F, MOVE_FP), (MOVE_R, MOVE_RP), (MOVE_B, MOVE_BP),
      (MOVE_D, MOVE_DP)] ∧
    ((Cube.solved.perform_move MOVE_U).perform_move MOVE_UP = Cube.solved ∧
     (Cube.solved.perform_move MOVE_UP).perform_move MOVE_U = Cube.solved) :=
  ⟨by unfold WellFormed; decide, by decide,
    quarter_move_inverse_cancel Cube.solved (by unfold WellFormed; decide)
      MOVE_U MOVE_UP (by decide)⟩

/-- C7: from the solved state, the 24-move sequence repeating
R, U, R-prime, U-prime six times returns exactly the solved state. -/
theorem commutator_rurpup_order_six :
    ([MOVE_R, MOVE_U, MOVE_RP, MOVE_UP, MOVE_R, MOVE_U, MOVE_RP, MOVE_UP,
      MOVE_R, MOVE_U, MOVE_RP, MOVE_UP, MOVE_R, MOVE_U, MOVE_RP, MOVE_UP,
      MOVE_R, MOVE_U, MOVE_RP, MOVE_UP, MOVE_R, MOVE_U, MOVE_RP,
      MOVE_UP]).foldl Cube.perform_move Cube.solved = Cube.solved := by
  decide

/-! Claim theorems: frame and error behaviour (C9, C10, C4) -/

/-- C9: perform_move builds a brand-new state from copies of the input's
sequences (the embedding of the source is a pure function, so the input
value is untouched by construction), and every corner and edge position
outside the turned face's 4-position cycle holds the same permutation and
orientation entry in the new state as in the old one. -/
theorem untouched_positions_unchanged (c : Cube) (h : WellFormed c)
    (m : Int) (hm : m ∈ legal_moves) (p : Nat) :
    (p < 8 → p ∉ corners_moved m →
      (c.perform_move m).corner_permutation.getD p 0 =
        c.corner_permutation.getD p 0 ∧
      (c.perform_move m).corner_orientation.getD p 0 =
        c.corner_orientation.getD p 0) ∧
    (p < 12 → p ∉ edges_moved m →
      (c.perform_move m).edge_permutation.getD p 0 =
        c.edge_permutation.getD p 0 ∧
      (c.perform_move m).edge_orientation.getD p 0 =
        c.edge_orientation.getD p 0) := by
  obtain ⟨cp, co, ep, eo⟩ := c
  obtain ⟨h1, h2, h3, h4, h5, h6⟩ := h
  obtain ⟨a0, a1, a2, a3, a4, a5, a6, a7, rfl⟩ := len8_explicit _ h1
  obtain ⟨b0, b1, b2, b3, b4, b5, b6, b7, rfl⟩ := len8_explicit _ h2
  obtain ⟨e0, e1, e2, e3, e4, e5, e6, e7, e8, e9, e10, e11, rfl⟩ :=
    len12_explicit _ h3
  obtain ⟨f0, f1, f2, f3, f4, f5, f6, f7, f8, f9, f10, f11, rfl⟩ :=
    len12_explicit _ h4
  simp only [legal_moves, List.mem_cons, List.not_mem_nil, or_false] at hm
  rcases hm with rfl | rfl | rfl | rfl | rfl | rfl | rfl | rfl | rfl | rfl |
    rfl | rfl | rfl | rfl | rfl | rfl | rfl | rfl <;>
    (constructor <;> intro hp hpmem <;> interval_cases p <;>
      first
        | exact absurd (by decide) hpmem
        | (simp only [step_U, step_U2, step_UP, step_L, step_L2, step_LP,
            step_F, step_F2, step_FP, step_R, step_R2, step_RP,
            step_B, step_B2, step_BP, step_D, step_D2, step_DP]
           exact ⟨rfl, rfl⟩))

/-- C9 witness: face U on the solved state, position 7. -/
theorem untouched_positions_unchanged_witness :
    WellFormed Cube.solved ∧ MOVE_U ∈ legal_moves ∧
    ((7 < 8 → 7 ∉ corners_moved MOVE_U →
      (Cube.solved.perform_move MOVE_U).corner_permutation.getD 7 0 =
        Cube.solved.corner_permutation.getD 7 0 ∧
      (Cube.solved.perform_move MOVE_U).corner_orientation.getD 7 0 =
        Cube.solved.corner_orientation.getD 7 0) ∧
    (7 < 12 → 7 ∉ edges_moved MOVE_U →
      (Cube.solved.perform_move MOVE_U).edge_permutation.getD 7 0 =
        Cube.solved.edge_permutation.getD 7 0 ∧
      (Cube.solved.perform_move MOVE_U).edge_orientation.getD 7 0 =
        Cube.solved.edge_orientation.getD 7 0)) :=
  ⟨by unfold WellFormed; decide, by decide,
    untouched_positions_unchanged Cube.solved (by unfold WellFormed; decide)
      MOVE_U (by decide) 7⟩

/-- C10: a move identifier matching none of the 18 named moves leaves all
cycle and twist/flip vectors empty, so both update loops run zero times and
perform_move returns a state equal to its input, with no error reported. -/
theorem unmatched_move_returns_input (c : Cube) (m : Int)
    (hm : m ∉ legal_moves) : c.perform_move m = c := by
  obtain ⟨cp, co, ep, eo⟩ := c
  simp only [legal_moves, List.mem_cons, List.not_mem_nil, or_false,
    not_or] at hm
  obtain ⟨n1, n2, n3, n4, n5, n6, n7, n8, n9, n10, n11, n12, n13, n14, n15,
    n16, n17, n18⟩ := hm
  simp [Cube.perform_move, corners_moved, edges_moved, corner_twist,
    edge_flip, cycleUpdate, n1, n2, n3, n4, n5, n6, n7, n8, n9, n10, n11,
    n12, n13, n14, n15, n16, n17, n18]

/-- C10 witness: the out-of-range move identifier 18 on the solved state. -/
theorem unmatched_move_returns_input_witness :
    (18 : Int) ∉ legal_moves ∧ Cube.solved.perform_move 18 = Cube.solved :=
  ⟨by decide, unmatched_move_returns_input Cube.solved 18 (by decide)⟩

/-- C4: evaluating perform_move at the out-of-range move identifier 18
silently returns the input state unchanged; no failure of any kind is
reported to the caller, contrary to the claim. -/
theorem unmatched_move_no_failure :
    Cube.solved.perform_move 18 = Cube.solved := by decide

/-! Claim theorems: coordinates of the solved state (C3) -/

/-- C3 fails as stated: after U then U-prime the state is exactly the
solved state again, but its unsorted UD-slice coordinate is 494, not 0, so
the coordinate functions do not all return 0 there. -/
theorem seven_coordinates_counterexample :
    (Cube.solved.perform_move MOVE_U).perform_move MOVE_UP = Cube.solved ∧
    ((Cube.solved.perform_move MOVE_U).perform_move
      MOVE_UP).coord_ud_unsorted ≠ 0 := by decide

/-- C3 amended: the solved state has corner permutation, edge permutation,
corner orientation and edge orientation coordinates 0; applying U then
U-prime to the solved state returns exactly the solved state, on which the
coordinate functions evaluate to 0 for corner permutation, edge
permutation, corner orientation, edge orientation, sorted RL-slice and
UD-slice permutation, while sorted UD-slice is 11856, sorted FB-slice is
1656 and unsorted UD-slice is 494. -/
theorem solved_state_coordinates :
    Cube.solved.coord_corner_permutation = 0 ∧
    Cube.solved.coord_edge_permutation = 0 ∧
    Cube.solved.coord_corner_orientation = 0 ∧
    Cube.solved.coord_edge_orientation = 0 ∧
    (Cube.solved.perform_move MOVE_U).perform_move MOVE_UP = Cube.solved ∧
    ((Cube.solved.perform_move MOVE_U).perform_move
      MOVE_UP).coord_corner_permutation = 0 ∧
    ((Cube.solved.perform_move MOVE_U).perform_move
      MOVE_UP).coord_edge_permutation = 0 ∧
    ((Cube.solved.perform_move MOVE_U).perform_move
      MOVE_UP).coord_corner_orientation = 0 ∧
    ((Cube.solved.perform_move MOVE_U).perform_move
      MOVE_UP).coord_edge_orientation = 0 ∧
    ((Cube.solved.perform_move MOVE_U).perform_move
      MOVE_UP).coord_rl_sorted = 0 ∧
    ((Cube.solved.perform_move MOVE_U).perform_move
      MOVE_UP).coord_ud_permutation = 0 ∧
    ((Cube.solved.perform_move MOVE_U).perform_move
      MOVE_UP).coord_ud_sorted = 11856 ∧
    ((Cube.solved.perform_move MOVE_U).perform_move
      MOVE_UP).coord_fb_sorted = 1656 ∧
    ((Cube.solved.perform_move MOVE_U).perform_move
      MOVE_UP).coord_ud_unsorted = 494 := by decide

/-! Claim theorems: meta-coordinate laws (C5) -/

/-- C5 fails as stated: swapCube has a bijective edge permutation with all
four UD-slice edges inside the UD slice, yet its meta-composed edge
permutation coordinate (24) differs from the direct Lehmer rank of the 8
non-UD-slice edges (5040). -/
theorem meta_vs_direct_rank_counterexample :
    (∀ v, v < 12 → swapCube.edge_permutation.count v = 1) ∧
    (∀ i, i ∈ [8, 9, 10, 11] → swapCube.edge_permutation.getD i 0 ∈
      [EDGE_FR, EDGE_FL, EDGE_BL, EDGE_BR]) ∧
    swapCube.coord_edge_permutation ≠ direct_nonud_rank_spec swapCube := by
  decide

/-- C5 amended: the composition laws that hold for every state: the edge
permutation meta-coordinate equals 24 * rl_sorted + fb_sorted % 24, and
24 * ud_unsorted + ud_permutation reassembles ud_sorted.  (The composed
coordinate is not the direct Lehmer rank of the 8 non-UD-slice edges: see
the counterexample.) -/
theorem meta_coordinate_composition (c : Cube) :
    c.coord_edge_permutation =
      24 * c.coord_rl_sorted + c.coord_fb_sorted % 24 ∧
    24 * c.coord_ud_unsorted + c.coord_ud_permutation = c.coord_ud_sorted :=
  ⟨rfl, Nat.div_add_mod _ 24⟩
